import Mathlib

/-!
# Seven-segment API for the LPC802: a shallow embedding

The C library keeps all of its state in global variables.  The embedding
collects them in one record, `State`, and every C function becomes a pure
function `State → … → State`.

Modelling conventions
* `int` is an unbounded `Int`; C division and remainder truncate towards
  zero (`Int.tdiv`, `Int.tmod`).
* `char` is an unsigned byte kept as a `Nat`; storing an `int` into a `char`
  reduces it modulo 256 (`toChar`).
* A C string is the list of its bytes without the terminating NUL.
* Arrays are total maps from an `Int` index to their element, so that an
  access outside the declared bounds is an access to whatever the map holds
  there.  `carouselSequence` and `sliderSequence` are declared with a single
  element (`char carouselSequence[] = ""`); the functions below treat both as
  buffers large enough for the text and separate from the other globals.
  What the configuration functions assign and the interrupts read outside
  that single element is recorded by `carouselSequenceSize`,
  `sliderSequenceSize`, `carouselWriteIndices`, `sliderWriteIndices`,
  `carouselReadIndices` and `sliderReadIndices`.
* Of the peripherals only the programmed periods and the GPIO output levels
  and directions are kept; interrupt masking, peripheral resets and the
  CTIMER counter reset are not represented.
-/

namespace SevenSegment

/-! ## Characters and strings -/

/-- Byte of the blank character. -/
def SPACE : Nat := 32

/-- Conversion of an `int` to an (unsigned) `char`. -/
def toChar (x : Int) : Nat := (x % 256).toNat

/-- The test `strcmp(a, b) == 0`: both strings agree up to their first NUL. -/
def strcmpEq (a b : List Nat) : Bool :=
  a.takeWhile (fun c => c != 0) == b.takeWhile (fun c => c != 0)

/-- The call `strncpy(dst, src, 4)` on a four byte destination: the result is
the new content of the destination. -/
def strncpy4 (src : List Nat) : List Nat :=
  ((src.takeWhile (fun c => c != 0)) ++ [0, 0, 0, 0]).take 4

/-- The element `a[i]` of a C string argument; the byte after the text is the
terminating NUL, and any other position outside the text reads as 0. -/
def cget (a : List Nat) (i : Int) : Nat :=
  if i < 0 then 0 else a.getD i.toNat 0

/-- The assignment `a[i] = v`. -/
def setAt {α : Type} (a : Int → α) (i : Int) (v : α) : Int → α :=
  fun j => if j = i then v else a j

/-- String literal "UP". -/
def strUP : List Nat := [85, 80]
/-- String literal "DOWN". -/
def strDOWN : List Nat := [68, 79, 87, 78]
/-- String literal "SysTick". -/
def strSysTick : List Nat := [83, 121, 115, 84, 105, 99, 107]
/-- String literal "WKT". -/
def strWKT : List Nat := [87, 75, 84]
/-- String literal "MRT0". -/
def strMRT0 : List Nat := [77, 82, 84, 48]
/-- String literal "MRT1". -/
def strMRT1 : List Nat := [77, 82, 84, 49]
/-- String literal "CTIMER0". -/
def strCTIMER0 : List Nat := [67, 84, 73, 77, 69, 82, 48]

/-! ## The global variables -/

/-- The globals of `seven_segment.c` together with the peripheral registers the
library writes. -/
structure State where
  /-- `int segments[7]` -/
  segments : Int → Int
  dp : Int
  enableDP : Bool
  /-- `int digits[4]` -/
  digits : Int → Int
  sevenSegType : Int
  /-- `char chrSequence[4]`, the display buffer -/
  chrSequence : Int → Nat
  currentDigit : Int
  currentClock : Int
  cycleRate : Int
  startCount : Int
  currentCount : Int
  normalizedCount : Int
  /-- `char countDirection[4]` -/
  countDirection : List Nat
  countRate : Int
  countIncrement : Int
  countClock : Int
  pauseCounter : Bool
  enableCountStopValue : Bool
  countStopValue : Int
  transitionClock : Int
  transitionRate : Int
  transitionIndex : Int
  carouselSequenceLength : Int
  /-- `char carouselSequence[] = ""`: one element in the source, kept here as
  a map over all positions -/
  carouselSequence : Int → Nat
  enableContinousCycle : Bool
  carouselOverflow : Bool
  pauseCarouselTransition : Bool
  /-- `char sliderSequence[] = ""`: one element in the source, kept here as a
  map over all positions -/
  sliderSequence : Int → Nat
  sliderSequenceLength : Int
  pauseSliderTransition : Bool
  sliderTransitionIndex : Int
  /-- output level of each GPIO pin (`GPIO->SET[0]`, `GPIO->CLR[0]`) -/
  gpioLevel : Int → Bool
  /-- pins switched to output (`GPIO->DIRSET[0]`) -/
  gpioDir : Int → Bool
  /-- period handed to `SysTick_Config` -/
  sysTickPeriod : Int
  /-- `WKT->COUNT` -/
  wktCount : Int
  /-- `MRT0->CHANNEL[0].INTVAL`, without the load bit -/
  mrtIntval0 : Int
  /-- `MRT0->CHANNEL[1].INTVAL`, without the load bit -/
  mrtIntval1 : Int
  /-- `CTIMER0->MR[0]` -/
  ctimerMatch0 : Int

/-- The state after program start: every global holds its initialiser. -/
def State.init : State where
  segments := fun _ => -1
  dp := -1
  enableDP := false
  digits := fun _ => -1
  sevenSegType := 1
  chrSequence := fun _ => SPACE
  currentDigit := -1
  currentClock := -1
  cycleRate := -1
  startCount := -1
  currentCount := -1
  normalizedCount := -1
  countDirection := [0, 0, 0, 0]
  countRate := -1
  countIncrement := 0
  countClock := -1
  pauseCounter := false
  enableCountStopValue := true
  countStopValue := 0
  transitionClock := -1
  transitionRate := -1
  transitionIndex := -1
  carouselSequenceLength := -1
  carouselSequence := fun _ => 0
  enableContinousCycle := false
  carouselOverflow := false
  pauseCarouselTransition := false
  sliderSequence := fun _ => 0
  sliderSequenceLength := -1
  pauseSliderTransition := false
  sliderTransitionIndex := -1
  gpioLevel := fun _ => false
  gpioDir := fun _ => false
  sysTickPeriod := 0
  wktCount := 0
  mrtIntval0 := 0
  mrtIntval1 := 0
  ctimerMatch0 := 0

/-- The four characters on the display read from the left: slot 3 is the
leftmost digit, slot 0 the rightmost. -/
def window (s : State) : List Nat :=
  [s.chrSequence 3, s.chrSequence 2, s.chrSequence 1, s.chrSequence 0]

/-! ## Timer configuration -/

/-- `SysTick_Configuration_Seven_Segment` -/
def SysTick_Configuration_Seven_Segment (s : State) : State :=
  if s.currentClock = 0 then { s with sysTickPeriod := s.cycleRate }
  else if s.countClock = 0 then { s with sysTickPeriod := s.countRate }
  else if s.transitionClock = 0 then { s with sysTickPeriod := s.transitionRate }
  else s

/-- `WKT_Configuration_Seven_Segment` -/
def WKT_Configuration_Seven_Segment (s : State) : State :=
  if s.currentClock = 1 then { s with wktCount := s.cycleRate }
  else if s.countClock = 1 then { s with wktCount := s.countRate }
  else if s.transitionClock = 1 then { s with wktCount := s.transitionRate }
  else s

/-- `MRT_Configuration_Seven_Segment` -/
def MRT_Configuration_Seven_Segment (s : State) (channel : Int) : State :=
  if s.currentClock = 2 ∧ s.countClock = 3 then
    { s with mrtIntval0 := s.cycleRate, mrtIntval1 := s.countRate }
  else if s.currentClock = 3 ∧ s.countClock = 2 then
    { s with mrtIntval1 := s.cycleRate, mrtIntval0 := s.countRate }
  else
    let tempCount : Int :=
      if channel = 0 ∧ s.currentClock = 2 then s.cycleRate
      else if channel = 1 ∧ s.currentClock = 3 then s.cycleRate
      else if channel = 0 ∧ s.countClock = 2 then s.countRate
      else if channel = 1 ∧ s.countClock = 3 then s.countRate
      else if s.transitionClock = 2 ∨ s.transitionClock = 3 then s.transitionRate
      else 0
    if channel = 0 then { s with mrtIntval0 := tempCount }
    else if channel = 1 then { s with mrtIntval1 := tempCount }
    else s

/-- `CTIMER_Configuration_Seven_Segment` -/
def CTIMER_Configuration_Seven_Segment (s : State) : State :=
  if s.currentClock = 4 then { s with ctimerMatch0 := s.cycleRate }
  else if s.countClock = 4 then { s with ctimerMatch0 := s.countRate }
  else if s.transitionClock = 4 then { s with ctimerMatch0 := s.transitionRate }
  else s

/-! ## Timer based display functions -/

/-- `display4Characters` -/
def display4Characters (s : State) (inputSequence clockType : List Nat)
    (refreshRate : Int) : State :=
  let chr := [0, 1, 2, 3].foldl
    (fun (c : Int → Nat) (i : Int) => setAt c (3 - i) (cget inputSequence i)) s.chrSequence
  let s1 := { s with chrSequence := chr, cycleRate := refreshRate }
  let s2 :=
    if strcmpEq clockType strSysTick then
      SysTick_Configuration_Seven_Segment { s1 with currentClock := 0 }
    else if strcmpEq clockType strWKT then
      WKT_Configuration_Seven_Segment { s1 with currentClock := 1 }
    else if strcmpEq clockType strMRT0 then
      MRT_Configuration_Seven_Segment { s1 with currentClock := 2 } 0
    else if strcmpEq clockType strMRT1 then
      MRT_Configuration_Seven_Segment { s1 with currentClock := 3 } 1
    else if strcmpEq clockType strCTIMER0 then
      CTIMER_Configuration_Seven_Segment { s1 with currentClock := 4 }
    else s1
  { s2 with currentDigit := 0 }

/-- One pass of the digit loop shared by `display4Numbers` and the counting
interrupt: the character of the leading digit of `number` at scale `shifter`. -/
def digitChar (number shifter : Int) : Nat :=
  toChar ((number - number.tmod shifter).tdiv shifter + 48)

/-- The loop of `display4Numbers` filling the local `inputSequence`; the
accumulator is `(inputSequence, number, shifter)`. -/
def display4NumbersLoop (inputNumber : Int) : List Nat × Int × Int :=
  [0, 1, 2, 3].foldl
    (fun (st : List Nat × Int × Int) (i : Nat) =>
      (st.1.set i (digitChar st.2.1 st.2.2), st.2.1.tmod st.2.2, st.2.2.tdiv 10))
    ([SPACE, SPACE, SPACE, SPACE], inputNumber, 1000)

/-- `display4Numbers` -/
def display4Numbers (s : State) (inputNumber : Int) (clockType : List Nat)
    (refreshRate : Int) : State :=
  display4Characters s (display4NumbersLoop inputNumber).1 clockType refreshRate

/-- `setupSevenSegmentCounter` -/
def setupSevenSegmentCounter (s : State) (clockStart : Int)
    (counterClock newCountDirection : List Nat) (newCountIncrement newStopValue : Int)
    (enableStopValue : Bool) (newCountRate : Int) (refreshClock : List Nat)
    (refreshRate : Int) : State :=
  if strcmpEq counterClock refreshClock then s
  else
    let s1 := { s with startCount := clockStart, normalizedCount := clockStart,
                       currentCount := clockStart }
    let s2 :=
      if strcmpEq newCountDirection strUP then { s1 with countDirection := strncpy4 strUP }
      else { s1 with countDirection := strncpy4 strDOWN }
    let s3 := { s2 with countStopValue := newStopValue,
                        enableCountStopValue := enableStopValue,
                        countIncrement := newCountIncrement, countRate := newCountRate }
    let s4 :=
      if strcmpEq counterClock strSysTick then
        SysTick_Configuration_Seven_Segment { s3 with countClock := 0 }
      else if strcmpEq counterClock strWKT then
        WKT_Configuration_Seven_Segment { s3 with countClock := 1 }
      else if strcmpEq counterClock strMRT0 then
        MRT_Configuration_Seven_Segment { s3 with countClock := 2 } 0
      else if strcmpEq counterClock strMRT1 then
        MRT_Configuration_Seven_Segment { s3 with countClock := 3 } 1
      else if strcmpEq counterClock strCTIMER0 then
        CTIMER_Configuration_Seven_Segment { s3 with countClock := 4 }
      else s3
    display4Numbers s4 clockStart refreshClock refreshRate

/-- The four blanks written by the padding loops: `buf[base + i] = ' '` for
`i = 0..3`. -/
def writeBlanks (buf : Int → Nat) (base : Int) : Int → Nat :=
  [0, 1, 2, 3].foldl (fun (q : Int → Nat) (i : Int) => setAt q (base + i) SPACE) buf

/-- `sevenSegmentDisplayTextCarousel` -/
def sevenSegmentDisplayTextCarousel (s : State) (characterSequence : List Nat)
    (sequenceLength : Int) (newTransitionClock : List Nat) (transitionSpeed : Int)
    (newEnableContinousCycle newEnablePadding : Bool) (refreshClock : List Nat)
    (refreshRate : Int) : State :=
  if strcmpEq newTransitionClock refreshClock then s
  else
    let s1 := { s with carouselSequenceLength := sequenceLength }
    let padding : Int := if newEnablePadding then 4 else 0
    let s2 :=
      if newEnablePadding then
        { s1 with carouselSequence := writeBlanks s1.carouselSequence 0,
                  carouselSequenceLength := s1.carouselSequenceLength + 3 }
      else s1
    let copied : Int → Nat :=
      (List.range sequenceLength.toNat).foldl
        (fun (q : Int → Nat) (i : Nat) => setAt q ((i : Int) + padding) (cget characterSequence i))
        s2.carouselSequence
    let s3 := { s2 with carouselSequence := copied }
    let s4 :=
      if newEnablePadding = true ∧ newEnableContinousCycle = false then
        { s3 with carouselSequence := writeBlanks s3.carouselSequence (4 + sequenceLength),
                  carouselSequenceLength := s3.carouselSequenceLength + 5 }
      else s3
    let s5 :=
      if newEnableContinousCycle = true ∧ newEnablePadding = false then
        { s4 with carouselSequence := setAt s4.carouselSequence sequenceLength SPACE }
      else s4
    let s6 := { s5 with transitionRate := transitionSpeed, cycleRate := refreshRate,
                        enableContinousCycle := newEnableContinousCycle,
                        pauseCarouselTransition := false }
    let s7 :=
      if strcmpEq newTransitionClock strSysTick then
        SysTick_Configuration_Seven_Segment { s6 with transitionClock := 0 }
      else if strcmpEq newTransitionClock strWKT then
        WKT_Configuration_Seven_Segment { s6 with transitionClock := 1 }
      else if strcmpEq newTransitionClock strMRT0 then
        MRT_Configuration_Seven_Segment { s6 with transitionClock := 2 } 0
      else if strcmpEq newTransitionClock strMRT1 then
        MRT_Configuration_Seven_Segment { s6 with transitionClock := 3 } 1
      else if strcmpEq newTransitionClock strCTIMER0 then
        CTIMER_Configuration_Seven_Segment { s6 with transitionClock := 4 }
      else s6
    let s8 := { s7 with transitionIndex := -1 }
    let firstScreen : List Nat :=
      [s8.carouselSequence 0, s8.carouselSequence 1, s8.carouselSequence 2,
       s8.carouselSequence 3]
    display4Characters s8 firstScreen refreshClock refreshRate

/-- The copy loop of `sevenSegmentDisplayTextSlider`; the accumulator is
`(sliderSequence, sliderSequenceLength, spaceAdjuster)`. -/
def sliderCopyLoop (characterSequence : List Nat) (sequenceLength padding : Int)
    (ignoreSingleSpaces : Bool) (start : (Int → Nat) × Int × Int) :
    (Int → Nat) × Int × Int :=
  (List.range sequenceLength.toNat).foldl
    (fun (st : (Int → Nat) × Int × Int) (n : Nat) =>
      let i : Int := n
      if ignoreSingleSpaces then
        if i = 0 ∧ cget characterSequence i = SPACE ∧ cget characterSequence (i + 1) ≠ SPACE then
          (st.1, st.2.1 - 1, st.2.2 + 1)
        else if i = sequenceLength - 1 ∧ cget characterSequence i = SPACE
            ∧ cget characterSequence (i - 1) ≠ SPACE then
          (st.1, st.2.1 - 1, st.2.2 + 1)
        else if cget characterSequence i = SPACE ∧ cget characterSequence (i - 1) ≠ SPACE
            ∧ cget characterSequence (i + 1) ≠ SPACE then
          (st.1, st.2.1 - 1, st.2.2 + 1)
        else
          (setAt st.1 (i + padding - st.2.2) (cget characterSequence i), st.2.1, st.2.2)
      else
        (setAt st.1 (i + padding) (cget characterSequence i), st.2.1, st.2.2))
    start

/-- The loop of `sevenSegmentDisplayTextSlider` that fills the last page with
blanks: `for (i = 0; i < 4 - rest; i++) if (rest != 0) buf[base + i] = ' '`,
where `rest = (sequenceLength - spaceAdjuster) % 4`. -/
def sliderFillLoop (buf : Int → Nat) (base rest : Int) : Int → Nat :=
  (List.range (4 - rest).toNat).foldl
    (fun (q : Int → Nat) (i : Nat) => if rest ≠ 0 then setAt q (base + (i : Int)) SPACE else q)
    buf

/-- `sevenSegmentDisplayTextSlider` -/
def sevenSegmentDisplayTextSlider (s : State) (characterSequence : List Nat)
    (sequenceLength : Int) (newTransitionClock : List Nat) (transitionSpeed : Int)
    (newEnableContinousCycle newEnablePadding ignoreSingleSpaces : Bool)
    (refreshClock : List Nat) (refreshRate : Int) : State :=
  if strcmpEq newTransitionClock refreshClock then s
  else
    let s1 := { s with sliderSequenceLength := sequenceLength }
    let padding : Int := if newEnablePadding then 4 else 0
    let s2 :=
      if newEnablePadding then
        { s1 with sliderSequence := writeBlanks s1.sliderSequence 0,
                  sliderSequenceLength := s1.sliderSequenceLength + 4 }
      else s1
    let copied := sliderCopyLoop characterSequence sequenceLength padding ignoreSingleSpaces
      (s2.sliderSequence, s2.sliderSequenceLength, 0)
    let spaceAdjuster : Int := copied.2.2
    let rest : Int := (sequenceLength - spaceAdjuster).tmod 4
    let filled : Int → Nat :=
      sliderFillLoop copied.1 (sequenceLength + padding - spaceAdjuster) rest
    let s3 := { s2 with sliderSequence := filled, sliderSequenceLength := copied.2.1 }
    let s4 :=
      if rest ≠ 0 then { s3 with sliderSequenceLength := s3.sliderSequenceLength + (4 - rest) }
      else s3
    let s5 := { s4 with transitionRate := transitionSpeed, cycleRate := refreshRate,
                        enableContinousCycle := newEnableContinousCycle,
                        pauseSliderTransition := false }
    let s6 :=
      if strcmpEq newTransitionClock strSysTick then
        SysTick_Configuration_Seven_Segment { s5 with transitionClock := 0 }
      else if strcmpEq newTransitionClock strWKT then
        WKT_Configuration_Seven_Segment { s5 with transitionClock := 1 }
      else if strcmpEq newTransitionClock strMRT0 then
        MRT_Configuration_Seven_Segment { s5 with transitionClock := 2 } 0
      else if strcmpEq newTransitionClock strMRT1 then
        MRT_Configuration_Seven_Segment { s5 with transitionClock := 3 } 1
      else if strcmpEq newTransitionClock strCTIMER0 then
        CTIMER_Configuration_Seven_Segment { s5 with transitionClock := 4 }
      else s5
    let s7 := { s6 with sliderTransitionIndex := 0 }
    let firstScreen : List Nat :=
      [s7.sliderSequence 0, s7.sliderSequence 1, s7.sliderSequence 2, s7.sliderSequence 3]
    display4Characters s7 firstScreen refreshClock refreshRate

/-! ## Timer interrupt functions -/

/-- The digit loop of `updateSevenSegmentCounterInterrupt`; the accumulator is
`(chrSequence, number, shifter)`. -/
def counterDigitLoop (chr : Int → Nat) (normalizedCount : Int) : (Int → Nat) × Int × Int :=
  [0, 1, 2, 3].foldl
    (fun (st : (Int → Nat) × Int × Int) (i : Int) =>
      (setAt st.1 (3 - i) (digitChar st.2.1 st.2.2), st.2.1.tmod st.2.2, st.2.2.tdiv 10))
    (chr, normalizedCount, 1000)

/-- `updateSevenSegmentCounterInterrupt` -/
def updateSevenSegmentCounterInterrupt (s : State) : State :=
  let s4 :=
    if s.pauseCounter = false then
      let s1 :=
        if strcmpEq s.countDirection strUP then
          { s with currentCount := s.currentCount + s.countIncrement,
                   normalizedCount := s.normalizedCount + s.countIncrement }
        else
          { s with currentCount := s.currentCount - s.countIncrement,
                   normalizedCount := s.normalizedCount - s.countIncrement }
      let s2 :=
        if s1.normalizedCount > 9999 then
          { s1 with normalizedCount := s1.normalizedCount - 10000 }
        else if s1.normalizedCount < 0 then
          { s1 with normalizedCount := 10000 + s1.normalizedCount }
        else s1
      let s3 :=
        if s2.currentCount = s2.countStopValue ∧ s2.enableCountStopValue = true then
          { s2 with pauseCounter := true }
        else s2
      { s3 with chrSequence := (counterDigitLoop s3.chrSequence s3.normalizedCount).1 }
    else s
  if s4.countClock = 1 then { s4 with wktCount := s4.countRate } else s4

/-- The window loop of `sevenSegmentCarouselInterrupt`; the accumulator is
`(chrSequence, wrapAround)`. -/
def carouselWindowLoop (s : State) : (Int → Nat) × Int :=
  [0, 1, 2, 3].foldl
    (fun (st : (Int → Nat) × Int) (i : Int) =>
      if i + s.transitionIndex > s.carouselSequenceLength then
        (setAt st.1 (3 - i) (s.carouselSequence st.2), st.2 + 1)
      else
        (setAt st.1 (3 - i) (s.carouselSequence (i + s.transitionIndex)), st.2))
    (s.chrSequence, 0)

/-- `sevenSegmentCarouselInterrupt` -/
def sevenSegmentCarouselInterrupt (s : State) : State :=
  let s1 :=
    if s.carouselOverflow = false ∧ s.pauseCarouselTransition = false then
      { s with transitionIndex := s.transitionIndex + 1 }
    else s
  let s2 := { s1 with chrSequence := (carouselWindowLoop s1).1 }
  let s3 :=
    if s2.transitionIndex = s2.carouselSequenceLength ∧ s2.enableContinousCycle = true then
      { s2 with transitionIndex := -1 }
    else if s2.transitionIndex = s2.carouselSequenceLength - 4
        ∧ s2.enableContinousCycle = false then
      { s2 with carouselOverflow := true }
    else s2
  if s3.transitionClock = 1 then { s3 with wktCount := s3.transitionRate } else s3

/-- `sevenSegmentSliderInterrupt` -/
def sevenSegmentSliderInterrupt (s : State) : State :=
  let chr : Int → Nat :=
    [0, 1, 2, 3].foldl
      (fun (c : Int → Nat) (i : Int) =>
        setAt c (3 - i) (s.sliderSequence (i + s.sliderTransitionIndex)))
      s.chrSequence
  let s1 := { s with chrSequence := chr }
  let s2 :=
    if s1.pauseSliderTransition = false then
      { s1 with sliderTransitionIndex := s1.sliderTransitionIndex + 4 }
    else s1
  let s3 :=
    if s2.sliderTransitionIndex > s2.sliderSequenceLength - 4
        ∧ s2.enableContinousCycle = true then
      { s2 with sliderTransitionIndex := 0 }
    else if s2.sliderTransitionIndex > s2.sliderSequenceLength - 4 then
      { s2 with sliderTransitionIndex := s2.sliderTransitionIndex - 4,
                pauseSliderTransition := true }
    else s2
  if s3.transitionClock = 1 then { s3 with wktCount := s3.transitionRate } else s3

/-! ## Counter helper functions -/

/-- `getSevenSegmentDisplayCount` -/
def getSevenSegmentDisplayCount (s : State) : Int := s.normalizedCount

/-- `getSevenSegmentTotalCount` -/
def getSevenSegmentTotalCount (s : State) : Int := s.currentCount

/-- `toggleSevenSegmentCounterPause` -/
def toggleSevenSegmentCounterPause (s : State) : State :=
  { s with pauseCounter := !s.pauseCounter }

/-- `pauseSevenSegmentCounter` -/
def pauseSevenSegmentCounter (s : State) : State := { s with pauseCounter := true }

/-- `runSevenSegmentCounter` -/
def runSevenSegmentCounter (s : State) : State := { s with pauseCounter := false }

/-- `resetSevenSegmentCount` -/
def resetSevenSegmentCount (s : State) : State :=
  { s with currentCount := s.startCount, normalizedCount := s.startCount,
           pauseCounter := false }

/-- `setSevenSegmentCount` -/
def setSevenSegmentCount (s : State) (newCount : Int) : State :=
  { s with startCount := newCount, currentCount := newCount, normalizedCount := newCount,
           pauseCounter := false }

/-- `updateSevenSegmentIncrementer` -/
def updateSevenSegmentIncrementer (s : State) (newIncrement : Int) : State :=
  { s with countIncrement := newIncrement }

/-- `changeSevenSegmentCountDirection` -/
def changeSevenSegmentCountDirection (s : State) (newDirection : List Nat) : State :=
  if strcmpEq newDirection strUP then { s with countDirection := strncpy4 strUP }
  else if strcmpEq newDirection strDOWN then { s with countDirection := strncpy4 strDOWN }
  else s

/-- `setCountStopValue` -/
def setCountStopValue (s : State) (newStopValue : Int) : State :=
  let s1 := { s with enableCountStopValue := true, countStopValue := newStopValue }
  if s1.currentCount ≠ s1.countStopValue then { s1 with pauseCounter := false }
  else { s1 with pauseCounter := true }

/-- `clearCountStopValue` -/
def clearCountStopValue (s : State) : State :=
  { s with enableCountStopValue := false, countStopValue := 0, pauseCounter := false }

/-! ## Carousel and slider helper functions -/

/-- `togglePauseSevenSegmentDisplayCarousel` -/
def togglePauseSevenSegmentDisplayCarousel (s : State) : State :=
  { s with pauseCarouselTransition := !s.pauseCarouselTransition }

/-- `pauseSevenSegmentDisplayCarousel` -/
def pauseSevenSegmentDisplayCarousel (s : State) : State :=
  { s with pauseCarouselTransition := true }

/-- `runSevenSegmentDisplayCarousel` -/
def runSevenSegmentDisplayCarousel (s : State) : State :=
  { s with pauseCarouselTransition := false }

/-- `restartSevenSegmentDisplayCarousel` -/
def restartSevenSegmentDisplayCarousel (s : State) : State :=
  { s with transitionIndex := -1, carouselOverflow := false,
           pauseCarouselTransition := false }

/-- `pauseSevenSegmentDisplaySlider` -/
def pauseSevenSegmentDisplaySlider (s : State) : State :=
  { s with pauseSliderTransition := true }

/-- `togglePauseSevenSegmentDisplaySlider` -/
def togglePauseSevenSegmentDisplaySlider (s : State) : State :=
  { s with pauseSliderTransition := !s.pauseSliderTransition }

/-- `runSevenSegmentDisplaySlider` -/
def runSevenSegmentDisplaySlider (s : State) : State :=
  { s with pauseSliderTransition := false }

/-- `restartSevenSegmentDisplaySlider` -/
def restartSevenSegmentDisplaySlider (s : State) : State :=
  { s with sliderTransitionIndex := 0, pauseSliderTransition := false }

/-! ## Glyph table (`seven_segment.h`) -/

/-- `inputCharacterOptions`: the characters '0'..'9', 'A'..'Z', '-', '=', '_'
and the blank. -/
def inputCharacterOptions : List Nat :=
  [48, 49, 50, 51, 52, 53, 54, 55, 56, 57,
   65, 66, 67, 68, 69, 70, 71, 72, 73, 74,
   75, 76, 77, 78, 79, 80, 81, 82, 83, 84,
   85, 86, 87, 88, 89, 90, 45, 61, 95, 32]

/-- `displayOptions`: the segment masks, in the order of
`inputCharacterOptions`. -/
def displayOptions : List Int :=
  [0b0111111, 0b0000110, 0b1011011, 0b1001111, 0b1100110,
   0b1101101, 0b1111101, 0b0000111, 0b1111111, 0b1101111,
   0b1110111, 0b1111100, 0b0111001, 0b1011110, 0b1111001,
   0b1110001, 0b0111101, 0b1110100, 0b0110000, 0b0011110,
   0b1110101, 0b0111000, 0b1010101, 0b1010100, 0b1011100,
   0b1110011, 0b1100111, 0b1010000, 0b0101101, 0b1111000,
   0b0111110, 0b0011100, 0b1101010, 0b1110110, 0b1101110,
   0b0011011, 0b1000000, 0b1001000, 0b0001000, 0b0000000]

/-- `toupper` of the C library ("C" locale). -/
def toupper (c : Nat) : Nat := if 97 ≤ c ∧ c ≤ 122 then c - 32 else c

/-! ## GPIO and display configuration -/

/-- `GPIO->SET[0] = (1UL<<pin)`: the pin is driven high. -/
def gpioSet (s : State) (pin : Int) : State :=
  { s with gpioLevel := setAt s.gpioLevel pin true }

/-- `GPIO->CLR[0] = (1UL<<pin)`: the pin is driven low. -/
def gpioClr (s : State) (pin : Int) : State :=
  { s with gpioLevel := setAt s.gpioLevel pin false }

/-- `GPIO->DIRSET[0] = (1UL<<pin)`: the pin becomes an output. -/
def gpioDirSet (s : State) (pin : Int) : State :=
  { s with gpioDir := setAt s.gpioDir pin true }

/-- `setupSevenSegment` -/
def setupSevenSegment (s : State) : State :=
  let s1 := [0, 1, 2, 3].foldl
    (fun (st : State) (i : Int) =>
      if st.digits i ≠ -1 then
        let st1 := gpioDirSet st (st.digits i)
        if st1.sevenSegType = 1 then gpioSet st1 (st1.digits i)
        else gpioClr st1 (st1.digits i)
      else st) s
  [0, 1, 2, 3, 4, 5, 6].foldl
    (fun (st : State) (i : Int) => gpioDirSet st (st.segments i)) s1

/-- `digitGPIOSetup` -/
def digitGPIOSetup (s : State) (channels : Int → Int) : State :=
  let s1 := [0, 1, 2, 3].foldl
    (fun (st : State) (i : Int) => { st with digits := setAt st.digits i (channels i) }) s
  setupSevenSegment s1

/-- `sevenSegmentGPIOSetup` -/
def sevenSegmentGPIOSetup (s : State) (segs : Int → Int) : State :=
  let s1 := [0, 1, 2, 3, 4, 5, 6].foldl
    (fun (st : State) (i : Int) => { st with segments := setAt st.segments i (segs i) }) s
  setupSevenSegment s1

/-- `setSevenSegmentType`; the assignment in the `else` branch is to the
parameter. -/
def setSevenSegmentType (s : State) (type : Int) : State :=
  if type = 0 then { s with sevenSegType := type } else s

/-- `enableDecimalSegment` -/
def enableDecimalSegment (s : State) (decimalSegment : Int) : State :=
  let s1 := { s with dp := decimalSegment, enableDP := true }
  gpioDirSet s1 s1.dp

/-- `sevenSegmentFullSetup` -/
def sevenSegmentFullSetup (s : State) (channels segs : Int → Int) (decimalSegment : Int) :
    State :=
  let s1 := [0, 1, 2, 3].foldl
    (fun (st : State) (i : Int) => { st with digits := setAt st.digits i (channels i) }) s
  let s2 := [0, 1, 2, 3, 4, 5, 6].foldl
    (fun (st : State) (i : Int) => { st with segments := setAt st.segments i (segs i) }) s1
  setupSevenSegment { s2 with dp := decimalSegment }

/-- `clearDigits` -/
def clearDigits (s : State) : State :=
  [0, 1, 2, 3].foldl
    (fun (st : State) (i : Int) =>
      if st.digits i ≠ -1 then
        if st.sevenSegType = 1 then gpioSet st (st.digits i) else gpioClr st (st.digits i)
      else st) s

/-- `enableDigits` -/
def enableDigits (s : State) : State :=
  [0, 1, 2, 3].foldl
    (fun (st : State) (i : Int) =>
      if st.digits i ≠ -1 then
        if st.sevenSegType = 1 then gpioClr st (st.digits i) else gpioSet st (st.digits i)
      else st) s

/-- `enableDigit` -/
def enableDigit (s : State) (digitPlace : Int) : State :=
  if s.digits digitPlace ≠ -1 then
    if s.sevenSegType = 1 then gpioClr s (s.digits digitPlace)
    else gpioSet s (s.digits digitPlace)
  else s

/-- `displayDP` -/
def displayDP (s : State) : State :=
  if s.enableDP then
    if s.sevenSegType = 1 then gpioSet s s.dp else gpioClr s s.dp
  else
    if s.sevenSegType = 1 then gpioClr s s.dp else gpioSet s s.dp

/-- `displayValue`; `(binaryValue >> i) & 1` is bit `i` of the mask. -/
def displayValue (s : State) (binaryValue : Int) : State :=
  let s1 := (List.range 7).foldl
    (fun (st : State) (i : Nat) =>
      let bit : Int := (binaryValue / 2 ^ i) % 2
      if (bit = 1 ∧ st.sevenSegType = 1) ∨ (bit = 0 ∧ st.sevenSegType = 0) then
        gpioSet st (st.segments i)
      else gpioClr st (st.segments i)) s
  displayDP s1

/-- `toggleDecimalPoint` -/
def toggleDecimalPoint (s : State) : State :=
  displayDP { s with enableDP := !s.enableDP }

/-- `setDecimalPoint` -/
def setDecimalPoint (s : State) : State := displayDP { s with enableDP := true }

/-- `clearDecimalPoint` -/
def clearDecimalPoint (s : State) : State := displayDP { s with enableDP := false }

/-- The table loop shared by `displaySingleCharacter` and
`display4CharactersInterrupt`: every entry of `inputCharacterOptions` equal to
the upper-cased character has its mask displayed. -/
def glyphLoop (s : State) (upperCaseChar : Nat) : State :=
  (List.range inputCharacterOptions.length).foldl
    (fun (st : State) (i : Nat) =>
      if upperCaseChar = inputCharacterOptions.getD i 0 then
        displayValue st (displayOptions.getD i 0)
      else st) s

/-- `displaySingleCharacter` -/
def displaySingleCharacter (s : State) (inputChar : Nat) : State :=
  let s1 := clearDigits s
  let upperCaseChar : Nat := toChar (toupper inputChar)
  let chr : Int → Nat :=
    [0, 1, 2, 3].foldl (fun (c : Int → Nat) (i : Int) => setAt c (3 - i) inputChar)
      s1.chrSequence
  let s2 := { s1 with chrSequence := chr }
  enableDigits (glyphLoop s2 upperCaseChar)

/-- `displaySingleInt` -/
def displaySingleInt (s : State) (inputNum : Int) : State :=
  displaySingleCharacter s (toChar (inputNum + 48))

/-- `display4CharactersInterrupt` -/
def display4CharactersInterrupt (s : State) : State :=
  let s1 := clearDigits s
  let upperCaseChar : Nat := toChar (toupper (s1.chrSequence s1.currentDigit))
  let s2 := glyphLoop s1 upperCaseChar
  let s3 := enableDigit s2 s2.currentDigit
  let s4 := { s3 with currentDigit := s3.currentDigit + 1 }
  let s5 := if s4.currentDigit = 4 then { s4 with currentDigit := 0 } else s4
  if s5.currentClock = 1 then { s5 with wktCount := s5.cycleRate } else s5

/-- `display4NumbersInterrupt` -/
def display4NumbersInterrupt (s : State) : State := display4CharactersInterrupt s

/-- `displayCarouselInterrupt` -/
def displayCarouselInterrupt (s : State) : State := display4CharactersInterrupt s

/-- `displaySliderInterrupt` -/
def displaySliderInterrupt (s : State) : State := display4CharactersInterrupt s

/-! ## Traces of calls -/

/-- The calls an application can make on a running counter: the counting
interrupt and the counter helper functions. -/
inductive CounterCall where
  | tick
  | togglePause
  | pause
  | run
  | reset
  | setCount (newCount : Int)
  | updateIncrementer (newIncrement : Int)
  | changeDirection (newDirection : List Nat)
  | setStop (newStopValue : Int)
  | clearStop

/-- The effect of one call on the globals. -/
def CounterCall.apply : CounterCall → State → State
  | .tick, s => updateSevenSegmentCounterInterrupt s
  | .togglePause, s => toggleSevenSegmentCounterPause s
  | .pause, s => pauseSevenSegmentCounter s
  | .run, s => runSevenSegmentCounter s
  | .reset, s => resetSevenSegmentCount s
  | .setCount n, s => setSevenSegmentCount s n
  | .updateIncrementer d, s => updateSevenSegmentIncrementer s d
  | .changeDirection dir, s => changeSevenSegmentCountDirection s dir
  | .setStop v, s => setCountStopValue s v
  | .clearStop, s => clearCountStopValue s

/-- The calls that neither replace the start value nor the increment: ticks,
pause, run and toggle, direction changes and `resetSevenSegmentCount`. -/
def CounterCall.keepsStartAndIncrement : CounterCall → Bool
  | .tick | .togglePause | .pause | .run | .reset | .changeDirection _ => true
  | _ => false

/-- A sequence of calls, executed left to right. -/
def runCounterCalls (s : State) (calls : List CounterCall) : State :=
  calls.foldl (fun st c => c.apply st) s

/-- The state after `n` counting interrupts. -/
def counterTicks (n : Nat) (s : State) : State :=
  updateSevenSegmentCounterInterrupt^[n] s

/-- The state after `n` carousel transition interrupts. -/
def carouselTicks (n : Nat) (s : State) : State :=
  sevenSegmentCarouselInterrupt^[n] s

/-- The state after `n` slider transition interrupts. -/
def sliderTicks (n : Nat) (s : State) : State :=
  sevenSegmentSliderInterrupt^[n] s

/-! ## Auxiliary definitions for the proofs -/

/-- The single-step wraparound of the counting interrupt. -/
def wrapCount (n : Int) : Int :=
  if n > 9999 then n - 10000 else if n < 0 then 10000 + n else n

/-- The signed amount one counting interrupt adds to the raw count. -/
def counterDelta (s : State) : Int :=
  if strcmpEq s.countDirection strUP then s.countIncrement else - s.countIncrement

/-- A state that differs from `s` at most in the programmed timer periods. -/
def State.withTimers (s : State) (a b c d e : Int) : State :=
  { s with sysTickPeriod := a, wktCount := b, mrtIntval0 := c, mrtIntval1 := d,
           ctimerMatch0 := e }

/-- The display buffer after the copy loop of `display4Characters`. -/
def primed (chr : Int → Nat) (inputSequence : List Nat) : Int → Nat :=
  setAt (setAt (setAt (setAt chr 3 (cget inputSequence 0)) 2 (cget inputSequence 1)) 1
    (cget inputSequence 2)) 0 (cget inputSequence 3)

/-- The invariant behind the range of the normalized count. -/
def CounterInRange (s : State) : Prop :=
  (0 ≤ s.normalizedCount ∧ s.normalizedCount ≤ 9999) ∧
  (0 ≤ s.startCount ∧ s.startCount ≤ 9999) ∧
  (-10000 ≤ s.countIncrement ∧ s.countIncrement ≤ 10000)

/-- The four-digit zero-padded decimal projection of a count, most significant
digit first, as characters: the specification of what the display shows. -/
def decimalProjection (n : Int) : List Nat :=
  [48 + (n / 1000 % 10).toNat, 48 + (n / 100 % 10).toNat, 48 + (n / 10 % 10).toNat,
   48 + (n % 10).toNat]

/-- The counter of the failing run for C5: a counter from 8 upwards in steps of 2
that has just halted on its stop value 10. -/
def haltedCounter : State :=
  updateSevenSegmentCounterInterrupt
    (setupSevenSegmentCounter State.init 8 strWKT strUP 2 10 true 100 strMRT0 50)

/-- A counter set up at 5, counting up by 1, and then paused. -/
def pausedCounter : State :=
  pauseSevenSegmentCounter
    (setupSevenSegmentCounter State.init 5 strWKT strUP 1 0 false 100 strMRT0 50)

/-- A counter set up at 5 whose count is then set to 42 and which is then
paused: the display buffer still holds the characters of 5. -/
def staleDisplayCounter : State :=
  pauseSevenSegmentCounter (setSevenSegmentCount
    (setupSevenSegmentCounter State.init 5 strWKT strUP 1 0 false 100 strMRT0 50) 42)

/-- A running counter at 9998, counting up by 3. -/
def runningCounter : State :=
  setupSevenSegmentCounter State.init 9998 strWKT strUP 3 0 false 100 strMRT0 50

/-- The content of `carouselSequence` after `sevenSegmentDisplayTextCarousel`
has written it, starting from the content `buf`. -/
def carouselBufferAfter (buf : Int → Nat) (characterSequence : List Nat) (sequenceLength : Int)
    (continuous padded : Bool) : Int → Nat :=
  let b1 := if padded then writeBlanks buf 0 else buf
  let b2 := (List.range sequenceLength.toNat).foldl
    (fun (q : Int → Nat) (i : Nat) =>
      setAt q ((i : Int) + (if padded then 4 else 0)) (cget characterSequence i)) b1
  let b3 := if padded = true ∧ continuous = false then writeBlanks b2 (4 + sequenceLength) else b2
  if continuous = true ∧ padded = false then setAt b3 sequenceLength SPACE else b3

/-- The value of `carouselSequenceLength` after `sevenSegmentDisplayTextCarousel`. -/
def carouselLengthAfter (sequenceLength : Int) (continuous padded : Bool) : Int :=
  if padded then (if continuous then sequenceLength + 3 else sequenceLength + 3 + 5)
  else sequenceLength

/-- The working sequence of a continuous carousel: the text followed by one
blank when unpadded, four blanks followed by the text when padded. -/
def carouselWorking (text : List Nat) (padded : Bool) : List Nat :=
  if padded then [SPACE, SPACE, SPACE, SPACE] ++ text else text ++ [SPACE]

/-- The part of the state a continuous, never paused carousel keeps fixed, and
its scroll index after `t` transition ticks. -/
def ContinuousCarouselAt (c : State) (t : Nat) (s : State) : Prop :=
  s.carouselOverflow = false ∧ s.pauseCarouselTransition = false ∧
  s.enableContinousCycle = true ∧
  s.carouselSequenceLength = c.carouselSequenceLength ∧
  s.carouselSequence = c.carouselSequence ∧
  s.transitionIndex = (t : Int) % (c.carouselSequenceLength + 1) - 1

/-- The text "1234". -/
def text1234 : List Nat := [49, 50, 51, 52]

/-- The text "12345678" of the example program. -/
def text12345678 : List Nat := [49, 50, 51, 52, 53, 54, 55, 56]

/-- A continuous, unpadded carousel over "1234", configured after program start. -/
def carousel1234 : State :=
  sevenSegmentDisplayTextCarousel State.init text1234 4 strWKT 550000 true false strMRT1 55000

/-- The working sequence of a one-shot carousel: the text when unpadded, four
blanks, the text and four more blanks when padded. -/
def oneShotWorking (text : List Nat) (padded : Bool) : List Nat :=
  if padded then [SPACE, SPACE, SPACE, SPACE] ++ text ++ [SPACE, SPACE, SPACE, SPACE] else text

/-- The state of a never paused one-shot carousel configured as `c`, after `t`
transition ticks that all advanced the scroll index. -/
def OneShotCarouselAt (c : State) (t : Nat) (s : State) : Prop :=
  s.carouselOverflow = decide ((t : Int) + 3 = c.carouselSequenceLength) ∧
  s.pauseCarouselTransition = false ∧
  s.enableContinousCycle = false ∧
  s.carouselSequenceLength = c.carouselSequenceLength ∧
  s.carouselSequence = c.carouselSequence ∧
  s.transitionIndex = (t : Int) - 1

/-- The state of a one-shot carousel configured as `c` that has reached its
end: the overflow flag is set and the scroll index rests on the last window. -/
def OneShotCarouselDone (c : State) (s : State) : Prop :=
  s.carouselOverflow = true ∧
  s.enableContinousCycle = false ∧
  s.carouselSequenceLength = c.carouselSequenceLength ∧
  s.carouselSequence = c.carouselSequence ∧
  s.transitionIndex = c.carouselSequenceLength - 4 ∧
  window s = [c.carouselSequence (c.carouselSequenceLength - 4 + 0),
              c.carouselSequence (c.carouselSequenceLength - 4 + 1),
              c.carouselSequence (c.carouselSequenceLength - 4 + 2),
              c.carouselSequence (c.carouselSequenceLength - 4 + 3)]

/-- The scroll index a transition tick uses for its window: advanced by one
unless the carousel is overflowed or paused. -/
def carouselAdvanced (s : State) : Int :=
  if s.carouselOverflow = false ∧ s.pauseCarouselTransition = false then s.transitionIndex + 1
  else s.transitionIndex

/-- Two states agree on everything the carousel transition tick reads. -/
def CarouselAgree (a b : State) : Prop :=
  a.carouselSequence = b.carouselSequence ∧
  a.carouselSequenceLength = b.carouselSequenceLength ∧
  a.enableContinousCycle = b.enableContinousCycle ∧
  a.transitionIndex = b.transitionIndex ∧
  a.carouselOverflow = b.carouselOverflow ∧
  a.pauseCarouselTransition = b.pauseCarouselTransition

/-- The carousel over "1234" after three transition ticks and a pause. -/
def carousel1234Paused : State :=
  pauseSevenSegmentDisplayCarousel (carouselTicks 3 carousel1234)

/-- The triple `(sliderSequence, sliderSequenceLength, spaceAdjuster)` after
the padding and copy loops of `sevenSegmentDisplayTextSlider`, starting from
the buffer content `buf`. -/
def sliderCopied (buf : Int → Nat) (characterSequence : List Nat) (sequenceLength : Int)
    (padded ignoreSingleSpaces : Bool) : (Int → Nat) × Int × Int :=
  sliderCopyLoop characterSequence sequenceLength (if padded then 4 else 0) ignoreSingleSpaces
    (if padded then writeBlanks buf 0 else buf,
     if padded then sequenceLength + 4 else sequenceLength, 0)

/-- The content of `sliderSequence` after `sevenSegmentDisplayTextSlider`. -/
def sliderBufferAfter (buf : Int → Nat) (characterSequence : List Nat) (sequenceLength : Int)
    (padded ignoreSingleSpaces : Bool) : Int → Nat :=
  sliderFillLoop (sliderCopied buf characterSequence sequenceLength padded ignoreSingleSpaces).1
    (sequenceLength + (if padded then 4 else 0)
      - (sliderCopied buf characterSequence sequenceLength padded ignoreSingleSpaces).2.2)
    ((sequenceLength
      - (sliderCopied buf characterSequence sequenceLength padded ignoreSingleSpaces).2.2).tmod 4)

/-- The value of `sliderSequenceLength` after `sevenSegmentDisplayTextSlider`. -/
def sliderLengthAfter (buf : Int → Nat) (characterSequence : List Nat) (sequenceLength : Int)
    (padded ignoreSingleSpaces : Bool) : Int :=
  if (sequenceLength
      - (sliderCopied buf characterSequence sequenceLength padded ignoreSingleSpaces).2.2).tmod 4
      ≠ 0 then
    (sliderCopied buf characterSequence sequenceLength padded ignoreSingleSpaces).2.1
      + (4 - (sequenceLength
        - (sliderCopied buf characterSequence sequenceLength padded ignoreSingleSpaces).2.2).tmod 4)
  else (sliderCopied buf characterSequence sequenceLength padded ignoreSingleSpaces).2.1

/-- The body of the copy loop of `sevenSegmentDisplayTextSlider` for index `n`. -/
def sliderCopyStep (characterSequence : List Nat) (sequenceLength padding : Int)
    (ignoreSingleSpaces : Bool) (st : (Int → Nat) × Int × Int) (n : Nat) :
    (Int → Nat) × Int × Int :=
  let i : Int := n
  if ignoreSingleSpaces then
    if i = 0 ∧ cget characterSequence i = SPACE ∧ cget characterSequence (i + 1) ≠ SPACE then
      (st.1, st.2.1 - 1, st.2.2 + 1)
    else if i = sequenceLength - 1 ∧ cget characterSequence i = SPACE
        ∧ cget characterSequence (i - 1) ≠ SPACE then
      (st.1, st.2.1 - 1, st.2.2 + 1)
    else if cget characterSequence i = SPACE ∧ cget characterSequence (i - 1) ≠ SPACE
        ∧ cget characterSequence (i + 1) ≠ SPACE then
      (st.1, st.2.1 - 1, st.2.2 + 1)
    else
      (setAt st.1 (i + padding - st.2.2) (cget characterSequence i), st.2.1, st.2.2)
  else
    (setAt st.1 (i + padding) (cget characterSequence i), st.2.1, st.2.2)

/-- A space is isolated when neither neighbour inside the sequence is a space:
the specification of the spaces that `ignoreSingleSpaces` removes. -/
def isolatedSpace (text : List Nat) (i : Nat) : Bool :=
  decide (text.getD i 0 = SPACE) &&
  (decide (i = 0) || decide (text.getD (i - 1) 0 ≠ SPACE)) &&
  (decide (text.length ≤ i + 1) || decide (text.getD (i + 1) 0 ≠ SPACE))

/-- The positions below `n` that do not hold an isolated space. -/
def keptIndices (text : List Nat) (n : Nat) : List Nat :=
  (List.range n).filter (fun i => !isolatedSpace text i)

/-- The text with exactly its isolated spaces removed, all other characters in
order: the specification of the slider's working sequence. -/
def collapseSingleSpaces (text : List Nat) : List Nat :=
  (keptIndices text text.length).map (fun i => text.getD i 0)

/-- The number of isolated spaces of the text. -/
def droppedSpaces (text : List Nat) : Nat :=
  ((List.range text.length).filter (fun i => isolatedSpace text i)).length

/-- The text "A B C D  E F  G" of the header's example. -/
def textABCDEFG : List Nat :=
  [65, 32, 66, 32, 67, 32, 68, 32, 32, 69, 32, 70, 32, 32, 71]

/-- The text "EEC53215i5  fun" of the example program. -/
def textEECS : List Nat :=
  [69, 69, 67, 53, 51, 50, 49, 53, 105, 53, 32, 32, 102, 117, 110]

/-- The characters the slider keeps: the collapsed text with
`ignoreSingleSpaces`, the whole text without. -/
def sliderKept (text : List Nat) (ignoreSingleSpaces : Bool) : List Nat :=
  if ignoreSingleSpaces then collapseSingleSpaces text else text

/-- The page index after the advance step of the slider transition tick. -/
def sliderAdvanced (s : State) : Int :=
  if s.pauseSliderTransition = false then s.sliderTransitionIndex + 4
  else s.sliderTransitionIndex

/-- The four characters of the page that starts at buffer position `start`. -/
def sliderPage (s : State) (start : Int) : List Nat :=
  [s.sliderSequence (start + 0), s.sliderSequence (start + 1), s.sliderSequence (start + 2),
   s.sliderSequence (start + 3)]

/-- The continuous slider of the example program: "EEC53215i5  fun" with
padding, five pages. -/
def sliderEECS : State :=
  sevenSegmentDisplayTextSlider State.init textEECS 15 strWKT 850000 true true false strMRT0
    55000

/-- The same slider as a one-shot slider. -/
def sliderEECSOneShot : State :=
  sevenSegmentDisplayTextSlider State.init textEECS 15 strWKT 850000 false true false strMRT0
    55000

/-- A continuous slider over "12345678" (two pages) after its first transition
tick: the display shows "1234". -/
def slider12345678Running : State :=
  sevenSegmentSliderInterrupt
    (sevenSegmentDisplayTextSlider State.init text12345678 8 strWKT 850000 true false false
      strMRT0 55000)

/-- The state of a never paused continuous slider configured as `c` with `P`
pages, after `t` transition ticks. -/
def ContinuousSliderAt (c : State) (P t : Nat) (s : State) : Prop :=
  s.pauseSliderTransition = false ∧ s.enableContinousCycle = true ∧
  s.sliderSequenceLength = c.sliderSequenceLength ∧ s.sliderSequence = c.sliderSequence ∧
  s.sliderTransitionIndex = 4 * ((t % P : Nat) : Int)

/-- The state of a one-shot slider configured as `c` with `P` pages after
`t < P` transition ticks. -/
def OneShotSliderAt (c : State) (t : Nat) (s : State) : Prop :=
  s.pauseSliderTransition = false ∧ s.enableContinousCycle = false ∧
  s.sliderSequenceLength = c.sliderSequenceLength ∧ s.sliderSequence = c.sliderSequence ∧
  s.sliderTransitionIndex = 4 * (t : Int)

/-- The state of a one-shot slider configured as `c` that has shown its last
page: paused, with the page index on the last page. -/
def OneShotSliderDone (c : State) (s : State) : Prop :=
  s.pauseSliderTransition = true ∧ s.enableContinousCycle = false ∧
  s.sliderSequenceLength = c.sliderSequenceLength ∧ s.sliderSequence = c.sliderSequence ∧
  s.sliderTransitionIndex = c.sliderSequenceLength - 4 ∧
  window s = sliderPage c (c.sliderSequenceLength - 4)


/-! ## The glyph lookup and the refresh interrupt -/

/-- The state with the display buffer replaced. -/
def State.withChr (s : State) (chr : Int → Nat) : State := { s with chrSequence := chr }

/-- The levels of the seven segment pins, segment a first. -/
def segmentLevels (s : State) : List Bool :=
  (List.range 7).map (fun (i : Nat) => s.gpioLevel (s.segments i))

/-- The array `channels` of the example program. -/
def exampleChannels : Int → Int := fun i => ([11, 13, 1, 10] : List Int).getD i.toNat 0

/-- The array `segs` of the example program. -/
def exampleSegs : Int → Int := fun i => ([0, 4, 9, 7, 17, 8, 12] : List Int).getD i.toNat 0

/-- The display wired as in the example program (common cathode, decimal point
on pin 16 and cleared), showing a four character text refreshed from WKT. -/
def wiredDisplay (text : List Nat) : State :=
  display4Characters
    (clearDecimalPoint
      (enableDecimalSegment
        (sevenSegmentGPIOSetup (digitGPIOSetup State.init exampleChannels) exampleSegs) 16))
    text strWKT 55000

/-- The text "12!8". -/
def text12bang8 : List Nat := [49, 50, 33, 56]

/-- The text "12 8". -/
def text12blank8 : List Nat := [49, 50, 32, 56]

/-! ## The refresh interrupt and the digit-select pins -/

/-- The state after `n` refresh interrupts. -/
def refreshTicks (n : Nat) (s : State) : State := display4CharactersInterrupt^[n] s

/-- The level `enableDigit` drives a digit-select pin to: low for display type
1, high otherwise; `clearDigits` drives the opposite level. -/
def enablingLevel (s : State) : Bool := if s.sevenSegType = 1 then false else true

/-- The masks of the digits '0'..'9' in the usual seven-segment encoding, bit 0
for segment A up to bit 6 for segment G. -/
def standardDigitMasks : List Int :=
  [0x3F, 0x06, 0x5B, 0x4F, 0x66, 0x6D, 0x7D, 0x07, 0x7F, 0x6F]

/-- A wiring in which segment G shares pin 13 with the digit-select of
position 1. -/
def aliasedSegs : Int → Int := fun i => ([0, 4, 9, 7, 17, 8, 13] : List Int).getD i.toNat 0

/-- The text "1111". -/
def text1111 : List Nat := [49, 49, 49, 49]

/-- The display with the digit pins of the example program and the segment
pins of `aliasedSegs`, showing "1111". -/
def aliasedDisplay : State :=
  display4Characters
    (sevenSegmentGPIOSetup (digitGPIOSetup State.init exampleChannels) aliasedSegs)
    text1111 strWKT 55000

/-- The clock id an if-chain over the five clock names assigns; an unknown
name leaves the old id. -/
def clockId (name : List Nat) (old : Int) : Int :=
  if strcmpEq name strSysTick then 0
  else if strcmpEq name strWKT then 1
  else if strcmpEq name strMRT0 then 2
  else if strcmpEq name strMRT1 then 3
  else if strcmpEq name strCTIMER0 then 4
  else old

/-- The name is one of "SysTick", "WKT", "MRT0", "MRT1", "CTIMER0". -/
def recognisedClock (name : List Nat) : Bool :=
  strcmpEq name strSysTick || strcmpEq name strWKT || strcmpEq name strMRT0 ||
    strcmpEq name strMRT1 || strcmpEq name strCTIMER0

/-- A counter counting on WKT and refreshed from MRT0. -/
def counterOnWKT : State :=
  setupSevenSegmentCounter State.init 0 strWKT strUP 1 0 false 1000 strMRT0 1000

/-! ## Definitions for the error handling and safety properties -/

/-- A counter set up at 0, counting up by 3, with the stop value 10 enabled. -/
def counterStop10 : State :=
  setupSevenSegmentCounter State.init 0 strWKT strUP 3 10 true 1000 strMRT0 1000

/-- The text "LEFT", not a direction name. -/
def textLEFT : List Nat := [76, 69, 70, 84]

/-- A one-shot, unpadded carousel over "1234" after its only advancing tick:
the overflow flag is set. -/
def finishedOneShot : State :=
  sevenSegmentCarouselInterrupt
    (sevenSegmentDisplayTextCarousel State.init text1234 4 strWKT 550000 false false strMRT1
      55000)

/-- The carousel of the example program configured after `finishedOneShot`. -/
def reconfiguredCarousel : State :=
  sevenSegmentDisplayTextCarousel finishedOneShot text12345678 8 strWKT 550000 true true
    strMRT1 55000

/-- A display showing "1234" refreshed from WKT at rate 1000. -/
def refreshOnWKT : State := display4Characters State.init text1234 strWKT 1000

/-- The calls an application can make on a configured slider: the transition
interrupt and the slider helper functions. -/
inductive SliderCall where
  | tick
  | pause
  | togglePause
  | run
  | restart

/-- The effect of one slider call on the globals. -/
def SliderCall.apply : SliderCall → State → State
  | .tick, s => sevenSegmentSliderInterrupt s
  | .pause, s => pauseSevenSegmentDisplaySlider s
  | .togglePause, s => togglePauseSevenSegmentDisplaySlider s
  | .run, s => runSevenSegmentDisplaySlider s
  | .restart, s => restartSevenSegmentDisplaySlider s

/-- A sequence of slider calls, executed left to right. -/
def runSliderCalls (s : State) (calls : List SliderCall) : State :=
  calls.foldl (fun st c => c.apply st) s

/-- The positions of `sliderSequence` the slider transition interrupt reads:
`i + sliderTransitionIndex` for `i = 0..3`. -/
def sliderReadIndices (s : State) : List Int :=
  ([0, 1, 2, 3] : List Int).map (fun i => i + s.sliderTransitionIndex)

/-- The invariant of the page index: a multiple of 4 on a page of the working
sequence, whose length is a multiple of 4. -/
def SliderInRange (s : State) : Prop :=
  (4 : Int) ∣ s.sliderTransitionIndex ∧ 0 ≤ s.sliderTransitionIndex ∧
  s.sliderTransitionIndex ≤ s.sliderSequenceLength - 4 ∧ (4 : Int) ∣ s.sliderSequenceLength

/-- The positions of `carouselSequence` the window loop of
`sevenSegmentCarouselInterrupt` reads, in the order read; the accumulator is
`(positions, wrapAround)`. -/
def carouselReadLoop (s : State) : List Int × Int :=
  [0, 1, 2, 3].foldl
    (fun (st : List Int × Int) (i : Int) =>
      if i + s.transitionIndex > s.carouselSequenceLength then (st.1 ++ [st.2], st.2 + 1)
      else (st.1 ++ [i + s.transitionIndex], st.2))
    ([], 0)

/-- The positions of `carouselSequence` one carousel transition interrupt
reads: the window loop runs on the scroll index after the advance step. -/
def carouselReadIndices (s : State) : List Int :=
  (carouselReadLoop { s with transitionIndex := carouselAdvanced s }).1

/-- The last position of `carouselSequence` that
`sevenSegmentDisplayTextCarousel` writes for a text of length `L`. -/
def carouselLastWritten (L : Int) (continuous padded : Bool) : Int :=
  if padded then (if continuous then L + 3 else L + 7)
  else (if continuous then L else L - 1)

/-! ## Declared sizes of the working buffers and the positions assigned -/

/-- The number of elements of `carouselSequence`: the array is declared as
`char carouselSequence[] = ""`, which holds the terminating NUL only. -/
def carouselSequenceSize : Int := 1

/-- The number of elements of `sliderSequence`: the array is declared as
`char sliderSequence[] = ""`, which holds the terminating NUL only. -/
def sliderSequenceSize : Int := 1

/-- The index `j` is an element of an array with `size` elements. -/
def withinArray (size j : Int) : Bool := decide (0 ≤ j ∧ j < size)

/-- The positions of `carouselSequence` that `sevenSegmentDisplayTextCarousel`
assigns, in program order: the leading padding loop, the copy loop, the
trailing padding loop and the single trailing blank. -/
def carouselWriteIndices (sequenceLength : Int) (continuous padded : Bool) : List Int :=
  (if padded then ([0, 1, 2, 3] : List Int) else []) ++
  (List.range sequenceLength.toNat).map
    (fun (i : Nat) => (i : Int) + (if padded then 4 else 0)) ++
  (if padded = true ∧ continuous = false then
    ([0, 1, 2, 3] : List Int).map (fun i => 4 + sequenceLength + i) else []) ++
  (if continuous = true ∧ padded = false then [sequenceLength] else [])

/-- The positions of `sliderSequence` that the copy loop of
`sevenSegmentDisplayTextSlider` assigns; the accumulator is
`(positions, spaceAdjuster)`. -/
def sliderCopyWrites (characterSequence : List Nat) (sequenceLength padding : Int)
    (ignoreSingleSpaces : Bool) : List Int × Int :=
  (List.range sequenceLength.toNat).foldl
    (fun (st : List Int × Int) (n : Nat) =>
      let i : Int := n
      if ignoreSingleSpaces then
        if i = 0 ∧ cget characterSequence i = SPACE ∧ cget characterSequence (i + 1) ≠ SPACE then
          (st.1, st.2 + 1)
        else if i = sequenceLength - 1 ∧ cget characterSequence i = SPACE
            ∧ cget characterSequence (i - 1) ≠ SPACE then
          (st.1, st.2 + 1)
        else if cget characterSequence i = SPACE ∧ cget characterSequence (i - 1) ≠ SPACE
            ∧ cget characterSequence (i + 1) ≠ SPACE then
          (st.1, st.2 + 1)
        else
          (st.1 ++ [i + padding - st.2], st.2)
      else
        (st.1 ++ [i + padding], st.2))
    ([], 0)

/-- The positions of `sliderSequence` that `sevenSegmentDisplayTextSlider`
assigns, in program order: the padding loop, the copy loop and the loop that
fills the last page with blanks. -/
def sliderWriteIndices (characterSequence : List Nat) (sequenceLength : Int)
    (padded ignoreSingleSpaces : Bool) : List Int :=
  let padding : Int := if padded then 4 else 0
  let copied := sliderCopyWrites characterSequence sequenceLength padding ignoreSingleSpaces
  let rest : Int := (sequenceLength - copied.2).tmod 4
  (if padded then ([0, 1, 2, 3] : List Int) else []) ++ copied.1 ++
  (if rest ≠ 0 then
    (List.range (4 - rest).toNat).map
      (fun (i : Nat) => sequenceLength + padding - copied.2 + (i : Int))
   else [])

/-- The text "A". -/
def textA : List Nat := [65]

/-- A one-shot, unpadded slider over "1234": a single page. -/
def sliderOnePage : State :=
  sevenSegmentDisplayTextSlider State.init text1234 4 strWKT 850000 false false false strMRT0
    55000

/-- The example wiring with the decimal point on pin 12, the pin of segment G,
and the decimal point cleared. -/
def dpOnSegmentG : State :=
  clearDecimalPoint
    (enableDecimalSegment
      (sevenSegmentGPIOSetup (digitGPIOSetup State.init exampleChannels) exampleSegs) 12)

/-! ## Frame lemmas -/

theorem SysTick_Configuration_timers (s : State) :
    ∃ a b c d e, SysTick_Configuration_Seven_Segment s = s.withTimers a b c d e := by
  unfold SysTick_Configuration_Seven_Segment
  split_ifs
  · exact ⟨_, s.wktCount, s.mrtIntval0, s.mrtIntval1, s.ctimerMatch0, rfl⟩
  · exact ⟨_, s.wktCount, s.mrtIntval0, s.mrtIntval1, s.ctimerMatch0, rfl⟩
  · exact ⟨_, s.wktCount, s.mrtIntval0, s.mrtIntval1, s.ctimerMatch0, rfl⟩
  · exact ⟨s.sysTickPeriod, s.wktCount, s.mrtIntval0, s.mrtIntval1, s.ctimerMatch0, rfl⟩

theorem WKT_Configuration_timers (s : State) :
    ∃ a b c d e, WKT_Configuration_Seven_Segment s = s.withTimers a b c d e := by
  unfold WKT_Configuration_Seven_Segment
  split_ifs
  · exact ⟨s.sysTickPeriod, _, s.mrtIntval0, s.mrtIntval1, s.ctimerMatch0, rfl⟩
  · exact ⟨s.sysTickPeriod, _, s.mrtIntval0, s.mrtIntval1, s.ctimerMatch0, rfl⟩
  · exact ⟨s.sysTickPeriod, _, s.mrtIntval0, s.mrtIntval1, s.ctimerMatch0, rfl⟩
  · exact ⟨s.sysTickPeriod, s.wktCount, s.mrtIntval0, s.mrtIntval1, s.ctimerMatch0, rfl⟩

theorem MRT_Configuration_timers (s : State) (channel : Int) :
    ∃ a b c d e, MRT_Configuration_Seven_Segment s channel = s.withTimers a b c d e := by
  unfold MRT_Configuration_Seven_Segment
  split_ifs <;> exact ⟨_, _, _, _, _, rfl⟩

theorem CTIMER_Configuration_timers (s : State) :
    ∃ a b c d e, CTIMER_Configuration_Seven_Segment s = s.withTimers a b c d e := by
  unfold CTIMER_Configuration_Seven_Segment
  split_ifs
  · exact ⟨s.sysTickPeriod, s.wktCount, s.mrtIntval0, s.mrtIntval1, _, rfl⟩
  · exact ⟨s.sysTickPeriod, s.wktCount, s.mrtIntval0, s.mrtIntval1, _, rfl⟩
  · exact ⟨s.sysTickPeriod, s.wktCount, s.mrtIntval0, s.mrtIntval1, _, rfl⟩
  · exact ⟨s.sysTickPeriod, s.wktCount, s.mrtIntval0, s.mrtIntval1, s.ctimerMatch0, rfl⟩

theorem display4Characters_eq (s : State) (inputSequence clockType : List Nat)
    (refreshRate : Int) :
    ∃ k a b c d e, display4Characters s inputSequence clockType refreshRate =
      ({ s with chrSequence := primed s.chrSequence inputSequence, cycleRate := refreshRate,
                currentClock := k, currentDigit := 0 } : State).withTimers a b c d e := by
  unfold display4Characters
  split_ifs
  · obtain ⟨a, b, c, d, e, h⟩ := SysTick_Configuration_timers
      { s with chrSequence := primed s.chrSequence inputSequence, cycleRate := refreshRate, currentClock := 0 }
    exact ⟨0, a, b, c, d, e, (congrArg (fun t : State => ({ t with currentDigit := 0 } : State)) h).trans rfl⟩
  · obtain ⟨a, b, c, d, e, h⟩ := WKT_Configuration_timers
      { s with chrSequence := primed s.chrSequence inputSequence, cycleRate := refreshRate, currentClock := 1 }
    exact ⟨1, a, b, c, d, e, (congrArg (fun t : State => ({ t with currentDigit := 0 } : State)) h).trans rfl⟩
  · obtain ⟨a, b, c, d, e, h⟩ := MRT_Configuration_timers
      { s with chrSequence := primed s.chrSequence inputSequence, cycleRate := refreshRate, currentClock := 2 } 0
    exact ⟨2, a, b, c, d, e, (congrArg (fun t : State => ({ t with currentDigit := 0 } : State)) h).trans rfl⟩
  · obtain ⟨a, b, c, d, e, h⟩ := MRT_Configuration_timers
      { s with chrSequence := primed s.chrSequence inputSequence, cycleRate := refreshRate, currentClock := 3 } 1
    exact ⟨3, a, b, c, d, e, (congrArg (fun t : State => ({ t with currentDigit := 0 } : State)) h).trans rfl⟩
  · obtain ⟨a, b, c, d, e, h⟩ := CTIMER_Configuration_timers
      { s with chrSequence := primed s.chrSequence inputSequence, cycleRate := refreshRate, currentClock := 4 }
    exact ⟨4, a, b, c, d, e, (congrArg (fun t : State => ({ t with currentDigit := 0 } : State)) h).trans rfl⟩
  · exact ⟨s.currentClock, _, _, _, _, _, rfl⟩

theorem setupSevenSegmentCounter_eq (s : State) (clockStart : Int)
    (counterClock newCountDirection : List Nat) (newCountIncrement newStopValue : Int)
    (enableStopValue : Bool) (newCountRate : Int) (refreshClock : List Nat)
    (refreshRate : Int) (hclk : strcmpEq counterClock refreshClock = false) :
    ∃ k1 k2 a b c d e,
      setupSevenSegmentCounter s clockStart counterClock newCountDirection newCountIncrement
        newStopValue enableStopValue newCountRate refreshClock refreshRate =
      ({ s with startCount := clockStart, normalizedCount := clockStart,
                currentCount := clockStart,
                countDirection :=
                  if strcmpEq newCountDirection strUP then strncpy4 strUP else strncpy4 strDOWN,
                countStopValue := newStopValue, enableCountStopValue := enableStopValue,
                countIncrement := newCountIncrement, countRate := newCountRate,
                countClock := k1,
                chrSequence := primed s.chrSequence (display4NumbersLoop clockStart).1,
                cycleRate := refreshRate, currentClock := k2,
                currentDigit := 0 } : State).withTimers a b c d e := by
  have step : ∀ s3 : State, ∃ k a b c d e,
      (if strcmpEq counterClock strSysTick then
        SysTick_Configuration_Seven_Segment { s3 with countClock := 0 }
      else if strcmpEq counterClock strWKT then
        WKT_Configuration_Seven_Segment { s3 with countClock := 1 }
      else if strcmpEq counterClock strMRT0 then
        MRT_Configuration_Seven_Segment { s3 with countClock := 2 } 0
      else if strcmpEq counterClock strMRT1 then
        MRT_Configuration_Seven_Segment { s3 with countClock := 3 } 1
      else if strcmpEq counterClock strCTIMER0 then
        CTIMER_Configuration_Seven_Segment { s3 with countClock := 4 }
      else s3) = ({ s3 with countClock := k } : State).withTimers a b c d e := by
    intro s3
    split_ifs
    · obtain ⟨a, b, c, d, e, h⟩ := SysTick_Configuration_timers { s3 with countClock := 0 }
      exact ⟨0, a, b, c, d, e, h⟩
    · obtain ⟨a, b, c, d, e, h⟩ := WKT_Configuration_timers { s3 with countClock := 1 }
      exact ⟨1, a, b, c, d, e, h⟩
    · obtain ⟨a, b, c, d, e, h⟩ := MRT_Configuration_timers { s3 with countClock := 2 } 0
      exact ⟨2, a, b, c, d, e, h⟩
    · obtain ⟨a, b, c, d, e, h⟩ := MRT_Configuration_timers { s3 with countClock := 3 } 1
      exact ⟨3, a, b, c, d, e, h⟩
    · obtain ⟨a, b, c, d, e, h⟩ := CTIMER_Configuration_timers { s3 with countClock := 4 }
      exact ⟨4, a, b, c, d, e, h⟩
    · exact ⟨s3.countClock, _, _, _, _, _, rfl⟩
  obtain ⟨k1, a, b, c, d, e, h⟩ := step
    { s with startCount := clockStart, normalizedCount := clockStart,
             currentCount := clockStart,
             countDirection :=
               if strcmpEq newCountDirection strUP then strncpy4 strUP else strncpy4 strDOWN,
             countStopValue := newStopValue, enableCountStopValue := enableStopValue,
             countIncrement := newCountIncrement, countRate := newCountRate }
  unfold setupSevenSegmentCounter
  rw [if_neg (by simp [hclk])]
  cases hdir : strcmpEq newCountDirection strUP <;>
  · simp only [hdir, if_false, if_true] at h ⊢
    obtain ⟨k2, a2, b2, c2, d2, e2, h2⟩ := display4Characters_eq _
      (display4NumbersLoop clockStart).1 refreshClock refreshRate
    exact ⟨k1, k2, a2, b2, c2, d2, e2,
      (congrArg (fun t : State => display4Numbers t clockStart refreshClock refreshRate) h).trans
        (h2.trans rfl)⟩


/-! ## The counting interrupt -/

theorem tick_of_paused (s : State) (h : s.pauseCounter = true) :
    updateSevenSegmentCounterInterrupt s =
      { s with wktCount := if s.countClock = 1 then s.countRate else s.wktCount } := by
  unfold updateSevenSegmentCounterInterrupt
  rw [if_neg (show ¬ (s.pauseCounter = false) by simp [h])]
  show (if s.countClock = 1 then ({ s with wktCount := s.countRate } : State) else s) = _
  split_ifs <;> rfl

theorem tick_of_running (s : State) (h : s.pauseCounter = false) :
    updateSevenSegmentCounterInterrupt s =
      { s with
        currentCount := s.currentCount + counterDelta s,
        normalizedCount := wrapCount (s.normalizedCount + counterDelta s),
        pauseCounter := decide (s.currentCount + counterDelta s = s.countStopValue
          ∧ s.enableCountStopValue = true),
        chrSequence :=
          (counterDigitLoop s.chrSequence (wrapCount (s.normalizedCount + counterDelta s))).1,
        wktCount := if s.countClock = 1 then s.countRate else s.wktCount } := by
  unfold updateSevenSegmentCounterInterrupt counterDelta wrapCount
  rw [if_pos (show s.pauseCounter = false from h)]
  cases s
  simp only [] at h
  subst h
  simp only [Int.sub_eq_add_neg]
  split_ifs <;> simp_all

theorem wrapCount_range (n d : Int) (hn : 0 ≤ n ∧ n ≤ 9999) (hd : -10000 ≤ d ∧ d ≤ 10000) :
    0 ≤ wrapCount (n + d) ∧ wrapCount (n + d) ≤ 9999 := by
  unfold wrapCount
  split_ifs <;> omega

theorem counterDelta_range (s : State)
    (h : -10000 ≤ s.countIncrement ∧ s.countIncrement ≤ 10000) :
    -10000 ≤ counterDelta s ∧ counterDelta s ≤ 10000 := by
  unfold counterDelta
  split_ifs <;> omega

theorem tick_counterInRange (s : State) (h : CounterInRange s) :
    CounterInRange (updateSevenSegmentCounterInterrupt s) := by
  cases hp : s.pauseCounter
  · rw [tick_of_running s hp]
    exact ⟨wrapCount_range _ _ h.1 (counterDelta_range s h.2.2), h.2.1, h.2.2⟩
  · rw [tick_of_paused s hp]
    exact h

theorem apply_counterInRange (c : CounterCall) (hc : c.keepsStartAndIncrement = true)
    (s : State) (h : CounterInRange s) : CounterInRange (c.apply s) := by
  cases c with
  | tick => exact tick_counterInRange s h
  | togglePause => exact h
  | pause => exact h
  | run => exact h
  | reset => exact ⟨h.2.1, h.2.1, h.2.2⟩
  | changeDirection dir =>
    show CounterInRange (changeSevenSegmentCountDirection s dir)
    unfold changeSevenSegmentCountDirection
    split_ifs <;> exact h
  | setCount n => exact absurd hc (by simp [CounterCall.keepsStartAndIncrement])
  | updateIncrementer d => exact absurd hc (by simp [CounterCall.keepsStartAndIncrement])
  | setStop v => exact absurd hc (by simp [CounterCall.keepsStartAndIncrement])
  | clearStop => exact absurd hc (by simp [CounterCall.keepsStartAndIncrement])

theorem runCounterCalls_counterInRange (calls : List CounterCall)
    (hcalls : ∀ c ∈ calls, c.keepsStartAndIncrement = true) (s : State)
    (h : CounterInRange s) : CounterInRange (runCounterCalls s calls) := by
  induction calls generalizing s with
  | nil => exact h
  | cons c cs ih =>
    exact ih (fun c' hc' => hcalls c' (List.mem_cons_of_mem _ hc')) (c.apply s)
      (apply_counterInRange c (hcalls c (List.mem_cons_self _ _)) s h)

/-- C1: after `setupSevenSegmentCounter` with distinct clock names, a start value
in 0..9999 and an increment of magnitude at most 10000, the normalized count
returned by `getSevenSegmentDisplayCount` is in 0..9999 after every sequence of
counting ticks, pause/run/toggle calls, direction changes and
`resetSevenSegmentCount` calls. -/
theorem C1_normalized_count_in_range (s : State) (clockStart : Int)
    (counterClock newCountDirection : List Nat) (newCountIncrement newStopValue : Int)
    (enableStopValue : Bool) (newCountRate : Int) (refreshClock : List Nat)
    (refreshRate : Int) (calls : List CounterCall)
    (hclk : strcmpEq counterClock refreshClock = false)
    (hstart : 0 ≤ clockStart ∧ clockStart ≤ 9999)
    (hinc : -10000 ≤ newCountIncrement ∧ newCountIncrement ≤ 10000)
    (hcalls : ∀ c ∈ calls, c.keepsStartAndIncrement = true) :
    0 ≤ getSevenSegmentDisplayCount
          (runCounterCalls
            (setupSevenSegmentCounter s clockStart counterClock newCountDirection
              newCountIncrement newStopValue enableStopValue newCountRate refreshClock
              refreshRate) calls) ∧
    getSevenSegmentDisplayCount
          (runCounterCalls
            (setupSevenSegmentCounter s clockStart counterClock newCountDirection
              newCountIncrement newStopValue enableStopValue newCountRate refreshClock
              refreshRate) calls) ≤ 9999 := by
  obtain ⟨k1, k2, a, b, c, d, e, h⟩ := setupSevenSegmentCounter_eq s clockStart counterClock
    newCountDirection newCountIncrement newStopValue enableStopValue newCountRate refreshClock
    refreshRate hclk
  rw [h]
  exact (runCounterCalls_counterInRange calls hcalls _ ⟨hstart, hstart, hinc⟩).1

/-- Witness for C1: start 9998, counting up by 3 on "WKT" with refresh on "MRT0",
then two ticks, a direction change and a reset. -/
theorem C1_normalized_count_in_range_witness :
    0 ≤ getSevenSegmentDisplayCount
          (runCounterCalls
            (setupSevenSegmentCounter State.init 9998 strWKT strUP 3 0 false 100 strMRT0 50)
            [.tick, .tick, .changeDirection strDOWN, .tick, .pause, .tick, .reset, .tick]) ∧
    getSevenSegmentDisplayCount
          (runCounterCalls
            (setupSevenSegmentCounter State.init 9998 strWKT strUP 3 0 false 100 strMRT0 50)
            [.tick, .tick, .changeDirection strDOWN, .tick, .pause, .tick, .reset, .tick])
      ≤ 9999 :=
  C1_normalized_count_in_range State.init 9998 strWKT strUP 3 0 false 100 strMRT0 50
    [.tick, .tick, .changeDirection strDOWN, .tick, .pause, .tick, .reset, .tick]
    (by decide) (by decide) (by decide) (by decide)

theorem wrapCount_dvd (n : Int) : (10000 : Int) ∣ n - wrapCount n := by
  unfold wrapCount
  split_ifs <;> omega

theorem tick_diff_dvd (s : State) (h : (10000 : Int) ∣ s.currentCount - s.normalizedCount) :
    (10000 : Int) ∣ (updateSevenSegmentCounterInterrupt s).currentCount
      - (updateSevenSegmentCounterInterrupt s).normalizedCount := by
  cases hp : s.pauseCounter
  · rw [tick_of_running s hp]
    have h2 := wrapCount_dvd (s.normalizedCount + counterDelta s)
    show (10000 : Int) ∣ s.currentCount + counterDelta s
      - wrapCount (s.normalizedCount + counterDelta s)
    omega
  · rw [tick_of_paused s hp]
    exact h

theorem setCountStopValue_eq (s : State) (v : Int) :
    setCountStopValue s v =
      { s with enableCountStopValue := true, countStopValue := v,
               pauseCounter := decide (s.currentCount = v) } := by
  unfold setCountStopValue
  by_cases h : s.currentCount = v <;> simp [h]

theorem apply_diff_dvd (c : CounterCall) (s : State)
    (h : (10000 : Int) ∣ s.currentCount - s.normalizedCount) :
    (10000 : Int) ∣ (c.apply s).currentCount - (c.apply s).normalizedCount := by
  cases c with
  | tick => exact tick_diff_dvd s h
  | togglePause => exact h
  | pause => exact h
  | run => exact h
  | reset => exact ⟨0, by show s.startCount - s.startCount = _; omega⟩
  | setCount n => exact ⟨0, by show n - n = _; omega⟩
  | updateIncrementer d => exact h
  | changeDirection dir =>
    show (10000 : Int) ∣ (changeSevenSegmentCountDirection s dir).currentCount
      - (changeSevenSegmentCountDirection s dir).normalizedCount
    unfold changeSevenSegmentCountDirection
    split_ifs <;> exact h
  | setStop v =>
    show (10000 : Int) ∣ (setCountStopValue s v).currentCount
      - (setCountStopValue s v).normalizedCount
    rw [setCountStopValue_eq]
    exact h
  | clearStop => exact h

theorem runCounterCalls_diff_dvd (calls : List CounterCall) (s : State)
    (h : (10000 : Int) ∣ s.currentCount - s.normalizedCount) :
    (10000 : Int) ∣ (runCounterCalls s calls).currentCount
      - (runCounterCalls s calls).normalizedCount := by
  induction calls generalizing s with
  | nil => exact h
  | cons c cs ih => exact ih (c.apply s) (apply_diff_dvd c s h)

/-- C2: for every start value and every increment, after
`setupSevenSegmentCounter` (distinct clock names) and any sequence of counting
ticks and counter helper calls, `getSevenSegmentTotalCount` minus
`getSevenSegmentDisplayCount` is a multiple of 10000. -/
theorem C2_total_minus_display_multiple_of_10000 (s : State) (clockStart : Int)
    (counterClock newCountDirection : List Nat) (newCountIncrement newStopValue : Int)
    (enableStopValue : Bool) (newCountRate : Int) (refreshClock : List Nat)
    (refreshRate : Int) (calls : List CounterCall)
    (hclk : strcmpEq counterClock refreshClock = false) :
    (10000 : Int) ∣
      getSevenSegmentTotalCount
          (runCounterCalls
            (setupSevenSegmentCounter s clockStart counterClock newCountDirection
              newCountIncrement newStopValue enableStopValue newCountRate refreshClock
              refreshRate) calls)
      - getSevenSegmentDisplayCount
          (runCounterCalls
            (setupSevenSegmentCounter s clockStart counterClock newCountDirection
              newCountIncrement newStopValue enableStopValue newCountRate refreshClock
              refreshRate) calls) := by
  obtain ⟨k1, k2, a, b, c, d, e, h⟩ := setupSevenSegmentCounter_eq s clockStart counterClock
    newCountDirection newCountIncrement newStopValue enableStopValue newCountRate refreshClock
    refreshRate hclk
  rw [h]
  exact runCounterCalls_diff_dvd calls _ ⟨0, by show clockStart - clockStart = _; omega⟩

/-- Witness for C2: start 9990, counting up by 25000 (beyond the single-step
range), with ticks and helper calls of every kind. -/
theorem C2_total_minus_display_multiple_of_10000_witness :
    (10000 : Int) ∣
      getSevenSegmentTotalCount
          (runCounterCalls
            (setupSevenSegmentCounter State.init 9990 strWKT strUP 25000 7 true 100 strMRT0 50)
            [.tick, .tick, .updateIncrementer 7, .changeDirection strDOWN, .tick, .setStop 3,
             .pause, .tick, .togglePause, .tick, .setCount 123456, .tick, .clearStop, .run,
             .reset, .tick])
      - getSevenSegmentDisplayCount
          (runCounterCalls
            (setupSevenSegmentCounter State.init 9990 strWKT strUP 25000 7 true 100 strMRT0 50)
            [.tick, .tick, .updateIncrementer 7, .changeDirection strDOWN, .tick, .setStop 3,
             .pause, .tick, .togglePause, .tick, .setCount 123456, .tick, .clearStop, .run,
             .reset, .tick]) :=
  C2_total_minus_display_multiple_of_10000 State.init 9990 strWKT strUP 25000 7 true 100
    strMRT0 50
    [.tick, .tick, .updateIncrementer 7, .changeDirection strDOWN, .tick, .setStop 3,
     .pause, .tick, .togglePause, .tick, .setCount 123456, .tick, .clearStop, .run,
     .reset, .tick] (by decide)

theorem counterTicks_of_paused (n : Nat) (s : State) (h : s.pauseCounter = true) :
    (counterTicks n s).pauseCounter = true ∧
    (counterTicks n s).currentCount = s.currentCount ∧
    (counterTicks n s).normalizedCount = s.normalizedCount := by
  induction n generalizing s with
  | zero => exact ⟨h, rfl, rfl⟩
  | succ n ih =>
    have hs : counterTicks (n + 1) s = counterTicks n (updateSevenSegmentCounterInterrupt s) := by
      simp [counterTicks, Function.iterate_succ_apply]
    rw [hs, tick_of_paused s h]
    exact ih _ h

/-- C3: if the stop value is enabled and a counting tick brings the raw count to
exactly the stop value, that tick sets the pause flag, and after any number `n`
of further counting ticks (no helper call in between) the raw count and the
normalized count still have the values they had after that tick. -/
theorem C3_stop_value_halts_counting (s : State) (n : Nat)
    (hen : s.enableCountStopValue = true)
    (hreach : (updateSevenSegmentCounterInterrupt s).currentCount = s.countStopValue) :
    (updateSevenSegmentCounterInterrupt s).pauseCounter = true ∧
    getSevenSegmentTotalCount (counterTicks n (updateSevenSegmentCounterInterrupt s))
      = getSevenSegmentTotalCount (updateSevenSegmentCounterInterrupt s) ∧
    getSevenSegmentDisplayCount (counterTicks n (updateSevenSegmentCounterInterrupt s))
      = getSevenSegmentDisplayCount (updateSevenSegmentCounterInterrupt s) := by
  have hp : (updateSevenSegmentCounterInterrupt s).pauseCounter = true := by
    cases hpause : s.pauseCounter
    · rw [tick_of_running s hpause] at hreach ⊢
      simp only [] at hreach
      simp [hreach, hen]
    · rw [tick_of_paused s hpause]
      exact hpause
  exact ⟨hp, (counterTicks_of_paused n _ hp).2⟩

/-- Witness for C3: a running counter at 8 counting up by 2 with stop value 10,
observed 5 ticks after the tick that reaches 10. -/
theorem C3_stop_value_halts_counting_witness :
    (updateSevenSegmentCounterInterrupt
      (setupSevenSegmentCounter State.init 8 strWKT strUP 2 10 true 100 strMRT0 50)).pauseCounter
      = true ∧
    getSevenSegmentTotalCount (counterTicks 5 (updateSevenSegmentCounterInterrupt
        (setupSevenSegmentCounter State.init 8 strWKT strUP 2 10 true 100 strMRT0 50)))
      = getSevenSegmentTotalCount (updateSevenSegmentCounterInterrupt
        (setupSevenSegmentCounter State.init 8 strWKT strUP 2 10 true 100 strMRT0 50)) ∧
    getSevenSegmentDisplayCount (counterTicks 5 (updateSevenSegmentCounterInterrupt
        (setupSevenSegmentCounter State.init 8 strWKT strUP 2 10 true 100 strMRT0 50)))
      = getSevenSegmentDisplayCount (updateSevenSegmentCounterInterrupt
        (setupSevenSegmentCounter State.init 8 strWKT strUP 2 10 true 100 strMRT0 50)) :=
  C3_stop_value_halts_counting
    (setupSevenSegmentCounter State.init 8 strWKT strUP 2 10 true 100 strMRT0 50) 5
    (by decide) (by decide)
theorem digitChar_eq (m k : Int) (hm : 0 ≤ m) (hk : 0 < k) :
    digitChar m k = ((m / k + 48) % 256).toNat := by
  unfold digitChar toChar
  have hsplit : m - m % k = k * (m / k) := by
    have := Int.ediv_add_emod m k
    omega
  have hq : 0 ≤ k * (m / k) := Int.mul_nonneg hk.le (Int.ediv_nonneg hm hk.le)
  rw [Int.tmod_eq_emod hm hk.le, Int.tdiv_eq_ediv (by omega) hk.le, hsplit,
    Int.mul_ediv_cancel_left _ (ne_of_gt hk)]

theorem digitLoop_steps (n : Nat) (hn : n ≤ 9999) :
    ((n : Int).tmod 1000 = (n : Int) % 1000 ∧
     ((n : Int) % 1000).tmod 100 = (n : Int) % 100 ∧
     ((n : Int) % 100).tmod 10 = (n : Int) % 10) ∧
    digitChar (n : Int) 1000 = 48 + n / 1000 ∧
    digitChar ((n : Int) % 1000) 100 = 48 + n / 100 % 10 ∧
    digitChar ((n : Int) % 100) 10 = 48 + n / 10 % 10 ∧
    digitChar ((n : Int) % 10) 1 = 48 + n % 10 := by
  refine ⟨⟨Int.tmod_eq_emod (by omega) (by omega), ?_, ?_⟩, ?_, ?_, ?_, ?_⟩
  · rw [Int.tmod_eq_emod (by omega) (by omega)]; omega
  · rw [Int.tmod_eq_emod (by omega) (by omega)]; omega
  · rw [digitChar_eq _ _ (by omega) (by omega)]; omega
  · rw [digitChar_eq _ _ (by omega) (by omega)]; omega
  · rw [digitChar_eq _ _ (by omega) (by omega)]; omega
  · rw [digitChar_eq _ _ (by omega) (by omega)]; omega

theorem counterDigitLoop_eq (chr : Int → Nat) (n : Nat) (hn : n ≤ 9999) :
    (counterDigitLoop chr n).1 =
      setAt (setAt (setAt (setAt chr 3 (48 + n / 1000)) 2 (48 + n / 100 % 10)) 1
        (48 + n / 10 % 10)) 0 (48 + n % 10) := by
  have h10 : Int.tdiv 1000 10 = 100 := by decide
  have h1 : Int.tdiv 100 10 = 10 := by decide
  have h0 : Int.tdiv 10 10 = 1 := by decide
  obtain ⟨⟨t1, t2, t3⟩, d3, d2, d1, d0⟩ := digitLoop_steps n hn
  simp only [counterDigitLoop, List.foldl, h10, h1, h0, t1, t2, t3, d3, d2, d1, d0]
  norm_num

theorem display4NumbersLoop_eq (n : Nat) (hn : n ≤ 9999) :
    (display4NumbersLoop n).1 =
      [48 + n / 1000, 48 + n / 100 % 10, 48 + n / 10 % 10, 48 + n % 10] := by
  have h10 : Int.tdiv 1000 10 = 100 := by decide
  have h1 : Int.tdiv 100 10 = 10 := by decide
  have h0 : Int.tdiv 10 10 = 1 := by decide
  obtain ⟨⟨t1, t2, t3⟩, d3, d2, d1, d0⟩ := digitLoop_steps n hn
  simp only [display4NumbersLoop, List.foldl, h10, h1, h0, t1, t2, t3, d3, d2, d1, d0]
  simp [List.set]
/-- C4: for each of `setupSevenSegmentCounter`, `sevenSegmentDisplayTextCarousel`
and `sevenSegmentDisplayTextSlider`, when `strcmp` finds the counting/transition
clock name equal to the refresh clock name, the call returns every global
exactly as it was. -/
theorem C4_same_clock_is_noop (s : State) (clock refreshClock : List Nat)
    (clockStart : Int) (newCountDirection : List Nat)
    (newCountIncrement newStopValue : Int) (enableStopValue : Bool) (newCountRate : Int)
    (characterSequence : List Nat) (sequenceLength transitionSpeed : Int)
    (newEnableContinousCycle newEnablePadding ignoreSingleSpaces : Bool)
    (refreshRate : Int)
    (hsame : strcmpEq clock refreshClock = true) :
    setupSevenSegmentCounter s clockStart clock newCountDirection newCountIncrement
        newStopValue enableStopValue newCountRate refreshClock refreshRate = s ∧
    sevenSegmentDisplayTextCarousel s characterSequence sequenceLength clock transitionSpeed
        newEnableContinousCycle newEnablePadding refreshClock refreshRate = s ∧
    sevenSegmentDisplayTextSlider s characterSequence sequenceLength clock transitionSpeed
        newEnableContinousCycle newEnablePadding ignoreSingleSpaces refreshClock
        refreshRate = s := by
  refine ⟨?_, ?_, ?_⟩
  · unfold setupSevenSegmentCounter
    rw [if_pos hsame]
  · unfold sevenSegmentDisplayTextCarousel
    rw [if_pos hsame]
  · unfold sevenSegmentDisplayTextSlider
    rw [if_pos hsame]

/-- Witness for C4: counting, transition and refresh all on "WKT". -/
theorem C4_same_clock_is_noop_witness :
    setupSevenSegmentCounter State.init 5 strWKT strUP 1 0 false 100 strWKT 50 = State.init ∧
    sevenSegmentDisplayTextCarousel State.init [49, 50, 51, 52] 4 strWKT 550000 true false
        strWKT 55000 = State.init ∧
    sevenSegmentDisplayTextSlider State.init [49, 50, 51, 52] 4 strWKT 550000 true false true
        strWKT 55000 = State.init :=
  C4_same_clock_is_noop State.init strWKT strWKT 5 strUP 1 0 false 100 [49, 50, 51, 52] 4
    550000 true false true 55000 (by decide)

/-- C5 (failing input): a counter that has halted on its stop value is set up
again with start 0 and distinct clock names. The start value, the raw count and
the normalized count are 0, but the pause flag is still set, and the next
counting tick does not count. -/
theorem C5_setup_keeps_pause_flag :
    haltedCounter.pauseCounter = true ∧
    (setupSevenSegmentCounter haltedCounter 0 strWKT strUP 1 0 false 100 strMRT0 50).startCount
      = 0 ∧
    (setupSevenSegmentCounter haltedCounter 0 strWKT strUP 1 0 false 100 strMRT0 50).currentCount
      = 0 ∧
    (setupSevenSegmentCounter haltedCounter 0 strWKT strUP 1 0 false 100
      strMRT0 50).normalizedCount = 0 ∧
    (setupSevenSegmentCounter haltedCounter 0 strWKT strUP 1 0 false 100 strMRT0 50).pauseCounter
      = true ∧
    (updateSevenSegmentCounterInterrupt
      (setupSevenSegmentCounter haltedCounter 0 strWKT strUP 1 0 false 100
        strMRT0 50)).currentCount = 0 := by
  decide

/-- C6: a counting tick taken while the counter is paused leaves the raw count,
the normalized count, the start value, the increment, the direction, the stop
value, the stop enable flag and the pause flag unchanged. -/
theorem C6_paused_tick_changes_nothing (s : State) (hp : s.pauseCounter = true) :
    (updateSevenSegmentCounterInterrupt s).currentCount = s.currentCount ∧
    (updateSevenSegmentCounterInterrupt s).normalizedCount = s.normalizedCount ∧
    (updateSevenSegmentCounterInterrupt s).startCount = s.startCount ∧
    (updateSevenSegmentCounterInterrupt s).countIncrement = s.countIncrement ∧
    (updateSevenSegmentCounterInterrupt s).countDirection = s.countDirection ∧
    (updateSevenSegmentCounterInterrupt s).countStopValue = s.countStopValue ∧
    (updateSevenSegmentCounterInterrupt s).enableCountStopValue = s.enableCountStopValue ∧
    (updateSevenSegmentCounterInterrupt s).pauseCounter = s.pauseCounter := by
  rw [tick_of_paused s hp]
  exact ⟨rfl, rfl, rfl, rfl, rfl, rfl, rfl, rfl⟩

/-- Witness for C6: a counter set up at 5 and then paused. -/
theorem C6_paused_tick_changes_nothing_witness :
    (updateSevenSegmentCounterInterrupt pausedCounter).currentCount
      = pausedCounter.currentCount ∧
    (updateSevenSegmentCounterInterrupt pausedCounter).normalizedCount
      = pausedCounter.normalizedCount ∧
    (updateSevenSegmentCounterInterrupt pausedCounter).startCount
      = pausedCounter.startCount ∧
    (updateSevenSegmentCounterInterrupt pausedCounter).countIncrement
      = pausedCounter.countIncrement ∧
    (updateSevenSegmentCounterInterrupt pausedCounter).countDirection
      = pausedCounter.countDirection ∧
    (updateSevenSegmentCounterInterrupt pausedCounter).countStopValue
      = pausedCounter.countStopValue ∧
    (updateSevenSegmentCounterInterrupt pausedCounter).enableCountStopValue
      = pausedCounter.enableCountStopValue ∧
    (updateSevenSegmentCounterInterrupt pausedCounter).pauseCounter
      = pausedCounter.pauseCounter :=
  C6_paused_tick_changes_nothing pausedCounter (by decide)
theorem decimalProjection_natCast (n : Nat) (hn : n ≤ 9999) :
    decimalProjection (n : Int) =
      [48 + n / 1000, 48 + n / 100 % 10, 48 + n / 10 % 10, 48 + n % 10] := by
  unfold decimalProjection
  have e3 : ((n : Int) / 1000 % 10).toNat = n / 1000 := by omega
  have e2 : ((n : Int) / 100 % 10).toNat = n / 100 % 10 := by omega
  have e1 : ((n : Int) / 10 % 10).toNat = n / 10 % 10 := by omega
  have e0 : ((n : Int) % 10).toNat = n % 10 := by omega
  rw [e3, e2, e1, e0]

theorem window_setAt4 (chr : Int → Nat) (a b c d : Nat) :
    [setAt (setAt (setAt (setAt chr 3 a) 2 b) 1 c) 0 d 3,
     setAt (setAt (setAt (setAt chr 3 a) 2 b) 1 c) 0 d 2,
     setAt (setAt (setAt (setAt chr 3 a) 2 b) 1 c) 0 d 1,
     setAt (setAt (setAt (setAt chr 3 a) 2 b) 1 c) 0 d 0] = [a, b, c, d] := by
  simp [setAt]

theorem tick_window_of_running (s : State) (hp : s.pauseCounter = false) (n : Nat)
    (hn : n ≤ 9999) (hcount : (updateSevenSegmentCounterInterrupt s).normalizedCount = n) :
    window (updateSevenSegmentCounterInterrupt s) =
      [48 + n / 1000, 48 + n / 100 % 10, 48 + n / 10 % 10, 48 + n % 10] := by
  rw [tick_of_running s hp] at hcount ⊢
  simp only [] at hcount
  simp only [window, hcount, counterDigitLoop_eq _ n hn]
  exact window_setAt4 _ _ _ _ _

/-- C7 (counterexample): the counter is set up at 5, its count is set to 42 and
it is paused. After the next counting tick the normalized count is 42, inside
0..9999, but the display buffer still holds "0005", not "0042". -/
theorem C7_paused_tick_shows_stale_count :
    (0 ≤ (updateSevenSegmentCounterInterrupt staleDisplayCounter).normalizedCount ∧
     (updateSevenSegmentCounterInterrupt staleDisplayCounter).normalizedCount ≤ 9999) ∧
    window (updateSevenSegmentCounterInterrupt staleDisplayCounter) = [48, 48, 48, 53] ∧
    window (updateSevenSegmentCounterInterrupt staleDisplayCounter) ≠
      decimalProjection (updateSevenSegmentCounterInterrupt staleDisplayCounter).normalizedCount := by
  decide

/-- C7 (amended): after a counting tick taken while the counter is not paused,
the display buffer holds the four-digit zero-padded decimal projection of the
normalized count the tick produced (for a normalized count in 0..9999), most
significant digit first; a counting tick taken while the counter is paused
leaves the display buffer as it was. -/
theorem C7_running_tick_displays_normalized_count (s : State) :
    (s.pauseCounter = false →
      0 ≤ (updateSevenSegmentCounterInterrupt s).normalizedCount →
      (updateSevenSegmentCounterInterrupt s).normalizedCount ≤ 9999 →
      window (updateSevenSegmentCounterInterrupt s) =
        decimalProjection (updateSevenSegmentCounterInterrupt s).normalizedCount) ∧
    (s.pauseCounter = true →
      (updateSevenSegmentCounterInterrupt s).chrSequence = s.chrSequence) := by
  constructor
  · intro hp h0 h1
    obtain ⟨n, hn⟩ := Int.eq_ofNat_of_zero_le h0
    have hle : n ≤ 9999 := by omega
    rw [tick_window_of_running s hp n hle hn, hn, decimalProjection_natCast n hle]
  · intro hp
    rw [tick_of_paused s hp]

/-- Witness for C7: a running counter at 9998 counting up by 3 shows "0001"
after its first tick, and the paused counter keeps its buffer. -/
theorem C7_running_tick_displays_normalized_count_witness :
    window (updateSevenSegmentCounterInterrupt runningCounter) =
        decimalProjection (updateSevenSegmentCounterInterrupt runningCounter).normalizedCount ∧
    (updateSevenSegmentCounterInterrupt pausedCounter).chrSequence
      = pausedCounter.chrSequence :=
  ⟨(C7_running_tick_displays_normalized_count runningCounter).1 (by decide) (by decide)
      (by decide),
   (C7_running_tick_displays_normalized_count pausedCounter).2 (by decide)⟩

/-- C8: for every `n` in 0..9999, `display4Numbers` and a counting tick of a
running counter whose normalized count becomes `n` both put the characters
'0'+thousands, '0'+hundreds, '0'+tens, '0'+ones of `n` into display-buffer slots
3, 2, 1, 0 in that order, and reading those slots back as decimal digits gives
`n` again. -/
theorem C8_digit_decomposition (n : Nat) (hn : n ≤ 9999) (s : State) (clockType : List Nat)
    (refreshRate : Int) :
    ((display4Numbers s n clockType refreshRate).chrSequence 3 = 48 + n / 1000 ∧
     (display4Numbers s n clockType refreshRate).chrSequence 2 = 48 + n / 100 % 10 ∧
     (display4Numbers s n clockType refreshRate).chrSequence 1 = 48 + n / 10 % 10 ∧
     (display4Numbers s n clockType refreshRate).chrSequence 0 = 48 + n % 10) ∧
    (s.pauseCounter = false → (updateSevenSegmentCounterInterrupt s).normalizedCount = n →
     (updateSevenSegmentCounterInterrupt s).chrSequence 3 = 48 + n / 1000 ∧
     (updateSevenSegmentCounterInterrupt s).chrSequence 2 = 48 + n / 100 % 10 ∧
     (updateSevenSegmentCounterInterrupt s).chrSequence 1 = 48 + n / 10 % 10 ∧
     (updateSevenSegmentCounterInterrupt s).chrSequence 0 = 48 + n % 10) ∧
    1000 * ((display4Numbers s n clockType refreshRate).chrSequence 3 - 48)
      + 100 * ((display4Numbers s n clockType refreshRate).chrSequence 2 - 48)
      + 10 * ((display4Numbers s n clockType refreshRate).chrSequence 1 - 48)
      + ((display4Numbers s n clockType refreshRate).chrSequence 0 - 48) = n := by
  have hd : (display4Numbers s n clockType refreshRate).chrSequence 3 = 48 + n / 1000 ∧
     (display4Numbers s n clockType refreshRate).chrSequence 2 = 48 + n / 100 % 10 ∧
     (display4Numbers s n clockType refreshRate).chrSequence 1 = 48 + n / 10 % 10 ∧
     (display4Numbers s n clockType refreshRate).chrSequence 0 = 48 + n % 10 := by
    obtain ⟨k, a, b, c, d, e, h⟩ := display4Characters_eq s (display4NumbersLoop n).1
      clockType refreshRate
    unfold display4Numbers
    rw [h, display4NumbersLoop_eq n hn]
    simp [State.withTimers, primed, setAt, cget]
  refine ⟨hd, ?_, ?_⟩
  · intro hp hcount
    have hw := tick_window_of_running s hp n hn hcount
    simp only [window, List.cons.injEq, and_true] at hw
    exact hw
  · obtain ⟨h3, h2, h1, h0⟩ := hd
    rw [h3, h2, h1, h0]
    omega

/-- Witness for C8: the running counter at 9998 wraps to 1 on its first tick. -/
theorem C8_digit_decomposition_witness :
    (updateSevenSegmentCounterInterrupt runningCounter).chrSequence 3 = 48 + 1 / 1000 ∧
    (updateSevenSegmentCounterInterrupt runningCounter).chrSequence 2 = 48 + 1 / 100 % 10 ∧
    (updateSevenSegmentCounterInterrupt runningCounter).chrSequence 1 = 48 + 1 / 10 % 10 ∧
    (updateSevenSegmentCounterInterrupt runningCounter).chrSequence 0 = 48 + 1 % 10 :=
  (C8_digit_decomposition 1 (by decide) runningCounter strMRT0 50).2.1 (by decide) (by decide)

/-! ## The carousel -/

theorem sevenSegmentDisplayTextCarousel_eq (s : State) (characterSequence : List Nat)
    (sequenceLength : Int) (newTransitionClock : List Nat) (transitionSpeed : Int)
    (newEnableContinousCycle newEnablePadding : Bool) (refreshClock : List Nat)
    (refreshRate : Int) (hclk : strcmpEq newTransitionClock refreshClock = false) :
    ∃ k1 k2 a b c d e,
      sevenSegmentDisplayTextCarousel s characterSequence sequenceLength newTransitionClock
        transitionSpeed newEnableContinousCycle newEnablePadding refreshClock refreshRate =
      ({ s with
          carouselSequenceLength :=
            carouselLengthAfter sequenceLength newEnableContinousCycle newEnablePadding,
          carouselSequence :=
            carouselBufferAfter s.carouselSequence characterSequence sequenceLength
              newEnableContinousCycle newEnablePadding,
          transitionRate := transitionSpeed,
          enableContinousCycle := newEnableContinousCycle,
          pauseCarouselTransition := false,
          transitionClock := k1,
          transitionIndex := -1,
          chrSequence := primed s.chrSequence
            [carouselBufferAfter s.carouselSequence characterSequence sequenceLength
               newEnableContinousCycle newEnablePadding 0,
             carouselBufferAfter s.carouselSequence characterSequence sequenceLength
               newEnableContinousCycle newEnablePadding 1,
             carouselBufferAfter s.carouselSequence characterSequence sequenceLength
               newEnableContinousCycle newEnablePadding 2,
             carouselBufferAfter s.carouselSequence characterSequence sequenceLength
               newEnableContinousCycle newEnablePadding 3],
          cycleRate := refreshRate, currentClock := k2,
          currentDigit := 0 } : State).withTimers a b c d e := by
  have step : ∀ s6 : State, ∃ k a b c d e,
      (if strcmpEq newTransitionClock strSysTick then
        SysTick_Configuration_Seven_Segment { s6 with transitionClock := 0 }
      else if strcmpEq newTransitionClock strWKT then
        WKT_Configuration_Seven_Segment { s6 with transitionClock := 1 }
      else if strcmpEq newTransitionClock strMRT0 then
        MRT_Configuration_Seven_Segment { s6 with transitionClock := 2 } 0
      else if strcmpEq newTransitionClock strMRT1 then
        MRT_Configuration_Seven_Segment { s6 with transitionClock := 3 } 1
      else if strcmpEq newTransitionClock strCTIMER0 then
        CTIMER_Configuration_Seven_Segment { s6 with transitionClock := 4 }
      else s6) = ({ s6 with transitionClock := k } : State).withTimers a b c d e := by
    intro s6
    split_ifs
    · obtain ⟨a, b, c, d, e, h⟩ := SysTick_Configuration_timers { s6 with transitionClock := 0 }
      exact ⟨0, a, b, c, d, e, h⟩
    · obtain ⟨a, b, c, d, e, h⟩ := WKT_Configuration_timers { s6 with transitionClock := 1 }
      exact ⟨1, a, b, c, d, e, h⟩
    · obtain ⟨a, b, c, d, e, h⟩ := MRT_Configuration_timers { s6 with transitionClock := 2 } 0
      exact ⟨2, a, b, c, d, e, h⟩
    · obtain ⟨a, b, c, d, e, h⟩ := MRT_Configuration_timers { s6 with transitionClock := 3 } 1
      exact ⟨3, a, b, c, d, e, h⟩
    · obtain ⟨a, b, c, d, e, h⟩ := CTIMER_Configuration_timers { s6 with transitionClock := 4 }
      exact ⟨4, a, b, c, d, e, h⟩
    · exact ⟨s6.transitionClock, _, _, _, _, _, rfl⟩
  obtain ⟨k1, a, b, c, d, e, h⟩ := step
    { s with
        carouselSequenceLength :=
          carouselLengthAfter sequenceLength newEnableContinousCycle newEnablePadding,
        carouselSequence :=
          carouselBufferAfter s.carouselSequence characterSequence sequenceLength
            newEnableContinousCycle newEnablePadding,
        transitionRate := transitionSpeed, cycleRate := refreshRate,
        enableContinousCycle := newEnableContinousCycle,
        pauseCarouselTransition := false }
  obtain ⟨k2, a2, b2, c2, d2, e2, h2⟩ := display4Characters_eq
    ({ ({ s with
        carouselSequenceLength :=
          carouselLengthAfter sequenceLength newEnableContinousCycle newEnablePadding,
        carouselSequence :=
          carouselBufferAfter s.carouselSequence characterSequence sequenceLength
            newEnableContinousCycle newEnablePadding,
        transitionRate := transitionSpeed, cycleRate := refreshRate,
        enableContinousCycle := newEnableContinousCycle,
        pauseCarouselTransition := false, transitionClock := k1 } : State).withTimers a b c d e
      with transitionIndex := -1 })
    [carouselBufferAfter s.carouselSequence characterSequence sequenceLength
       newEnableContinousCycle newEnablePadding 0,
     carouselBufferAfter s.carouselSequence characterSequence sequenceLength
       newEnableContinousCycle newEnablePadding 1,
     carouselBufferAfter s.carouselSequence characterSequence sequenceLength
       newEnableContinousCycle newEnablePadding 2,
     carouselBufferAfter s.carouselSequence characterSequence sequenceLength
       newEnableContinousCycle newEnablePadding 3] refreshClock refreshRate
  refine ⟨k1, k2, a2, b2, c2, d2, e2, ?_⟩
  unfold sevenSegmentDisplayTextCarousel
  rw [if_neg (by simp [hclk])]
  cases newEnableContinousCycle <;> cases newEnablePadding <;>
  · simp only [carouselBufferAfter, carouselLengthAfter, Bool.false_eq_true, if_false, if_true,
      and_self, and_true, and_false, false_and, true_and] at h h2 ⊢
    exact (congrArg (fun t : State =>
        display4Characters ({ t with transitionIndex := -1 } : State)
          [t.carouselSequence 0, t.carouselSequence 1, t.carouselSequence 2,
           t.carouselSequence 3] refreshClock refreshRate) h).trans (h2.trans rfl)
theorem copyLoop_apply (text : List Nat) (p : Int) (n : Nat) (q : Int → Nat) (j : Int) :
    (List.range n).foldl
      (fun (q : Int → Nat) (i : Nat) => setAt q ((i : Int) + p) (cget text i)) q j =
      if p ≤ j ∧ j < p + n then cget text (j - p) else q j := by
  induction n with
  | zero =>
    have : ¬ (p ≤ j ∧ j < p + ((0 : Nat) : Int)) := by omega
    rw [if_neg this]
    rfl
  | succ n ih =>
    rw [List.range_succ, List.foldl_append]
    simp only [List.foldl, setAt]
    by_cases hj : j = (n : Int) + p
    · have : p ≤ j ∧ j < p + ((n + 1 : Nat) : Int) := by omega
      rw [if_pos hj, if_pos this]
      congr 1
      omega
    · rw [if_neg hj, ih]
      by_cases hr : p ≤ j ∧ j < p + (n : Int)
      · have : p ≤ j ∧ j < p + ((n + 1 : Nat) : Int) := by omega
        rw [if_pos hr, if_pos this]
      · have : ¬ (p ≤ j ∧ j < p + ((n + 1 : Nat) : Int)) := by omega
        rw [if_neg hr, if_neg this]

theorem writeBlanks_apply (buf : Int → Nat) (base j : Int) :
    writeBlanks buf base j = if base ≤ j ∧ j < base + 4 then SPACE else buf j := by
  simp only [writeBlanks, List.foldl, setAt]
  split_ifs <;> first | rfl | omega

theorem carouselBufferAfter_continuous (buf : Int → Nat) (text : List Nat) (padded : Bool)
    (i : Nat) (hi : i < (carouselWorking text padded).length) :
    carouselBufferAfter buf text text.length true padded (i : Int) =
      (carouselWorking text padded).getD i 0 := by
  cases padded
  · simp only [carouselBufferAfter, carouselWorking, Bool.false_eq_true, if_false, if_true,
      and_self, and_true, and_false, false_and, true_and, Int.toNat_ofNat, setAt,
      List.length_append, List.length_singleton] at hi ⊢
    by_cases h : (i : Int) = (text.length : Int)
    · have h' : i = text.length := by omega
      rw [if_pos h]
      subst h'
      simp
    · rw [if_neg h, copyLoop_apply]
      have hlt : i < text.length := by omega
      rw [if_pos (by omega)]
      have e : (i : Int) - 0 = (i : Int) := by omega
      have hneg : ¬ ((i : Int) < 0) := by omega
      simp only [cget, e, if_neg hneg, Int.toNat_ofNat, List.getD_eq_getElem?_getD,
        List.getElem?_append_left hlt]
  · simp only [carouselBufferAfter, carouselWorking, Bool.false_eq_true, Bool.true_eq_false,
      if_false, if_true, and_self, and_true, and_false, false_and, true_and, Int.toNat_ofNat,
      List.length_append, List.length_cons, List.length_nil] at hi ⊢
    rw [copyLoop_apply]
    by_cases h : i < 4
    · rw [if_neg (by omega), writeBlanks_apply, if_pos (by omega)]
      interval_cases i <;> simp [SPACE]
    · rw [if_pos (by omega)]
      obtain ⟨m, rfl⟩ : ∃ m, i = 4 + m := ⟨i - 4, by omega⟩
      have e : ((4 + m : Nat) : Int) - 4 = (m : Int) := by omega
      have hneg : ¬ ((m : Int) < 0) := by omega
      rw [e]
      simp only [cget, if_neg hneg, Int.toNat_ofNat, List.getD_eq_getElem?_getD]
      rw [List.getElem?_append_right (by simp)]
      simp
theorem emod_of_wrapped (x n : Int) (h0 : n ≤ x) (h1 : x < 2 * n) : x % n = x - n := by
  rw [Int.emod_eq_sub_self_emod, Int.emod_eq_of_lt (by omega) (by omega)]

theorem carouselWindowLoop_eq (s : State) (h0 : 0 ≤ s.transitionIndex)
    (h1 : s.transitionIndex ≤ s.carouselSequenceLength) (hM : 3 ≤ s.carouselSequenceLength) :
    (carouselWindowLoop s).1 =
      setAt (setAt (setAt (setAt s.chrSequence 3
        (s.carouselSequence ((s.transitionIndex + 0) % (s.carouselSequenceLength + 1)))) 2
        (s.carouselSequence ((s.transitionIndex + 1) % (s.carouselSequenceLength + 1)))) 1
        (s.carouselSequence ((s.transitionIndex + 2) % (s.carouselSequenceLength + 1)))) 0
        (s.carouselSequence ((s.transitionIndex + 3) % (s.carouselSequenceLength + 1))) := by
  have e0 : (s.transitionIndex + 0) % (s.carouselSequenceLength + 1) = 0 + s.transitionIndex :=
    by rw [Int.emod_eq_of_lt (by omega) (by omega)]; omega
  have c0 : ¬ (0 + s.transitionIndex > s.carouselSequenceLength) := by omega
  simp only [carouselWindowLoop, List.foldl, if_neg c0, e0]
  by_cases c1 : 1 + s.transitionIndex > s.carouselSequenceLength
  · have c2 : 2 + s.transitionIndex > s.carouselSequenceLength := by omega
    have c3 : 3 + s.transitionIndex > s.carouselSequenceLength := by omega
    rw [emod_of_wrapped (s.transitionIndex + 1) _ (by omega) (by omega),
      emod_of_wrapped (s.transitionIndex + 2) _ (by omega) (by omega),
      emod_of_wrapped (s.transitionIndex + 3) _ (by omega) (by omega)]
    simp only [if_pos c1, if_pos c2, if_pos c3]
    have a1 : s.transitionIndex + 1 - (s.carouselSequenceLength + 1) = 0 := by omega
    have a2 : s.transitionIndex + 2 - (s.carouselSequenceLength + 1) = 0 + 1 := by omega
    have a3 : s.transitionIndex + 3 - (s.carouselSequenceLength + 1) = 0 + 1 + 1 := by omega
    rw [a1, a2, a3]
    norm_num
  · rw [Int.emod_eq_of_lt (a := s.transitionIndex + 1) (by omega) (by omega)]
    by_cases c2 : 2 + s.transitionIndex > s.carouselSequenceLength
    · have c3 : 3 + s.transitionIndex > s.carouselSequenceLength := by omega
      rw [emod_of_wrapped (s.transitionIndex + 2) _ (by omega) (by omega),
        emod_of_wrapped (s.transitionIndex + 3) _ (by omega) (by omega)]
      simp only [if_neg c1, if_pos c2, if_pos c3]
      have a2 : s.transitionIndex + 2 - (s.carouselSequenceLength + 1) = 0 := by omega
      have a3 : s.transitionIndex + 3 - (s.carouselSequenceLength + 1) = 0 + 1 := by omega
      have b1 : s.transitionIndex + 1 = 1 + s.transitionIndex := by omega
      rw [a2, a3, b1]
      norm_num
    · rw [Int.emod_eq_of_lt (a := s.transitionIndex + 2) (by omega) (by omega)]
      have b1 : s.transitionIndex + 1 = 1 + s.transitionIndex := by omega
      have b2 : s.transitionIndex + 2 = 2 + s.transitionIndex := by omega
      by_cases c3 : 3 + s.transitionIndex > s.carouselSequenceLength
      · rw [emod_of_wrapped (s.transitionIndex + 3) _ (by omega) (by omega)]
        simp only [if_neg c1, if_neg c2, if_pos c3]
        have a3 : s.transitionIndex + 3 - (s.carouselSequenceLength + 1) = 0 := by omega
        rw [a3, b1, b2]
        norm_num
      · rw [Int.emod_eq_of_lt (a := s.transitionIndex + 3) (by omega) (by omega)]
        have b3 : s.transitionIndex + 3 = 3 + s.transitionIndex := by omega
        simp only [if_neg c1, if_neg c2, if_neg c3]
        rw [b1, b2, b3]
        norm_num
theorem carouselTick_continuous (s : State) (hov : s.carouselOverflow = false)
    (hp : s.pauseCarouselTransition = false) (hc : s.enableContinousCycle = true)
    (hM : 3 ≤ s.carouselSequenceLength) (hlo : -1 ≤ s.transitionIndex)
    (hhi : s.transitionIndex < s.carouselSequenceLength) :
    sevenSegmentCarouselInterrupt s =
      { s with
        transitionIndex :=
          if s.transitionIndex + 1 = s.carouselSequenceLength then -1
          else s.transitionIndex + 1,
        chrSequence :=
          setAt (setAt (setAt (setAt s.chrSequence 3
            (s.carouselSequence
              ((s.transitionIndex + 1 + 0) % (s.carouselSequenceLength + 1)))) 2
            (s.carouselSequence
              ((s.transitionIndex + 1 + 1) % (s.carouselSequenceLength + 1)))) 1
            (s.carouselSequence
              ((s.transitionIndex + 1 + 2) % (s.carouselSequenceLength + 1)))) 0
            (s.carouselSequence
              ((s.transitionIndex + 1 + 3) % (s.carouselSequenceLength + 1))),
        wktCount := if s.transitionClock = 1 then s.transitionRate else s.wktCount } := by
  have hw := carouselWindowLoop_eq { s with transitionIndex := s.transitionIndex + 1 }
    (show 0 ≤ s.transitionIndex + 1 by omega)
    (show s.transitionIndex + 1 ≤ s.carouselSequenceLength by omega) hM
  unfold sevenSegmentCarouselInterrupt
  rw [if_pos (show s.carouselOverflow = false ∧ s.pauseCarouselTransition = false from
    ⟨hov, hp⟩)]
  simp only [] at hw ⊢
  rw [hw]
  by_cases hwrap : s.transitionIndex + 1 = s.carouselSequenceLength
  · simp only [hwrap, hc, and_self, if_true]
    split_ifs <;> rfl
  · have hne : ¬ (s.transitionIndex + 1 = s.carouselSequenceLength - 4 ∧
        s.enableContinousCycle = false) := by simp [hc]
    simp only [hwrap, false_and, if_false, hne]
    split_ifs <;> rfl
theorem succ_emod (t n : Int) (hn : 0 < n) :
    (t + 1) % n = if t % n + 1 = n then 0 else t % n + 1 := by
  have hr0 : 0 ≤ t % n := Int.emod_nonneg t (ne_of_gt hn)
  have hr1 : t % n < n := Int.emod_lt_of_pos t hn
  rw [← Int.emod_add_emod t n 1]
  split_ifs with h
  · rw [h, Int.emod_self]
  · exact Int.emod_eq_of_lt (by omega) (by omega)

theorem carouselTicks_succ (t : Nat) (s : State) :
    carouselTicks (t + 1) s = sevenSegmentCarouselInterrupt (carouselTicks t s) := by
  simp only [carouselTicks, Function.iterate_succ_apply']

theorem carouselTicks_continuous (c : State) (hov : c.carouselOverflow = false)
    (hp : c.pauseCarouselTransition = false) (hc : c.enableContinousCycle = true)
    (hM : 3 ≤ c.carouselSequenceLength) (hidx : c.transitionIndex = -1) (t : Nat) :
    ContinuousCarouselAt c t (carouselTicks t c) := by
  induction t with
  | zero =>
    refine ⟨hov, hp, hc, rfl, rfl, ?_⟩
    show c.transitionIndex = ((0 : Nat) : Int) % (c.carouselSequenceLength + 1) - 1
    rw [hidx]
    simp
  | succ t ih =>
    obtain ⟨iov, ip, ic, ilen, iseq, iidx⟩ := ih
    have hr0 : 0 ≤ (t : Int) % (c.carouselSequenceLength + 1) :=
      Int.emod_nonneg _ (by omega)
    have hr1 : (t : Int) % (c.carouselSequenceLength + 1) < c.carouselSequenceLength + 1 :=
      Int.emod_lt_of_pos _ (by omega)
    rw [carouselTicks_succ,
      carouselTick_continuous _ iov ip ic (by omega) (by omega) (by omega)]
    refine ⟨iov, ip, ic, ilen, iseq, ?_⟩
    show (if (carouselTicks t c).transitionIndex + 1 = (carouselTicks t c).carouselSequenceLength
        then -1 else (carouselTicks t c).transitionIndex + 1)
      = ((t + 1 : Nat) : Int) % (c.carouselSequenceLength + 1) - 1
    rw [iidx, ilen]
    push_cast
    rw [succ_emod _ _ (by omega)]
    split_ifs <;> omega

theorem carouselTicks_window (c : State) (hov : c.carouselOverflow = false)
    (hp : c.pauseCarouselTransition = false) (hc : c.enableContinousCycle = true)
    (hM : 3 ≤ c.carouselSequenceLength) (hidx : c.transitionIndex = -1) (t : Nat) :
    window (carouselTicks (t + 1) c) =
      [c.carouselSequence (((t : Int) + 0) % (c.carouselSequenceLength + 1)),
       c.carouselSequence (((t : Int) + 1) % (c.carouselSequenceLength + 1)),
       c.carouselSequence (((t : Int) + 2) % (c.carouselSequenceLength + 1)),
       c.carouselSequence (((t : Int) + 3) % (c.carouselSequenceLength + 1))] := by
  obtain ⟨iov, ip, ic, ilen, iseq, iidx⟩ := carouselTicks_continuous c hov hp hc hM hidx t
  have hr0 : 0 ≤ (t : Int) % (c.carouselSequenceLength + 1) :=
    Int.emod_nonneg _ (by omega)
  have hr1 : (t : Int) % (c.carouselSequenceLength + 1) < c.carouselSequenceLength + 1 :=
    Int.emod_lt_of_pos _ (by omega)
  rw [carouselTicks_succ,
    carouselTick_continuous _ iov ip ic (by omega) (by omega) (by omega)]
  simp only [window]
  rw [window_setAt4, iseq, ilen, iidx]
  have e : (t : Int) % (c.carouselSequenceLength + 1) - 1 + 1
      = (t : Int) % (c.carouselSequenceLength + 1) := by omega
  rw [e, Int.emod_add_emod, Int.emod_add_emod, Int.emod_add_emod, Int.emod_add_emod]
theorem carouselLengthAfter_continuous (text : List Nat) (padded : Bool) :
    carouselLengthAfter text.length true padded + 1
      = ((carouselWorking text padded).length : Int) := by
  cases padded
  · simp [carouselLengthAfter, carouselWorking]
  · simp [carouselLengthAfter, carouselWorking]
    omega

theorem continuousCarousel_char (buf : Int → Nat) (text : List Nat) (padded : Bool)
    (hN : 4 ≤ (carouselWorking text padded).length) (t k : Nat) :
    carouselBufferAfter buf text text.length true padded
        (((t : Int) + (k : Int)) % (carouselLengthAfter text.length true padded + 1))
      = (carouselWorking text padded).getD ((t + k) % (carouselWorking text padded).length) 0 := by
  rw [carouselLengthAfter_continuous,
    ← carouselBufferAfter_continuous buf text padded
      ((t + k) % (carouselWorking text padded).length) (Nat.mod_lt _ (by omega))]
  congr 1

theorem sevenSegmentDisplayTextCarousel_fields (s : State) (characterSequence : List Nat)
    (sequenceLength : Int) (newTransitionClock : List Nat) (transitionSpeed : Int)
    (newEnableContinousCycle newEnablePadding : Bool) (refreshClock : List Nat)
    (refreshRate : Int) (hclk : strcmpEq newTransitionClock refreshClock = false) :
    (sevenSegmentDisplayTextCarousel s characterSequence sequenceLength newTransitionClock
        transitionSpeed newEnableContinousCycle newEnablePadding refreshClock
        refreshRate).carouselOverflow = s.carouselOverflow ∧
    (sevenSegmentDisplayTextCarousel s characterSequence sequenceLength newTransitionClock
        transitionSpeed newEnableContinousCycle newEnablePadding refreshClock
        refreshRate).pauseCarouselTransition = false ∧
    (sevenSegmentDisplayTextCarousel s characterSequence sequenceLength newTransitionClock
        transitionSpeed newEnableContinousCycle newEnablePadding refreshClock
        refreshRate).enableContinousCycle = newEnableContinousCycle ∧
    (sevenSegmentDisplayTextCarousel s characterSequence sequenceLength newTransitionClock
        transitionSpeed newEnableContinousCycle newEnablePadding refreshClock
        refreshRate).carouselSequenceLength =
      carouselLengthAfter sequenceLength newEnableContinousCycle newEnablePadding ∧
    (sevenSegmentDisplayTextCarousel s characterSequence sequenceLength newTransitionClock
        transitionSpeed newEnableContinousCycle newEnablePadding refreshClock
        refreshRate).carouselSequence =
      carouselBufferAfter s.carouselSequence characterSequence sequenceLength
        newEnableContinousCycle newEnablePadding ∧
    (sevenSegmentDisplayTextCarousel s characterSequence sequenceLength newTransitionClock
        transitionSpeed newEnableContinousCycle newEnablePadding refreshClock
        refreshRate).transitionIndex = -1 := by
  obtain ⟨k1, k2, a, b, c, d, e, h⟩ := sevenSegmentDisplayTextCarousel_eq s characterSequence
    sequenceLength newTransitionClock transitionSpeed newEnableContinousCycle newEnablePadding
    refreshClock refreshRate hclk
  rw [h]
  exact ⟨rfl, rfl, rfl, rfl, rfl, rfl⟩

theorem continuousCarousel_window (s : State) (text newTransitionClock : List Nat)
    (transitionSpeed : Int) (padded : Bool) (refreshClock : List Nat) (refreshRate : Int)
    (hclk : strcmpEq newTransitionClock refreshClock = false)
    (hov : s.carouselOverflow = false)
    (hN : 4 ≤ (carouselWorking text padded).length) (t : Nat) :
    window (carouselTicks (t + 1)
        (sevenSegmentDisplayTextCarousel s text text.length newTransitionClock transitionSpeed
          true padded refreshClock refreshRate)) =
      [(carouselWorking text padded).getD ((t + 0) % (carouselWorking text padded).length) 0,
       (carouselWorking text padded).getD ((t + 1) % (carouselWorking text padded).length) 0,
       (carouselWorking text padded).getD ((t + 2) % (carouselWorking text padded).length) 0,
       (carouselWorking text padded).getD ((t + 3) % (carouselWorking text padded).length) 0] := by
  obtain ⟨fov, fp, fc, flen, fseq, fidx⟩ := sevenSegmentDisplayTextCarousel_fields s text
    text.length newTransitionClock transitionSpeed true padded refreshClock refreshRate hclk
  have hlen := carouselLengthAfter_continuous text padded
  rw [carouselTicks_window _ (fov.trans hov) fp fc (by rw [flen]; omega) fidx t, fseq, flen]
  have k0 := continuousCarousel_char s.carouselSequence text padded hN t 0
  have k1 := continuousCarousel_char s.carouselSequence text padded hN t 1
  have k2 := continuousCarousel_char s.carouselSequence text padded hN t 2
  have k3 := continuousCarousel_char s.carouselSequence text padded hN t 3
  push_cast at k0 k1 k2 k3
  rw [← k0, ← k1, ← k2, ← k3]

theorem continuousCarousel_primed (s : State) (text newTransitionClock : List Nat)
    (transitionSpeed : Int) (padded : Bool) (refreshClock : List Nat) (refreshRate : Int)
    (hclk : strcmpEq newTransitionClock refreshClock = false)
    (hN : 4 ≤ (carouselWorking text padded).length) :
    window (sevenSegmentDisplayTextCarousel s text text.length newTransitionClock
          transitionSpeed true padded refreshClock refreshRate) =
      [(carouselWorking text padded).getD 0 0, (carouselWorking text padded).getD 1 0,
       (carouselWorking text padded).getD 2 0, (carouselWorking text padded).getD 3 0] := by
  obtain ⟨k1, k2, a, b, c, d, e, h⟩ := sevenSegmentDisplayTextCarousel_eq s text text.length
    newTransitionClock transitionSpeed true padded refreshClock refreshRate hclk
  rw [h]
  have k0 := carouselBufferAfter_continuous s.carouselSequence text padded 0 (by omega)
  have k1 := carouselBufferAfter_continuous s.carouselSequence text padded 1 (by omega)
  have k2 := carouselBufferAfter_continuous s.carouselSequence text padded 2 (by omega)
  have k3 := carouselBufferAfter_continuous s.carouselSequence text padded 3 (by omega)
  push_cast at k0 k1 k2 k3
  rw [← k0, ← k1, ← k2, ← k3]
  simp only [window, State.withTimers, primed]
  rw [window_setAt4]
  simp [cget]
theorem carouselWorking_unpadded_getD (text : List Nat) (k : Nat) (hk : k < 4)
    (hL : 4 ≤ text.length) :
    (carouselWorking text false).getD k 0 = text.getD k 0 := by
  simp only [carouselWorking, Bool.false_eq_true, if_false, List.getD_eq_getElem?_getD]
  rw [List.getElem?_append_left (by omega)]

theorem take_four (text : List Nat) (hL : 4 ≤ text.length) :
    [text.getD 0 0, text.getD 1 0, text.getD 2 0, text.getD 3 0] = text.take 4 := by
  rcases text with _ | ⟨a, _ | ⟨b, _ | ⟨c, _ | ⟨d, rest⟩⟩⟩⟩
  · simp at hL
  · simp at hL
  · simp at hL
  · simp at hL
  · simp

theorem continuousCarousel_index (s : State) (text newTransitionClock : List Nat)
    (transitionSpeed : Int) (padded : Bool) (refreshClock : List Nat) (refreshRate : Int)
    (hclk : strcmpEq newTransitionClock refreshClock = false)
    (hov : s.carouselOverflow = false)
    (hN : 4 ≤ (carouselWorking text padded).length) (t : Nat) :
    (carouselTicks t
        (sevenSegmentDisplayTextCarousel s text text.length newTransitionClock transitionSpeed
          true padded refreshClock refreshRate)).transitionIndex =
      ((t % (carouselWorking text padded).length : Nat) : Int) - 1 := by
  obtain ⟨fov, fp, fc, flen, fseq, fidx⟩ := sevenSegmentDisplayTextCarousel_fields s text
    text.length newTransitionClock transitionSpeed true padded refreshClock refreshRate hclk
  have hlen := carouselLengthAfter_continuous text padded
  obtain ⟨-, -, -, -, -, iidx⟩ := carouselTicks_continuous _ (fov.trans hov) fp fc
    (by rw [flen]; omega) fidx t
  rw [iidx, flen, hlen]
  push_cast
  rfl

/-! ## The one-shot carousel -/

theorem carouselWindowLoop_noWrap (s : State)
    (h1 : s.transitionIndex + 3 ≤ s.carouselSequenceLength) :
    carouselWindowLoop s =
      (setAt (setAt (setAt (setAt s.chrSequence 3
        (s.carouselSequence (s.transitionIndex + 0))) 2
        (s.carouselSequence (s.transitionIndex + 1))) 1
        (s.carouselSequence (s.transitionIndex + 2))) 0
        (s.carouselSequence (s.transitionIndex + 3)), 0) := by
  have c0 : ¬ (0 + s.transitionIndex > s.carouselSequenceLength) := by omega
  have c1 : ¬ (1 + s.transitionIndex > s.carouselSequenceLength) := by omega
  have c2 : ¬ (2 + s.transitionIndex > s.carouselSequenceLength) := by omega
  have c3 : ¬ (3 + s.transitionIndex > s.carouselSequenceLength) := by omega
  have b0 : 0 + s.transitionIndex = s.transitionIndex + 0 := by omega
  have b1 : 1 + s.transitionIndex = s.transitionIndex + 1 := by omega
  have b2 : 2 + s.transitionIndex = s.transitionIndex + 2 := by omega
  have b3 : 3 + s.transitionIndex = s.transitionIndex + 3 := by omega
  simp only [carouselWindowLoop, List.foldl, if_neg c0, if_neg c1, if_neg c2, if_neg c3]
  rw [b0, b1, b2, b3]
  norm_num

theorem carouselTick_oneShot_running (s : State) (hov : s.carouselOverflow = false)
    (hp : s.pauseCarouselTransition = false) (hc : s.enableContinousCycle = false)
    (hlo : -1 ≤ s.transitionIndex)
    (hhi : s.transitionIndex + 4 ≤ s.carouselSequenceLength) :
    sevenSegmentCarouselInterrupt s =
      { s with
        transitionIndex := s.transitionIndex + 1,
        chrSequence :=
          setAt (setAt (setAt (setAt s.chrSequence 3
            (s.carouselSequence (s.transitionIndex + 1 + 0))) 2
            (s.carouselSequence (s.transitionIndex + 1 + 1))) 1
            (s.carouselSequence (s.transitionIndex + 1 + 2))) 0
            (s.carouselSequence (s.transitionIndex + 1 + 3)),
        carouselOverflow := decide (s.transitionIndex + 1 = s.carouselSequenceLength - 4),
        wktCount := if s.transitionClock = 1 then s.transitionRate else s.wktCount } := by
  have hw := carouselWindowLoop_noWrap { s with transitionIndex := s.transitionIndex + 1 }
    (show s.transitionIndex + 1 + 3 ≤ s.carouselSequenceLength by omega)
  unfold sevenSegmentCarouselInterrupt
  rw [if_pos (show s.carouselOverflow = false ∧ s.pauseCarouselTransition = false from
    ⟨hov, hp⟩)]
  simp only [] at hw ⊢
  rw [hw]
  have hne : ¬ (s.transitionIndex + 1 = s.carouselSequenceLength ∧
      s.enableContinousCycle = true) := by simp [hc]
  by_cases hlast : s.transitionIndex + 1 = s.carouselSequenceLength - 4
  · simp only [if_neg hne, hlast, hc, and_self, if_true, decide_True]
    cases s
    simp only [] at hov
    subst hov
    split_ifs <;> simp_all
  · have hne2 : ¬ (s.transitionIndex + 1 = s.carouselSequenceLength - 4 ∧
        s.enableContinousCycle = false) := by simp [hlast]
    simp only [if_neg hne, if_neg hne2, hlast, decide_False]
    cases s
    simp only [] at hov
    subst hov
    split_ifs <;> simp_all

theorem carouselTick_oneShot_frozen (s : State) (hov : s.carouselOverflow = true)
    (hc : s.enableContinousCycle = false)
    (hidx : s.transitionIndex = s.carouselSequenceLength - 4)
    (hlen : 4 ≤ s.carouselSequenceLength) :
    sevenSegmentCarouselInterrupt s =
      { s with
        chrSequence :=
          setAt (setAt (setAt (setAt s.chrSequence 3
            (s.carouselSequence (s.transitionIndex + 0))) 2
            (s.carouselSequence (s.transitionIndex + 1))) 1
            (s.carouselSequence (s.transitionIndex + 2))) 0
            (s.carouselSequence (s.transitionIndex + 3)),
        wktCount := if s.transitionClock = 1 then s.transitionRate else s.wktCount } := by
  have hw := carouselWindowLoop_noWrap s (by omega)
  unfold sevenSegmentCarouselInterrupt
  rw [if_neg (show ¬ (s.carouselOverflow = false ∧ s.pauseCarouselTransition = false) by
    simp [hov])]
  simp only [] at hw ⊢
  rw [hw]
  have hne : ¬ (s.transitionIndex = s.carouselSequenceLength ∧
      s.enableContinousCycle = true) := by simp [hc]
  have hlast : s.transitionIndex = s.carouselSequenceLength - 4 ∧
      s.enableContinousCycle = false := ⟨hidx, hc⟩
  simp only [if_neg hne, if_pos hlast]
  cases s
  simp only [] at hov
  subst hov
  split_ifs <;> simp_all
theorem oneShotTicks_running (c : State) (hov : c.carouselOverflow = false)
    (hp : c.pauseCarouselTransition = false) (hc : c.enableContinousCycle = false)
    (hlen : 4 ≤ c.carouselSequenceLength) (hidx : c.transitionIndex = -1) (t : Nat)
    (ht : (t : Int) + 3 ≤ c.carouselSequenceLength) :
    OneShotCarouselAt c t (carouselTicks t c) := by
  induction t with
  | zero =>
    refine ⟨?_, hp, hc, rfl, rfl, ?_⟩
    · show c.carouselOverflow = decide (((0 : Nat) : Int) + 3 = c.carouselSequenceLength)
      rw [hov]
      have : ¬ (((0 : Nat) : Int) + 3 = c.carouselSequenceLength) := by omega
      exact (decide_eq_false this).symm
    · show c.transitionIndex = ((0 : Nat) : Int) - 1
      rw [hidx]
      simp
  | succ t ih =>
    obtain ⟨iov, ip, ic, ilen, iseq, iidx⟩ := ih (by push_cast at ht; omega)
    have hnot : ¬ ((t : Int) + 3 = c.carouselSequenceLength) := by push_cast at ht; omega
    have iov' : (carouselTicks t c).carouselOverflow = false := by
      rw [iov]; exact decide_eq_false hnot
    rw [carouselTicks_succ,
      carouselTick_oneShot_running _ iov' ip ic (by omega) (by push_cast at ht; omega)]
    refine ⟨?_, ip, ic, ilen, iseq, ?_⟩
    · show decide ((carouselTicks t c).transitionIndex + 1
          = (carouselTicks t c).carouselSequenceLength - 4)
        = decide (((t + 1 : Nat) : Int) + 3 = c.carouselSequenceLength)
      rw [iidx, ilen]
      push_cast
      congr 1
      apply propext
      constructor <;> intro h <;> omega
    · show (carouselTicks t c).transitionIndex + 1 = ((t + 1 : Nat) : Int) - 1
      rw [iidx]
      push_cast
      omega

theorem oneShotTicks_window (c : State) (hov : c.carouselOverflow = false)
    (hp : c.pauseCarouselTransition = false) (hc : c.enableContinousCycle = false)
    (hlen : 4 ≤ c.carouselSequenceLength) (hidx : c.transitionIndex = -1) (t : Nat)
    (ht : (t : Int) + 4 ≤ c.carouselSequenceLength) :
    window (carouselTicks (t + 1) c) =
      [c.carouselSequence ((t : Int) + 0), c.carouselSequence ((t : Int) + 1),
       c.carouselSequence ((t : Int) + 2), c.carouselSequence ((t : Int) + 3)] := by
  obtain ⟨iov, ip, ic, ilen, iseq, iidx⟩ :=
    oneShotTicks_running c hov hp hc hlen hidx t (by omega)
  have hnot : ¬ ((t : Int) + 3 = c.carouselSequenceLength) := by omega
  have iov' : (carouselTicks t c).carouselOverflow = false := by
    rw [iov]; simp [hnot]
  rw [carouselTicks_succ,
    carouselTick_oneShot_running _ iov' ip ic (by omega) (by omega)]
  simp only [window]
  rw [window_setAt4, iseq, iidx]
  have e : (t : Int) - 1 + 1 = (t : Int) := by omega
  rw [e]

theorem oneShotTicks_done (c : State) (hov : c.carouselOverflow = false)
    (hp : c.pauseCarouselTransition = false) (hc : c.enableContinousCycle = false)
    (hlen : 4 ≤ c.carouselSequenceLength) (hidx : c.transitionIndex = -1) (n : Nat)
    (hn : (n : Int) = c.carouselSequenceLength) (k : Nat) :
    OneShotCarouselDone c (carouselTicks (n - 3 + k) c) := by
  induction k with
  | zero =>
    obtain ⟨m, hm⟩ : ∃ m, n - 3 = m + 1 := ⟨n - 4, by omega⟩
    have hmi : (m : Int) + 4 = c.carouselSequenceLength := by omega
    obtain ⟨iov, ip, ic, ilen, iseq, iidx⟩ :=
      oneShotTicks_running c hov hp hc hlen hidx (m + 1) (by push_cast; omega)
    have hw := oneShotTicks_window c hov hp hc hlen hidx m (by omega)
    have e : c.carouselSequenceLength - 4 = (m : Int) := by omega
    rw [Nat.add_zero, hm]
    refine ⟨?_, ic, ilen, iseq, ?_, ?_⟩
    · rw [iov]
      have : ((m + 1 : Nat) : Int) + 3 = c.carouselSequenceLength := by push_cast; omega
      exact decide_eq_true this
    · rw [iidx]; push_cast; omega
    · rw [hw, e]
  | succ k ih =>
    obtain ⟨iov, ic, ilen, iseq, iidx, iwin⟩ := ih
    have hs : n - 3 + (k + 1) = (n - 3 + k) + 1 := by omega
    rw [hs, carouselTicks_succ,
      carouselTick_oneShot_frozen _ iov ic (by rw [iidx, ilen]) (by rw [ilen]; exact hlen)]
    refine ⟨iov, ic, ilen, iseq, iidx, ?_⟩
    simp only [window]
    rw [window_setAt4, iseq, iidx]
theorem carouselBufferAfter_oneShot (buf : Int → Nat) (text : List Nat) (padded : Bool)
    (i : Nat) (hi : i < (oneShotWorking text padded).length) :
    carouselBufferAfter buf text text.length false padded (i : Int) =
      (oneShotWorking text padded).getD i 0 := by
  cases padded
  · simp only [carouselBufferAfter, oneShotWorking, Bool.false_eq_true, Bool.true_eq_false,
      if_false, if_true, and_self, and_true, and_false, false_and, true_and,
      Int.toNat_ofNat] at hi ⊢
    rw [copyLoop_apply, if_pos (by omega)]
    have e : (i : Int) - 0 = (i : Int) := by omega
    have hneg : ¬ ((i : Int) < 0) := by omega
    simp only [cget, e, if_neg hneg, Int.toNat_ofNat]
  · simp only [carouselBufferAfter, oneShotWorking, Bool.false_eq_true, Bool.true_eq_false,
      if_false, if_true, and_self, and_true, and_false, false_and, true_and, Int.toNat_ofNat,
      List.length_append, List.length_cons, List.length_nil] at hi ⊢
    rw [writeBlanks_apply]
    by_cases h2 : 4 + text.length ≤ i
    · rw [if_pos (by omega), List.getD_eq_getElem?_getD,
        List.getElem?_append_right (by simp; omega)]
      have hlt : i - ([SPACE, SPACE, SPACE, SPACE] ++ text).length < 4 := by
        simp; omega
      generalize i - ([SPACE, SPACE, SPACE, SPACE] ++ text).length = j at hlt
      interval_cases j <;> simp
    · rw [if_neg (by omega), copyLoop_apply, List.getD_eq_getElem?_getD,
        List.getElem?_append_left (by simp; omega)]
      by_cases h : i < 4
      · rw [if_neg (by omega), writeBlanks_apply, if_pos (by omega)]
        interval_cases i <;> simp [SPACE]
      · rw [if_pos (by omega)]
        obtain ⟨m, rfl⟩ : ∃ m, i = 4 + m := ⟨i - 4, by omega⟩
        have e : ((4 + m : Nat) : Int) - 4 = (m : Int) := by omega
        have hneg : ¬ ((m : Int) < 0) := by omega
        rw [e]
        simp only [cget, if_neg hneg, Int.toNat_ofNat, List.getD_eq_getElem?_getD]
        rw [List.getElem?_append_right (by simp)]
        simp

theorem carouselLengthAfter_oneShot (text : List Nat) (padded : Bool) :
    carouselLengthAfter text.length false padded
      = ((oneShotWorking text padded).length : Int) := by
  cases padded
  · simp [carouselLengthAfter, oneShotWorking]
  · simp [carouselLengthAfter, oneShotWorking]
    omega

theorem drop_last_four (w : List Nat) (h : 4 ≤ w.length) :
    [w.getD (w.length - 4 + 0) 0, w.getD (w.length - 4 + 1) 0, w.getD (w.length - 4 + 2) 0,
     w.getD (w.length - 4 + 3) 0] = w.drop (w.length - 4) := by
  have hl : (w.drop (w.length - 4)).length = 4 := by
    rw [List.length_drop]; omega
  have g : ∀ k, (w.drop (w.length - 4)).getD k 0 = w.getD (w.length - 4 + k) 0 := by
    intro k
    simp [List.getD_eq_getElem?_getD, List.getElem?_drop]
  rw [← g 0, ← g 1, ← g 2, ← g 3]
  generalize w.drop (w.length - 4) = l at hl
  rcases l with _ | ⟨a, _ | ⟨b, _ | ⟨c, _ | ⟨d, _ | ⟨e, r⟩⟩⟩⟩⟩ <;> simp at hl ⊢
/-! ## Restart and pause of the carousel -/

theorem carouselTick_eq (s : State) :
    sevenSegmentCarouselInterrupt s =
      { s with
        transitionIndex :=
          if carouselAdvanced s = s.carouselSequenceLength ∧ s.enableContinousCycle = true
          then -1 else carouselAdvanced s,
        chrSequence :=
          (carouselWindowLoop { s with transitionIndex := carouselAdvanced s }).1,
        carouselOverflow :=
          if carouselAdvanced s = s.carouselSequenceLength ∧ s.enableContinousCycle = true
          then s.carouselOverflow
          else if carouselAdvanced s = s.carouselSequenceLength - 4
              ∧ s.enableContinousCycle = false then true
          else s.carouselOverflow,
        wktCount := if s.transitionClock = 1 then s.transitionRate else s.wktCount } := by
  unfold sevenSegmentCarouselInterrupt carouselAdvanced
  by_cases hadv : s.carouselOverflow = false ∧ s.pauseCarouselTransition = false
  · rw [if_pos hadv]
    simp only []
    split_ifs <;> rfl
  · rw [if_neg hadv]
    simp only []
    split_ifs <;> rfl

theorem carouselWindowLoop_congr (a b : State)
    (hseq : a.carouselSequence = b.carouselSequence)
    (hlen : a.carouselSequenceLength = b.carouselSequenceLength)
    (hidx : a.transitionIndex = b.transitionIndex) :
    [(carouselWindowLoop a).1 3, (carouselWindowLoop a).1 2, (carouselWindowLoop a).1 1,
     (carouselWindowLoop a).1 0] =
    [(carouselWindowLoop b).1 3, (carouselWindowLoop b).1 2, (carouselWindowLoop b).1 1,
     (carouselWindowLoop b).1 0] := by
  simp only [carouselWindowLoop, List.foldl, hseq, hlen, hidx]
  split_ifs <;> simp [setAt]

theorem carouselTick_agree (a b : State) (h : CarouselAgree a b) :
    CarouselAgree (sevenSegmentCarouselInterrupt a) (sevenSegmentCarouselInterrupt b) ∧
    window (sevenSegmentCarouselInterrupt a) = window (sevenSegmentCarouselInterrupt b) := by
  obtain ⟨hseq, hlen, hc, hidx, hov, hp⟩ := h
  have hadv : carouselAdvanced a = carouselAdvanced b := by
    unfold carouselAdvanced
    rw [hov, hp, hidx]
  rw [carouselTick_eq a, carouselTick_eq b]
  refine ⟨⟨hseq, hlen, hc, ?_, ?_, hp⟩, ?_⟩
  · show (if carouselAdvanced a = a.carouselSequenceLength ∧ a.enableContinousCycle = true
        then -1 else carouselAdvanced a)
      = (if carouselAdvanced b = b.carouselSequenceLength ∧ b.enableContinousCycle = true
        then -1 else carouselAdvanced b)
    rw [hadv, hlen, hc]
  · show (if carouselAdvanced a = a.carouselSequenceLength ∧ a.enableContinousCycle = true
          then a.carouselOverflow
          else if carouselAdvanced a = a.carouselSequenceLength - 4
              ∧ a.enableContinousCycle = false then true
          else a.carouselOverflow)
      = (if carouselAdvanced b = b.carouselSequenceLength ∧ b.enableContinousCycle = true
          then b.carouselOverflow
          else if carouselAdvanced b = b.carouselSequenceLength - 4
              ∧ b.enableContinousCycle = false then true
          else b.carouselOverflow)
    rw [hadv, hlen, hc, hov]
  · exact carouselWindowLoop_congr { a with transitionIndex := carouselAdvanced a }
      { b with transitionIndex := carouselAdvanced b } hseq hlen hadv

theorem carouselTicks_agree (a b : State) (h : CarouselAgree a b) (n : Nat) :
    CarouselAgree (carouselTicks n a) (carouselTicks n b) ∧
    window (carouselTicks (n + 1) a) = window (carouselTicks (n + 1) b) := by
  induction n with
  | zero => exact ⟨h, (carouselTick_agree a b h).2⟩
  | succ n ih =>
    have hstep := carouselTick_agree _ _ ih.1
    rw [← carouselTicks_succ, ← carouselTicks_succ] at hstep
    refine ⟨hstep.1, ?_⟩
    rw [carouselTicks_succ (n + 1) a, carouselTicks_succ (n + 1) b]
    exact (carouselTick_agree _ _ hstep.1).2

/-- C13 (failing input): the continuous carousel over "1234" is paused before its
first transition tick. The tick leaves the scroll index at -1 but reads
`carouselSequence[-1 + k]`: the window changes from "1234" to the byte in front
of the buffer followed by "123". The same happens when the pause follows the
tick on which the carousel loops (tick 5, window " 123"). -/
theorem C13_pause_at_index_minus_one_changes_window :
    (window carousel1234 = [49, 50, 51, 52] ∧
     (sevenSegmentCarouselInterrupt
        (pauseSevenSegmentDisplayCarousel carousel1234)).transitionIndex = -1 ∧
     window (sevenSegmentCarouselInterrupt (pauseSevenSegmentDisplayCarousel carousel1234))
        = [carousel1234.carouselSequence (-1), 49, 50, 51] ∧
     window (sevenSegmentCarouselInterrupt (pauseSevenSegmentDisplayCarousel carousel1234))
        ≠ window carousel1234) ∧
    (window (carouselTicks 5 carousel1234) = [32, 49, 50, 51] ∧
     (carouselTicks 5 carousel1234).transitionIndex = -1 ∧
     window (sevenSegmentCarouselInterrupt
        (pauseSevenSegmentDisplayCarousel (carouselTicks 5 carousel1234)))
        = [carousel1234.carouselSequence (-1), 49, 50, 51] ∧
     window (sevenSegmentCarouselInterrupt
        (pauseSevenSegmentDisplayCarousel (carouselTicks 5 carousel1234)))
        ≠ window (carouselTicks 5 carousel1234)) := by
  decide

/-! ## The slider configuration -/

theorem sevenSegmentDisplayTextSlider_eq (s : State) (characterSequence : List Nat)
    (sequenceLength : Int) (newTransitionClock : List Nat) (transitionSpeed : Int)
    (newEnableContinousCycle newEnablePadding ignoreSingleSpaces : Bool)
    (refreshClock : List Nat) (refreshRate : Int)
    (hclk : strcmpEq newTransitionClock refreshClock = false) :
    ∃ k1 k2 a b c d e,
      sevenSegmentDisplayTextSlider s characterSequence sequenceLength newTransitionClock
        transitionSpeed newEnableContinousCycle newEnablePadding ignoreSingleSpaces
        refreshClock refreshRate =
      ({ s with
          sliderSequenceLength :=
            sliderLengthAfter s.sliderSequence characterSequence sequenceLength
              newEnablePadding ignoreSingleSpaces,
          sliderSequence :=
            sliderBufferAfter s.sliderSequence characterSequence sequenceLength
              newEnablePadding ignoreSingleSpaces,
          transitionRate := transitionSpeed,
          enableContinousCycle := newEnableContinousCycle,
          pauseSliderTransition := false,
          transitionClock := k1,
          sliderTransitionIndex := 0,
          chrSequence := primed s.chrSequence
            [sliderBufferAfter s.sliderSequence characterSequence sequenceLength
               newEnablePadding ignoreSingleSpaces 0,
             sliderBufferAfter s.sliderSequence characterSequence sequenceLength
               newEnablePadding ignoreSingleSpaces 1,
             sliderBufferAfter s.sliderSequence characterSequence sequenceLength
               newEnablePadding ignoreSingleSpaces 2,
             sliderBufferAfter s.sliderSequence characterSequence sequenceLength
               newEnablePadding ignoreSingleSpaces 3],
          cycleRate := refreshRate, currentClock := k2,
          currentDigit := 0 } : State).withTimers a b c d e := by
  have step : ∀ s5 : State, ∃ k a b c d e,
      (if strcmpEq newTransitionClock strSysTick then
        SysTick_Configuration_Seven_Segment { s5 with transitionClock := 0 }
      else if strcmpEq newTransitionClock strWKT then
        WKT_Configuration_Seven_Segment { s5 with transitionClock := 1 }
      else if strcmpEq newTransitionClock strMRT0 then
        MRT_Configuration_Seven_Segment { s5 with transitionClock := 2 } 0
      else if strcmpEq newTransitionClock strMRT1 then
        MRT_Configuration_Seven_Segment { s5 with transitionClock := 3 } 1
      else if strcmpEq newTransitionClock strCTIMER0 then
        CTIMER_Configuration_Seven_Segment { s5 with transitionClock := 4 }
      else s5) = ({ s5 with transitionClock := k } : State).withTimers a b c d e := by
    intro s5
    split_ifs
    · obtain ⟨a, b, c, d, e, h⟩ := SysTick_Configuration_timers { s5 with transitionClock := 0 }
      exact ⟨0, a, b, c, d, e, h⟩
    · obtain ⟨a, b, c, d, e, h⟩ := WKT_Configuration_timers { s5 with transitionClock := 1 }
      exact ⟨1, a, b, c, d, e, h⟩
    · obtain ⟨a, b, c, d, e, h⟩ := MRT_Configuration_timers { s5 with transitionClock := 2 } 0
      exact ⟨2, a, b, c, d, e, h⟩
    · obtain ⟨a, b, c, d, e, h⟩ := MRT_Configuration_timers { s5 with transitionClock := 3 } 1
      exact ⟨3, a, b, c, d, e, h⟩
    · obtain ⟨a, b, c, d, e, h⟩ := CTIMER_Configuration_timers { s5 with transitionClock := 4 }
      exact ⟨4, a, b, c, d, e, h⟩
    · exact ⟨s5.transitionClock, _, _, _, _, _, rfl⟩
  obtain ⟨k1, a, b, c, d, e, h⟩ := step
    { s with
        sliderSequenceLength :=
          sliderLengthAfter s.sliderSequence characterSequence sequenceLength
            newEnablePadding ignoreSingleSpaces,
        sliderSequence :=
          sliderBufferAfter s.sliderSequence characterSequence sequenceLength
            newEnablePadding ignoreSingleSpaces,
        transitionRate := transitionSpeed, cycleRate := refreshRate,
        enableContinousCycle := newEnableContinousCycle,
        pauseSliderTransition := false }
  obtain ⟨k2, a2, b2, c2, d2, e2, h2⟩ := display4Characters_eq
    ({ ({ s with
        sliderSequenceLength :=
          sliderLengthAfter s.sliderSequence characterSequence sequenceLength
            newEnablePadding ignoreSingleSpaces,
        sliderSequence :=
          sliderBufferAfter s.sliderSequence characterSequence sequenceLength
            newEnablePadding ignoreSingleSpaces,
        transitionRate := transitionSpeed, cycleRate := refreshRate,
        enableContinousCycle := newEnableContinousCycle,
        pauseSliderTransition := false, transitionClock := k1 } : State).withTimers a b c d e
      with sliderTransitionIndex := 0 })
    [sliderBufferAfter s.sliderSequence characterSequence sequenceLength
       newEnablePadding ignoreSingleSpaces 0,
     sliderBufferAfter s.sliderSequence characterSequence sequenceLength
       newEnablePadding ignoreSingleSpaces 1,
     sliderBufferAfter s.sliderSequence characterSequence sequenceLength
       newEnablePadding ignoreSingleSpaces 2,
     sliderBufferAfter s.sliderSequence characterSequence sequenceLength
       newEnablePadding ignoreSingleSpaces 3] refreshClock refreshRate
  refine ⟨k1, k2, a2, b2, c2, d2, e2, ?_⟩
  unfold sevenSegmentDisplayTextSlider
  rw [if_neg (by simp [hclk])]
  by_cases hrest : (sequenceLength
      - (sliderCopied s.sliderSequence characterSequence sequenceLength newEnablePadding
          ignoreSingleSpaces).2.2).tmod 4 = 0 <;> cases newEnablePadding <;>
  · have hr := hrest
    simp only [sliderCopied, Bool.false_eq_true, if_false, if_true] at hr
    simp only [sliderBufferAfter, sliderLengthAfter, sliderCopied, Bool.false_eq_true,
      if_false, if_true, ne_eq] at h h2 ⊢
    simp only [hr, not_false_eq_true, not_true_eq_false, if_true, if_false] at h h2 ⊢
    exact (congrArg (fun t : State =>
        display4Characters ({ t with sliderTransitionIndex := 0 } : State)
          [t.sliderSequence 0, t.sliderSequence 1, t.sliderSequence 2,
           t.sliderSequence 3] refreshClock refreshRate) h).trans (h2.trans rfl)
theorem sliderCopyLoop_eq_foldl (characterSequence : List Nat) (sequenceLength padding : Int)
    (ignoreSingleSpaces : Bool) (start : (Int → Nat) × Int × Int) :
    sliderCopyLoop characterSequence sequenceLength padding ignoreSingleSpaces start =
      (List.range sequenceLength.toNat).foldl
        (sliderCopyStep characterSequence sequenceLength padding ignoreSingleSpaces) start :=
  rfl

theorem cget_natCast (text : List Nat) (n : Nat) : cget text (n : Int) = text.getD n 0 := by
  have hneg : ¬ ((n : Int) < 0) := by omega
  simp only [cget, if_neg hneg, Int.toNat_ofNat]

theorem cget_succ (text : List Nat) (n : Nat) :
    cget text ((n : Int) + 1) = text.getD (n + 1) 0 := by
  have e : (n : Int) + 1 = ((n + 1 : Nat) : Int) := by push_cast; rfl
  rw [e, cget_natCast]

theorem cget_pred (text : List Nat) (n : Nat) :
    cget text ((n : Int) - 1) = if n = 0 then 0 else text.getD (n - 1) 0 := by
  by_cases h : n = 0
  · subst h
    simp [cget]
  · obtain ⟨m, rfl⟩ : ∃ m, n = m + 1 := ⟨n - 1, by omega⟩
    have e : ((m + 1 : Nat) : Int) - 1 = (m : Int) := by push_cast; omega
    rw [e, cget_natCast, if_neg h, Nat.add_sub_cancel]

theorem sliderCopyStep_ignore (text : List Nat) (padding : Int)
    (st : (Int → Nat) × Int × Int) (n : Nat) (hn : n < text.length) :
    sliderCopyStep text text.length padding true st n =
      if isolatedSpace text n then (st.1, st.2.1 - 1, st.2.2 + 1)
      else (setAt st.1 ((n : Int) + padding - st.2.2) (text.getD n 0), st.2.1, st.2.2) := by
  have hlast : ((n : Int) = (text.length : Int) - 1) ↔ text.length ≤ n + 1 := by omega
  have hzero : ((n : Int) = 0) ↔ n = 0 := by omega
  have hout : text.length ≤ n + 1 → text.getD (n + 1) 0 = 0 := fun h =>
    List.getD_eq_default _ _ h
  simp only [sliderCopyStep, if_true, cget_natCast, cget_succ, cget_pred, hlast, hzero,
    isolatedSpace]
  by_cases h0 : n = 0 <;> by_cases hc : text.getD n 0 = SPACE <;>
    by_cases hl : text.length ≤ n + 1 <;>
    by_cases hp : text.getD (n - 1) 0 = SPACE <;>
    by_cases hs : text.getD (n + 1) 0 = SPACE <;>
    simp_all [SPACE]
theorem keptIndices_succ (text : List Nat) (n : Nat) :
    keptIndices text (n + 1) =
      keptIndices text n ++ (if isolatedSpace text n then [] else [n]) := by
  unfold keptIndices
  rw [List.range_succ, List.filter_append]
  congr 1
  cases h : isolatedSpace text n <;> simp [List.filter, h]

theorem keptIndices_length_le (text : List Nat) (n : Nat) :
    (keptIndices text n).length ≤ n := by
  unfold keptIndices
  exact (List.length_filter_le _ _).trans (by simp)

theorem sliderCopy_ignore (text : List Nat) (p len0 : Int) (buf : Int → Nat) (n : Nat)
    (hn : n ≤ text.length) :
    ((List.range n).foldl (sliderCopyStep text text.length p true) (buf, len0, 0)).2.2
      = (n : Int) - (keptIndices text n).length ∧
    ((List.range n).foldl (sliderCopyStep text text.length p true) (buf, len0, 0)).2.1
      = len0 - ((n : Int) - (keptIndices text n).length) ∧
    ∀ j : Nat, j < (keptIndices text n).length →
      ((List.range n).foldl (sliderCopyStep text text.length p true) (buf, len0, 0)).1
          (p + (j : Int))
        = ((keptIndices text n).map (fun i => text.getD i 0)).getD j 0 := by
  induction n with
  | zero =>
    refine ⟨by simp [keptIndices], by simp [keptIndices], ?_⟩
    intro j hj
    simp [keptIndices] at hj
  | succ n ih =>
    obtain ⟨iadj, ilen, ibuf⟩ := ih (by omega)
    have hk := keptIndices_length_le text n
    rw [List.range_succ, List.foldl_append, List.foldl_cons, List.foldl_nil,
      sliderCopyStep_ignore text p _ n (by omega), keptIndices_succ]
    cases hiso : isolatedSpace text n
    · simp only [Bool.false_eq_true, if_false, List.length_append, List.length_singleton,
        List.map_append, List.map_cons, List.map_nil]
      refine ⟨by rw [iadj]; push_cast; omega, by rw [ilen]; push_cast; omega, ?_⟩
      intro j hj
      have hpos : (n : Int) + p
          - ((List.range n).foldl (sliderCopyStep text text.length p true) (buf, len0, 0)).2.2
          = p + ((keptIndices text n).length : Int) := by rw [iadj]; omega
      rw [hpos]
      by_cases hjk : j = (keptIndices text n).length
      · subst hjk
        simp [setAt, List.getD_eq_getElem?_getD]
      · have hlt : j < (keptIndices text n).length := by omega
        have hne : ¬ (p + (j : Int) = p + ((keptIndices text n).length : Int)) := by omega
        simp only [setAt, if_neg hne]
        rw [ibuf j hlt, List.getD_eq_getElem?_getD, List.getD_eq_getElem?_getD,
          List.getElem?_append_left (by simpa using hlt)]
    · simp only [if_true, List.append_nil]
      refine ⟨by rw [iadj]; push_cast; omega, by rw [ilen]; push_cast; omega, ibuf⟩

theorem sliderCopy_plain (text : List Nat) (L p len0 : Int) (buf : Int → Nat) (n : Nat) :
    (List.range n).foldl (sliderCopyStep text L p false) (buf, len0, 0) =
      ((List.range n).foldl
        (fun (q : Int → Nat) (i : Nat) => setAt q ((i : Int) + p) (cget text i)) buf,
       len0, 0) := by
  induction n with
  | zero => rfl
  | succ n ih =>
    rw [List.range_succ, List.foldl_append, List.foldl_append, ih]
    rfl

theorem sliderFill_apply (buf : Int → Nat) (base rest : Int) (m : Nat) (j : Int) :
    (List.range m).foldl
      (fun (q : Int → Nat) (i : Nat) => if rest ≠ 0 then setAt q (base + (i : Int)) SPACE else q)
      buf j =
      if rest ≠ 0 ∧ base ≤ j ∧ j < base + m then SPACE else buf j := by
  induction m with
  | zero =>
    have : ¬ (rest ≠ 0 ∧ base ≤ j ∧ j < base + ((0 : Nat) : Int)) := by omega
    rw [if_neg this]
    rfl
  | succ m ih =>
    rw [List.range_succ, List.foldl_append, List.foldl_cons, List.foldl_nil]
    by_cases hr : rest ≠ 0
    · rw [if_pos hr]
      by_cases hj : j = base + (m : Int)
      · have : rest ≠ 0 ∧ base ≤ j ∧ j < base + ((m + 1 : Nat) : Int) :=
          ⟨hr, by omega, by push_cast; omega⟩
        rw [if_pos this]
        simp [setAt, hj]
      · simp only [setAt, if_neg hj]
        rw [ih]
        by_cases hin : rest ≠ 0 ∧ base ≤ j ∧ j < base + (m : Int)
        · have : rest ≠ 0 ∧ base ≤ j ∧ j < base + ((m + 1 : Nat) : Int) :=
            ⟨hr, hin.2.1, by push_cast; omega⟩
          rw [if_pos hin, if_pos this]
        · have : ¬ (rest ≠ 0 ∧ base ≤ j ∧ j < base + ((m + 1 : Nat) : Int)) := by
            push_cast
            intro h
            exact hin ⟨hr, h.2.1, by omega⟩
          rw [if_neg hin, if_neg this]
    · rw [if_neg hr, ih]
      have h1 : ¬ (rest ≠ 0 ∧ base ≤ j ∧ j < base + (m : Int)) := fun h => hr h.1
      have h2 : ¬ (rest ≠ 0 ∧ base ≤ j ∧ j < base + ((m + 1 : Nat) : Int)) := fun h => hr h.1
      rw [if_neg h1, if_neg h2]
theorem droppedSpaces_add_kept (text : List Nat) (n : Nat) :
    ((List.range n).filter (fun i => isolatedSpace text i)).length
      + (keptIndices text n).length = n := by
  induction n with
  | zero => rfl
  | succ n ih =>
    rw [keptIndices_succ, List.range_succ, List.filter_append, List.length_append,
      List.length_append]
    cases h : isolatedSpace text n <;> simp [List.filter, h] <;> omega

theorem collapse_length_add_dropped (text : List Nat) :
    (collapseSingleSpaces text).length + droppedSpaces text = text.length := by
  have := droppedSpaces_add_kept text text.length
  simp only [collapseSingleSpaces, droppedSpaces, List.length_map]
  omega

theorem sliderKept_length_le (text : List Nat) (ignoreSingleSpaces : Bool) :
    (sliderKept text ignoreSingleSpaces).length ≤ text.length := by
  cases ignoreSingleSpaces
  · simp [sliderKept]
  · have := collapse_length_add_dropped text
    simp only [sliderKept, if_true]
    omega

theorem sliderCopied_facts (buf : Int → Nat) (text : List Nat)
    (padded ignoreSingleSpaces : Bool) :
    (sliderCopied buf text text.length padded ignoreSingleSpaces).2.2
      = (text.length : Int) - (sliderKept text ignoreSingleSpaces).length ∧
    (sliderCopied buf text text.length padded ignoreSingleSpaces).2.1
      = (if padded then 4 else 0) + ((sliderKept text ignoreSingleSpaces).length : Int) ∧
    ∀ j : Nat, j < (sliderKept text ignoreSingleSpaces).length →
      (sliderCopied buf text text.length padded ignoreSingleSpaces).1
          ((if padded then 4 else 0) + (j : Int))
        = (sliderKept text ignoreSingleSpaces).getD j 0 := by
  unfold sliderCopied
  rw [sliderCopyLoop_eq_foldl, Int.toNat_ofNat]
  cases ignoreSingleSpaces
  · rw [sliderCopy_plain]
    simp only [sliderKept, Bool.false_eq_true, if_false]
    refine ⟨by omega, by cases padded <;> simp [Int.add_comm], ?_⟩
    intro j hj
    rw [copyLoop_apply, if_pos (by omega)]
    have e : (if padded = true then (4 : Int) else 0) + (j : Int)
        - (if padded = true then (4 : Int) else 0) = (j : Int) := by omega
    rw [e, cget_natCast]
  · obtain ⟨hadj, hlen, hbuf⟩ := sliderCopy_ignore text (if padded then 4 else 0)
      (if padded then (text.length : Int) + 4 else text.length)
      (if padded then writeBlanks buf 0 else buf) text.length (le_refl _)
    simp only [sliderKept, if_true, collapseSingleSpaces, List.length_map]
    refine ⟨hadj, ?_, fun j hj => hbuf j hj⟩
    rw [hlen]
    cases padded <;> simp
theorem sliderAfter_facts (buf : Int → Nat) (text : List Nat)
    (padded ignoreSingleSpaces : Bool) :
    sliderLengthAfter buf text text.length padded ignoreSingleSpaces
      = (if padded then 4 else 0)
        + 4 * ((((sliderKept text ignoreSingleSpaces).length + 3) / 4 : Nat) : Int) ∧
    (∀ j : Int,
      (if padded then 4 else 0) + ((sliderKept text ignoreSingleSpaces).length : Int) ≤ j →
      j < sliderLengthAfter buf text text.length padded ignoreSingleSpaces →
      sliderBufferAfter buf text text.length padded ignoreSingleSpaces j = SPACE) ∧
    (∀ j : Nat, j < (sliderKept text ignoreSingleSpaces).length →
      sliderBufferAfter buf text text.length padded ignoreSingleSpaces
          ((if padded then 4 else 0) + (j : Int))
        = (sliderKept text ignoreSingleSpaces).getD j 0) := by
  obtain ⟨hadj, hlen, hbuf⟩ := sliderCopied_facts buf text padded ignoreSingleSpaces
  have hle := sliderKept_length_le text ignoreSingleSpaces
  have hrest : ((text.length : Int)
      - (sliderCopied buf text text.length padded ignoreSingleSpaces).2.2).tmod 4
      = (((sliderKept text ignoreSingleSpaces).length % 4 : Nat) : Int) := by
    rw [hadj]
    have e : (text.length : Int)
        - ((text.length : Int) - ((sliderKept text ignoreSingleSpaces).length : Int))
        = ((sliderKept text ignoreSingleSpaces).length : Int) := by omega
    rw [e, Int.tmod_eq_emod (by omega) (by omega)]
    push_cast
    rfl
  have hbase : (text.length : Int) + (if padded then 4 else 0)
      - (sliderCopied buf text text.length padded ignoreSingleSpaces).2.2
      = (if padded then 4 else 0) + ((sliderKept text ignoreSingleSpaces).length : Int) := by
    rw [hadj]; omega
  have hL : sliderLengthAfter buf text text.length padded ignoreSingleSpaces
      = (if padded then 4 else 0)
        + 4 * ((((sliderKept text ignoreSingleSpaces).length + 3) / 4 : Nat) : Int) := by
    unfold sliderLengthAfter
    rw [hrest, hlen]
    split_ifs <;> omega
  refine ⟨hL, ?_, ?_⟩
  · intro j h1 h2
    rw [hL] at h2
    unfold sliderBufferAfter sliderFillLoop
    rw [sliderFill_apply, hrest, hbase]
    rw [if_pos]
    refine ⟨by omega, h1, ?_⟩
    omega
  · intro j hj
    unfold sliderBufferAfter sliderFillLoop
    rw [sliderFill_apply, hbase, if_neg (by omega)]
    exact hbuf j hj

theorem sevenSegmentDisplayTextSlider_fields (s : State) (characterSequence : List Nat)
    (sequenceLength : Int) (newTransitionClock : List Nat) (transitionSpeed : Int)
    (newEnableContinousCycle newEnablePadding ignoreSingleSpaces : Bool)
    (refreshClock : List Nat) (refreshRate : Int)
    (hclk : strcmpEq newTransitionClock refreshClock = false) :
    (sevenSegmentDisplayTextSlider s characterSequence sequenceLength newTransitionClock
        transitionSpeed newEnableContinousCycle newEnablePadding ignoreSingleSpaces
        refreshClock refreshRate).sliderSequenceLength =
      sliderLengthAfter s.sliderSequence characterSequence sequenceLength newEnablePadding
        ignoreSingleSpaces ∧
    (sevenSegmentDisplayTextSlider s characterSequence sequenceLength newTransitionClock
        transitionSpeed newEnableContinousCycle newEnablePadding ignoreSingleSpaces
        refreshClock refreshRate).sliderSequence =
      sliderBufferAfter s.sliderSequence characterSequence sequenceLength newEnablePadding
        ignoreSingleSpaces ∧
    (sevenSegmentDisplayTextSlider s characterSequence sequenceLength newTransitionClock
        transitionSpeed newEnableContinousCycle newEnablePadding ignoreSingleSpaces
        refreshClock refreshRate).sliderTransitionIndex = 0 ∧
    (sevenSegmentDisplayTextSlider s characterSequence sequenceLength newTransitionClock
        transitionSpeed newEnableContinousCycle newEnablePadding ignoreSingleSpaces
        refreshClock refreshRate).pauseSliderTransition = false ∧
    (sevenSegmentDisplayTextSlider s characterSequence sequenceLength newTransitionClock
        transitionSpeed newEnableContinousCycle newEnablePadding ignoreSingleSpaces
        refreshClock refreshRate).enableContinousCycle = newEnableContinousCycle := by
  obtain ⟨k1, k2, a, b, c, d, e, h⟩ := sevenSegmentDisplayTextSlider_eq s characterSequence
    sequenceLength newTransitionClock transitionSpeed newEnableContinousCycle newEnablePadding
    ignoreSingleSpaces refreshClock refreshRate hclk
  rw [h]
  exact ⟨rfl, rfl, rfl, rfl, rfl⟩

/-! ## The slider transition interrupt -/

theorem sliderTick_eq (s : State) :
    sevenSegmentSliderInterrupt s =
      { s with
        chrSequence :=
          setAt (setAt (setAt (setAt s.chrSequence 3
            (s.sliderSequence (0 + s.sliderTransitionIndex))) 2
            (s.sliderSequence (1 + s.sliderTransitionIndex))) 1
            (s.sliderSequence (2 + s.sliderTransitionIndex))) 0
            (s.sliderSequence (3 + s.sliderTransitionIndex)),
        sliderTransitionIndex :=
          if sliderAdvanced s > s.sliderSequenceLength - 4 ∧ s.enableContinousCycle = true
          then 0
          else if sliderAdvanced s > s.sliderSequenceLength - 4 then sliderAdvanced s - 4
          else sliderAdvanced s,
        pauseSliderTransition :=
          if sliderAdvanced s > s.sliderSequenceLength - 4 ∧ s.enableContinousCycle = true
          then s.pauseSliderTransition
          else if sliderAdvanced s > s.sliderSequenceLength - 4 then true
          else s.pauseSliderTransition,
        wktCount := if s.transitionClock = 1 then s.transitionRate else s.wktCount } := by
  unfold sevenSegmentSliderInterrupt sliderAdvanced
  cases s
  simp only [List.foldl]
  split_ifs <;> simp_all

theorem sliderTick_window (s : State) :
    window (sevenSegmentSliderInterrupt s) = sliderPage s s.sliderTransitionIndex := by
  rw [sliderTick_eq]
  simp only [window, sliderPage]
  rw [window_setAt4, Int.add_comm 0, Int.add_comm 1, Int.add_comm 2, Int.add_comm 3]

theorem sliderTicks_succ (t : Nat) (s : State) :
    sliderTicks (t + 1) s = sevenSegmentSliderInterrupt (sliderTicks t s) := by
  simp only [sliderTicks, Function.iterate_succ_apply']
theorem sliderTick_fields (s : State) :
    (sevenSegmentSliderInterrupt s).sliderSequenceLength = s.sliderSequenceLength ∧
    (sevenSegmentSliderInterrupt s).sliderSequence = s.sliderSequence ∧
    (sevenSegmentSliderInterrupt s).enableContinousCycle = s.enableContinousCycle ∧
    (sevenSegmentSliderInterrupt s).sliderTransitionIndex =
      (if sliderAdvanced s > s.sliderSequenceLength - 4 ∧ s.enableContinousCycle = true
        then 0
        else if sliderAdvanced s > s.sliderSequenceLength - 4 then sliderAdvanced s - 4
        else sliderAdvanced s) ∧
    (sevenSegmentSliderInterrupt s).pauseSliderTransition =
      (if sliderAdvanced s > s.sliderSequenceLength - 4 ∧ s.enableContinousCycle = true
        then s.pauseSliderTransition
        else if sliderAdvanced s > s.sliderSequenceLength - 4 then true
        else s.pauseSliderTransition) := by
  rw [sliderTick_eq]
  exact ⟨rfl, rfl, rfl, rfl, rfl⟩

theorem sliderTicks_continuous (c : State) (P : Nat) (hP : 1 ≤ P)
    (hlen : c.sliderSequenceLength = 4 * (P : Int)) (hidx : c.sliderTransitionIndex = 0)
    (hp : c.pauseSliderTransition = false) (hc : c.enableContinousCycle = true) (t : Nat) :
    ContinuousSliderAt c P t (sliderTicks t c) := by
  induction t with
  | zero =>
    refine ⟨hp, hc, rfl, rfl, ?_⟩
    show c.sliderTransitionIndex = 4 * ((0 % P : Nat) : Int)
    rw [hidx]
    simp
  | succ t ih =>
    obtain ⟨ip, ic, ilen, iseq, iidx⟩ := ih
    obtain ⟨flen, fseq, fc, fidx, fp⟩ := sliderTick_fields (sliderTicks t c)
    have hadv : sliderAdvanced (sliderTicks t c) = 4 * ((t % P : Nat) : Int) + 4 := by
      unfold sliderAdvanced
      rw [if_pos ip, iidx]
    have hr0 : 0 ≤ (t : Int) % (P : Int) := Int.emod_nonneg _ (by omega)
    have hr1 : (t : Int) % (P : Int) < (P : Int) := Int.emod_lt_of_pos _ (by omega)
    have hsucc := succ_emod (t : Int) (P : Int) (by omega)
    rw [sliderTicks_succ]
    refine ⟨?_, fc.trans ic, flen.trans ilen, fseq.trans iseq, ?_⟩
    · rw [fp, ic, ip]
      split_ifs with h1 h2
      · rfl
      · exact absurd ⟨h2, rfl⟩ h1
      · rfl
    · rw [fidx, hadv, ilen, hlen, ic]
      push_cast
      rw [hsucc]
      simp only [eq_self_iff_true, and_true]
      split_ifs <;> omega

theorem oneShotSliderTicks_running (c : State) (P : Nat)
    (hlen : c.sliderSequenceLength = 4 * (P : Int)) (hidx : c.sliderTransitionIndex = 0)
    (hp : c.pauseSliderTransition = false) (hc : c.enableContinousCycle = false) (t : Nat)
    (ht : t < P) :
    OneShotSliderAt c t (sliderTicks t c) := by
  induction t with
  | zero =>
    refine ⟨hp, hc, rfl, rfl, ?_⟩
    show c.sliderTransitionIndex = 4 * ((0 : Nat) : Int)
    rw [hidx]
    simp
  | succ t ih =>
    obtain ⟨ip, ic, ilen, iseq, iidx⟩ := ih (by omega)
    obtain ⟨flen, fseq, fc, fidx, fp⟩ := sliderTick_fields (sliderTicks t c)
    have hadv : sliderAdvanced (sliderTicks t c) = 4 * (t : Int) + 4 := by
      unfold sliderAdvanced
      rw [if_pos ip, iidx]
    have hno : ¬ (sliderAdvanced (sliderTicks t c)
        > (sliderTicks t c).sliderSequenceLength - 4) := by
      rw [hadv, ilen, hlen]; omega
    rw [sliderTicks_succ]
    refine ⟨?_, fc.trans ic, flen.trans ilen, fseq.trans iseq, ?_⟩
    · rw [fp, if_neg (fun h => hno h.1), if_neg hno, ip]
    · rw [fidx, if_neg (fun h => hno h.1), if_neg hno, hadv]
      push_cast
      omega

theorem oneShotSliderTicks_done (c : State) (P : Nat) (hP : 1 ≤ P)
    (hlen : c.sliderSequenceLength = 4 * (P : Int)) (hidx : c.sliderTransitionIndex = 0)
    (hp : c.pauseSliderTransition = false) (hc : c.enableContinousCycle = false) (k : Nat) :
    OneShotSliderDone c (sliderTicks (P + k) c) := by
  induction k with
  | zero =>
    obtain ⟨m, rfl⟩ : ∃ m, P = m + 1 := ⟨P - 1, by omega⟩
    obtain ⟨ip, ic, ilen, iseq, iidx⟩ :=
      oneShotSliderTicks_running c (m + 1) hlen hidx hp hc m (by omega)
    obtain ⟨flen, fseq, fc, fidx, fp⟩ := sliderTick_fields (sliderTicks m c)
    have hadv : sliderAdvanced (sliderTicks m c) = 4 * (m : Int) + 4 := by
      unfold sliderAdvanced
      rw [if_pos ip, iidx]
    have hyes : sliderAdvanced (sliderTicks m c)
        > (sliderTicks m c).sliderSequenceLength - 4 := by
      rw [hadv, ilen, hlen]; push_cast; omega
    have hnc : ¬ (sliderAdvanced (sliderTicks m c)
        > (sliderTicks m c).sliderSequenceLength - 4
        ∧ (sliderTicks m c).enableContinousCycle = true) := by
      rw [ic]; simp
    rw [Nat.add_zero, sliderTicks_succ]
    refine ⟨?_, fc.trans ic, flen.trans ilen, fseq.trans iseq, ?_, ?_⟩
    · rw [fp, if_neg hnc, if_pos hyes]
    · rw [fidx, if_neg hnc, if_pos hyes, hadv, hlen]
      push_cast
      omega
    · rw [sliderTick_window, iidx, hlen]
      simp only [sliderPage, iseq]
      have e : 4 * ((m + 1 : Nat) : Int) - 4 = 4 * (m : Int) := by push_cast; omega
      rw [e]
  | succ k ih =>
    obtain ⟨ip, ic, ilen, iseq, iidx, iwin⟩ := ih
    obtain ⟨flen, fseq, fc, fidx, fp⟩ := sliderTick_fields (sliderTicks (P + k) c)
    have hadv : sliderAdvanced (sliderTicks (P + k) c) = c.sliderSequenceLength - 4 := by
      unfold sliderAdvanced
      rw [if_neg (by simp [ip]), iidx]
    have hno : ¬ (sliderAdvanced (sliderTicks (P + k) c)
        > (sliderTicks (P + k) c).sliderSequenceLength - 4) := by
      rw [hadv, ilen]; omega
    have hs : P + (k + 1) = (P + k) + 1 := by omega
    rw [hs, sliderTicks_succ]
    refine ⟨?_, fc.trans ic, flen.trans ilen, fseq.trans iseq, ?_, ?_⟩
    · rw [fp, if_neg (fun h => hno h.1), if_neg hno, ip]
    · rw [fidx, if_neg (fun h => hno h.1), if_neg hno, hadv]
    · rw [sliderTick_window, iidx]
      simp only [sliderPage, iseq]
/-- C16: for a continuous slider with P >= 1 pages (effective length 4*P) that
starts on page 0 and is never paused, the visible window after the t-th
transition tick (t >= 1) is page (t-1) mod P of the working buffer,
buffer[4*((t-1) mod P) .. +3], and the page index after that tick is
4*(t mod P): it is back at 0 after the tick that showed the last page. -/
theorem C16_continuous_slider_shows_pages_in_turn (s : State) (P t : Nat)
    (hP : 1 ≤ P) (hlen : s.sliderSequenceLength = 4 * (P : Int))
    (hidx : s.sliderTransitionIndex = 0) (hp : s.pauseSliderTransition = false)
    (hc : s.enableContinousCycle = true) (ht : 1 ≤ t) :
    window (sliderTicks t s) =
      [s.sliderSequence (4 * (((t - 1) % P : Nat) : Int) + 0),
       s.sliderSequence (4 * (((t - 1) % P : Nat) : Int) + 1),
       s.sliderSequence (4 * (((t - 1) % P : Nat) : Int) + 2),
       s.sliderSequence (4 * (((t - 1) % P : Nat) : Int) + 3)] ∧
    (sliderTicks t s).sliderTransitionIndex = 4 * ((t % P : Nat) : Int) ∧
    (sliderTicks P s).sliderTransitionIndex = 0 := by
  obtain ⟨m, rfl⟩ : ∃ m, t = m + 1 := ⟨t - 1, by omega⟩
  obtain ⟨-, -, -, iseq, iidx⟩ := sliderTicks_continuous s P hP hlen hidx hp hc m
  obtain ⟨-, -, -, -, jidx⟩ := sliderTicks_continuous s P hP hlen hidx hp hc (m + 1)
  obtain ⟨-, -, -, -, kidx⟩ := sliderTicks_continuous s P hP hlen hidx hp hc P
  refine ⟨?_, jidx, ?_⟩
  · rw [sliderTicks_succ, sliderTick_window, iidx, Nat.add_sub_cancel]
    simp only [sliderPage, iseq]
  · rw [kidx, Nat.mod_self]
    rfl

/-- Witness for C16: the slider of the example program (five pages) at tick 7. -/
theorem C16_continuous_slider_shows_pages_in_turn_witness :
    window (sliderTicks 7 sliderEECS) =
      [sliderEECS.sliderSequence (4 * (((7 - 1) % 5 : Nat) : Int) + 0),
       sliderEECS.sliderSequence (4 * (((7 - 1) % 5 : Nat) : Int) + 1),
       sliderEECS.sliderSequence (4 * (((7 - 1) % 5 : Nat) : Int) + 2),
       sliderEECS.sliderSequence (4 * (((7 - 1) % 5 : Nat) : Int) + 3)] ∧
    (sliderTicks 7 sliderEECS).sliderTransitionIndex = 4 * ((7 % 5 : Nat) : Int) ∧
    (sliderTicks 5 sliderEECS).sliderTransitionIndex = 0 :=
  C16_continuous_slider_shows_pages_in_turn sliderEECS 5 7 (by decide) (by decide)
    (by decide) (by decide) (by decide) (by decide)

/-- C18 (failing input): a continuous slider over "12345678" has shown its
first page "1234" and is then paused. The next transition tick replaces the
window by the second page "5678"; only from then on do further ticks leave the
window unchanged. -/
theorem C18_paused_slider_swaps_one_more_page :
    slider12345678Running.pauseSliderTransition = false ∧
    window slider12345678Running = [49, 50, 51, 52] ∧
    window (sevenSegmentSliderInterrupt
        (pauseSevenSegmentDisplaySlider slider12345678Running)) = [53, 54, 55, 56] ∧
    window (sevenSegmentSliderInterrupt
        (pauseSevenSegmentDisplaySlider slider12345678Running))
      ≠ window slider12345678Running ∧
    window (sliderTicks 4 (pauseSevenSegmentDisplaySlider slider12345678Running))
      = [53, 54, 55, 56] := by
  decide

/-! ## The glyph lookup -/

theorem toupper_toupper (c : Nat) : toupper (toupper c) = toupper c := by
  unfold toupper
  split_ifs <;> omega

theorem foldl_withChr {α : Type} (step : State → α → State) (f : Int → Nat)
    (h : ∀ (st : State) (a : α), step (st.withChr f) a = (step st a).withChr f)
    (l : List α) (s : State) :
    l.foldl step (s.withChr f) = (l.foldl step s).withChr f := by
  induction l generalizing s with
  | nil => rfl
  | cons a l ih => simp only [List.foldl]; rw [h, ih]

theorem displayDP_withChr (s : State) (f : Int → Nat) :
    displayDP (s.withChr f) = (displayDP s).withChr f := by
  unfold displayDP
  cases s
  simp only [State.withChr, gpioSet, gpioClr]
  split_ifs <;> rfl

theorem displayValue_withChr (s : State) (f : Int → Nat) (m : Int) :
    displayValue (s.withChr f) m = (displayValue s m).withChr f := by
  unfold displayValue
  simp only []
  rw [foldl_withChr, displayDP_withChr]
  intro st a
  cases st
  simp only [State.withChr, gpioSet, gpioClr]
  split_ifs <;> rfl

theorem glyphLoop_withChr (s : State) (f : Int → Nat) (u : Nat) :
    glyphLoop (s.withChr f) u = (glyphLoop s u).withChr f := by
  unfold glyphLoop
  rw [foldl_withChr]
  intro st a
  split_ifs
  · exact displayValue_withChr st f _
  · rfl

theorem enableDigits_withChr (s : State) (f : Int → Nat) :
    enableDigits (s.withChr f) = (enableDigits s).withChr f := by
  unfold enableDigits
  rw [foldl_withChr]
  intro st a
  cases st
  simp only [State.withChr, gpioSet, gpioClr]
  split_ifs <;> rfl

theorem clearDigits_withChr (s : State) (f : Int → Nat) :
    clearDigits (s.withChr f) = (clearDigits s).withChr f := by
  unfold clearDigits
  rw [foldl_withChr]
  intro st a
  cases st
  simp only [State.withChr, gpioSet, gpioClr]
  split_ifs <;> rfl

theorem enableDigit_withChr (s : State) (f : Int → Nat) (d : Int) :
    enableDigit (s.withChr f) d = (enableDigit s d).withChr f := by
  unfold enableDigit
  cases s
  simp only [State.withChr, gpioSet, gpioClr]
  split_ifs <;> rfl

theorem foldl_frame {α β : Type} (step : State → α → State) (proj : State → β)
    (h : ∀ (st : State) (a : α), proj (step st a) = proj st)
    (l : List α) (s : State) : proj (l.foldl step s) = proj s := by
  induction l generalizing s with
  | nil => rfl
  | cons a l ih => simp only [List.foldl]; rw [ih, h]

theorem clearDigits_chr (s : State) :
    (clearDigits s).chrSequence = s.chrSequence ∧
    (clearDigits s).currentDigit = s.currentDigit := by
  unfold clearDigits
  constructor
  · refine foldl_frame _ (fun (st : State) => st.chrSequence) ?_ _ s
    intro st a
    simp only [gpioSet, gpioClr]
    split_ifs <;> rfl
  · refine foldl_frame _ (fun (st : State) => st.currentDigit) ?_ _ s
    intro st a
    simp only [gpioSet, gpioClr]
    split_ifs <;> rfl

theorem withChr_fields (s : State) (f : Int → Nat) :
    (s.withChr f).chrSequence = f ∧ (s.withChr f).currentDigit = s.currentDigit ∧
    (s.withChr f).gpioLevel = s.gpioLevel ∧ (s.withChr f).withChr s.chrSequence = s :=
  ⟨rfl, rfl, rfl, rfl⟩

theorem withChr_withChr (s : State) (f g : Int → Nat) :
    (s.withChr f).withChr g = s.withChr g := rfl

theorem displaySingleCharacter_eq (s : State) (c : Nat) :
    displaySingleCharacter s c =
      (enableDigits (glyphLoop (clearDigits s) (toChar (toupper c)))).withChr
        (setAt (setAt (setAt (setAt (clearDigits s).chrSequence 3 c) 2 c) 1 c) 0 c) := by
  simp only [displaySingleCharacter, List.foldl]
  rw [← enableDigits_withChr, ← glyphLoop_withChr]
  norm_num [State.withChr]

theorem display4CharactersInterrupt_withChr (s : State) (f g : Int → Nat)
    (h : toChar (toupper (f s.currentDigit)) = toChar (toupper (g s.currentDigit))) :
    display4CharactersInterrupt (s.withChr g) =
      (display4CharactersInterrupt (s.withChr f)).withChr g := by
  simp only [display4CharactersInterrupt]
  rw [clearDigits_withChr s g, clearDigits_withChr s f]
  simp only [(withChr_fields _ _).1, (withChr_fields _ _).2.1, (clearDigits_chr s).2, ← h]
  rw [glyphLoop_withChr _ g, glyphLoop_withChr _ f, enableDigit_withChr _ g,
    enableDigit_withChr _ f]
  generalize glyphLoop (clearDigits s) (toChar (toupper (f s.currentDigit))) = a
  simp only [(withChr_fields _ _).2.1]
  generalize enableDigit a a.currentDigit = b
  cases b
  simp only [State.withChr]
  split_ifs <;> rfl

theorem glyphFold_of_no_match (u : Nat) (l : List Nat) (s : State)
    (h : ∀ i ∈ l, u ≠ inputCharacterOptions.getD i 0) :
    l.foldl
      (fun (st : State) (i : Nat) =>
        if u = inputCharacterOptions.getD i 0 then
          displayValue st (displayOptions.getD i 0)
        else st) s = s := by
  induction l generalizing s with
  | nil => rfl
  | cons a l ih =>
    simp only [List.foldl]
    rw [if_neg (h a (List.mem_cons_self a l))]
    exact ih s (fun i hi => h i (List.mem_cons_of_mem a hi))

theorem glyphFold_of_one_match (u : Nat) (k : Nat) (l : List Nat) (s : State)
    (hk : k ∈ l) (hu : u = inputCharacterOptions.getD k 0) (hl : l.Nodup)
    (h : ∀ i ∈ l, i ≠ k → u ≠ inputCharacterOptions.getD i 0) :
    l.foldl
      (fun (st : State) (i : Nat) =>
        if u = inputCharacterOptions.getD i 0 then
          displayValue st (displayOptions.getD i 0)
        else st) s = displayValue s (displayOptions.getD k 0) := by
  induction l generalizing s with
  | nil => cases hk
  | cons a l ih =>
    simp only [List.foldl]
    rcases List.mem_cons.mp hk with hka | hkl
    · subst hka
      rw [if_pos hu]
      apply glyphFold_of_no_match
      intro i hi
      apply h i (List.mem_cons_of_mem k hi)
      intro hik
      subst hik
      exact (List.nodup_cons.mp hl).1 hi
    · have hak : a ≠ k := by
        intro hak
        subst hak
        exact (List.nodup_cons.mp hl).1 hkl
      rw [if_neg (h a (List.mem_cons_self a l) hak)]
      exact ih s hkl (List.nodup_cons.mp hl).2
        (fun i hi => h i (List.mem_cons_of_mem a hi))

theorem inputCharacterOptions_injective :
    ∀ i : Fin 40, ∀ j : Fin 40,
      inputCharacterOptions.getD i.val 0 = inputCharacterOptions.getD j.val 0 → i = j := by
  decide

theorem glyphLoop_of_not_mem (s : State) (u : Nat) (h : u ∉ inputCharacterOptions) :
    glyphLoop s u = s := by
  unfold glyphLoop
  apply glyphFold_of_no_match
  intro i hi hu
  apply h
  have hlt : i < inputCharacterOptions.length := List.mem_range.mp hi
  rw [hu, List.getD_eq_getElem _ _ hlt]
  exact List.getElem_mem hlt

theorem glyphLoop_at (s : State) (k : Nat) (hk : k < 40) :
    glyphLoop s (inputCharacterOptions.getD k 0) =
      displayValue s (displayOptions.getD k 0) := by
  unfold glyphLoop
  apply glyphFold_of_one_match _ k
  · exact List.mem_range.mpr hk
  · rfl
  · exact List.nodup_range _
  · intro i hi hik hu
    have hlt : i < 40 := List.mem_range.mp hi
    have := inputCharacterOptions_injective ⟨k, hk⟩ ⟨i, hlt⟩ hu
    exact hik (Fin.mk.inj this).symm

theorem letters_in_table :
    ∀ k : Fin 26,
      toChar (toupper (97 + k.val)) = inputCharacterOptions.getD (10 + k.val) 0 ∧
      toChar (toupper (65 + k.val)) = inputCharacterOptions.getD (10 + k.val) 0 := by
  decide

theorem glyphLoop_cases (s : State) (u : Nat) :
    (∃ k, k < 40 ∧ u = inputCharacterOptions.getD k 0 ∧
      glyphLoop s u = displayValue s (displayOptions.getD k 0)) ∨
    (u ∉ inputCharacterOptions ∧ glyphLoop s u = s) := by
  by_cases h : u ∈ inputCharacterOptions
  · left
    obtain ⟨k, hk, hu⟩ := List.getElem_of_mem h
    have hk40 : k < 40 := hk
    refine ⟨k, hk40, ?_, ?_⟩
    · rw [List.getD_eq_getElem _ _ hk, hu]
    · have := glyphLoop_at s k hk40
      rw [List.getD_eq_getElem _ _ hk, hu] at this
      rw [this]
  · right
    exact ⟨h, glyphLoop_of_not_mem s u h⟩

/-- C19: the table loop of `displaySingleCharacter` and
`display4CharactersInterrupt` is a total function of the character and does not
tell a character from its upper-case form: looking up `toupper c` gives the
same result as looking up `c`, both functions drive the same pin levels for
`c` and for `toupper c`, and each of the 26 lower-case letters selects the mask
of its upper-case letter (entry `10 + k` of `displayOptions`). A character in
the table displays exactly the mask at its index; any other character leaves
the state as it was. -/
theorem C19_glyph_lookup_case_insensitive (s : State) (c : Nat) :
    glyphLoop s (toChar (toupper (toupper c))) = glyphLoop s (toChar (toupper c)) ∧
    (displaySingleCharacter s (toupper c)).gpioLevel =
      (displaySingleCharacter s c).gpioLevel ∧
    (display4CharactersInterrupt
        (s.withChr (setAt s.chrSequence s.currentDigit (toupper c)))).gpioLevel =
      (display4CharactersInterrupt
        (s.withChr (setAt s.chrSequence s.currentDigit c))).gpioLevel ∧
    (∀ k : Fin 26,
      glyphLoop s (toChar (toupper (97 + k.val))) =
        displayValue s (displayOptions.getD (10 + k.val) 0) ∧
      glyphLoop s (toChar (toupper (65 + k.val))) =
        displayValue s (displayOptions.getD (10 + k.val) 0)) ∧
    ((∃ k, k < 40 ∧ toChar (toupper c) = inputCharacterOptions.getD k 0 ∧
        glyphLoop s (toChar (toupper c)) = displayValue s (displayOptions.getD k 0)) ∨
      (toChar (toupper c) ∉ inputCharacterOptions ∧
        glyphLoop s (toChar (toupper c)) = s)) := by
  refine ⟨by rw [toupper_toupper], ?_, ?_, ?_, glyphLoop_cases s _⟩
  · rw [displaySingleCharacter_eq, displaySingleCharacter_eq, toupper_toupper]
    rfl
  · rw [display4CharactersInterrupt_withChr s
      (setAt s.chrSequence s.currentDigit c) (setAt s.chrSequence s.currentDigit (toupper c))]
    · rfl
    · simp only [setAt, if_true, toupper_toupper]
  · intro k
    have hk : (10 + k.val) < 40 := by omega
    rw [(letters_in_table k).1, (letters_in_table k).2]
    exact ⟨glyphLoop_at s _ hk, glyphLoop_at s _ hk⟩

/-! ## Characters outside the glyph table -/

theorem foldl_onlyGpio {α : Type} (step : State → α → State)
    (h : ∀ (st : State) (a : α), step st a = { st with gpioLevel := (step st a).gpioLevel })
    (l : List α) (s : State) :
    l.foldl step s = { s with gpioLevel := (l.foldl step s).gpioLevel } := by
  induction l generalizing s with
  | nil => rfl
  | cons a l ih =>
    simp only [List.foldl]
    have e1 := ih (step s a)
    have e2 := h s a
    generalize List.foldl step (step s a) l = r at e1 ⊢
    generalize step s a = t at e1 e2
    cases r
    cases t
    cases s
    simp_all

theorem clearDigits_onlyGpio (s : State) :
    clearDigits s = { s with gpioLevel := (clearDigits s).gpioLevel } := by
  unfold clearDigits
  apply foldl_onlyGpio
  intro st a
  simp only [gpioSet, gpioClr]
  split_ifs <;> rfl

theorem clearDigits_level (s : State) (pin : Int)
    (hpin : ∀ j ∈ [0, 1, 2, 3], s.digits j ≠ pin) :
    (clearDigits s).gpioLevel pin = s.gpioLevel pin := by
  unfold clearDigits
  generalize ([0, 1, 2, 3] : List Int) = l at hpin ⊢
  induction l generalizing s with
  | nil => rfl
  | cons a l ih =>
    simp only [List.foldl]
    have ha : s.digits a ≠ pin := hpin a (List.mem_cons_self a l)
    have hl : ∀ j ∈ l, s.digits j ≠ pin := fun j hj => hpin j (List.mem_cons_of_mem a hj)
    split_ifs
    · rw [ih (gpioSet s (s.digits a)) hl]
      simp [gpioSet, setAt, Ne.symm ha]
    · rw [ih (gpioClr s (s.digits a)) hl]
      simp [gpioClr, setAt, Ne.symm ha]
    · exact ih s hl

theorem refresh_of_unsupported (s : State)
    (hc : toChar (toupper (s.chrSequence s.currentDigit)) ∉ inputCharacterOptions) :
    glyphLoop (clearDigits s) (toChar (toupper (s.chrSequence s.currentDigit))) =
      clearDigits s ∧
    (display4CharactersInterrupt s).segments = s.segments ∧
    ∀ pin : Int, (∀ j ∈ [0, 1, 2, 3, s.currentDigit], s.digits j ≠ pin) →
      (display4CharactersInterrupt s).gpioLevel pin = s.gpioLevel pin := by
  have hg := glyphLoop_of_not_mem (clearDigits s) _ hc
  refine ⟨hg, ?_, ?_⟩
  · simp only [display4CharactersInterrupt]
    rw [(clearDigits_chr s).1, (clearDigits_chr s).2, hg, clearDigits_onlyGpio s]
    generalize (clearDigits s).gpioLevel = g
    cases s
    simp only [enableDigit, gpioSet, gpioClr]
    split_ifs <;> rfl
  · intro pin hpin
    have hl := clearDigits_level s pin
      (fun j hj => hpin j (by
        simp only [List.mem_cons, List.mem_singleton, List.not_mem_nil, or_false] at hj ⊢
        tauto))
    have hd : s.digits s.currentDigit ≠ pin := hpin _ (by simp)
    simp only [display4CharactersInterrupt]
    rw [(clearDigits_chr s).1, (clearDigits_chr s).2, hg, clearDigits_onlyGpio s]
    generalize (clearDigits s).gpioLevel = g at hl
    cases s
    simp only [enableDigit, gpioSet, gpioClr] at hd hl ⊢
    split_ifs <;> simp [setAt, Ne.symm hd, hl]

/-- C20 (the claim as worded fails): on the display wired as in the example
program and showing "12!8", the first refresh tick lights all seven segments
for the '8' of digit 0; the second tick meets '!', which is not in the table
after upper-casing, and leaves all seven segment outputs at their on level
(high) while digit 1 is selected (low), so digit 1 shows '8' instead of a
blank. With a blank in place of '!' the same tick drives all seven outputs
to their off level. -/
theorem C20_unsupported_character_is_not_blanked :
    toChar (toupper ((display4CharactersInterrupt (wiredDisplay text12bang8)).chrSequence
      (display4CharactersInterrupt (wiredDisplay text12bang8)).currentDigit)) = 33 ∧
    33 ∉ inputCharacterOptions ∧
    segmentLevels (display4CharactersInterrupt (wiredDisplay text12bang8)) =
      [true, true, true, true, true, true, true] ∧
    segmentLevels
        (display4CharactersInterrupt (display4CharactersInterrupt (wiredDisplay text12bang8))) =
      [true, true, true, true, true, true, true] ∧
    (display4CharactersInterrupt
        (display4CharactersInterrupt (wiredDisplay text12bang8))).gpioLevel 13 = false ∧
    segmentLevels
        (display4CharactersInterrupt (display4CharactersInterrupt (wiredDisplay text12blank8))) =
      [false, false, false, false, false, false, false] := by
  decide

/-- C20 (amended): a refresh tick whose display-buffer character is, after
upper-casing, not in `inputCharacterOptions` calls `displayValue` for no table
entry: the table loop leaves the state as `clearDigits` produced it, the seven
segment outputs keep the levels they had before the tick when no digit-select
pin is wired to a segment pin, and so does every pin that is not a
digit-select pin. -/
theorem C20_unsupported_character_keeps_previous_glyph (s : State)
    (hc : toChar (toupper (s.chrSequence s.currentDigit)) ∉ inputCharacterOptions)
    (hseg : ∀ i ∈ List.range 7, ∀ j ∈ [0, 1, 2, 3, s.currentDigit],
      s.digits j ≠ s.segments i) :
    glyphLoop (clearDigits s) (toChar (toupper (s.chrSequence s.currentDigit))) =
      clearDigits s ∧
    segmentLevels (display4CharactersInterrupt s) = segmentLevels s ∧
    ∀ pin : Int, (∀ j ∈ [0, 1, 2, 3, s.currentDigit], s.digits j ≠ pin) →
      (display4CharactersInterrupt s).gpioLevel pin = s.gpioLevel pin := by
  obtain ⟨h1, h2, h3⟩ := refresh_of_unsupported s hc
  refine ⟨h1, ?_, h3⟩
  unfold segmentLevels
  apply List.map_congr_left
  intro i hi
  rw [h2]
  exact h3 _ (hseg i hi)

theorem C20_unsupported_character_keeps_previous_glyph_witness :
    toChar (toupper ((display4CharactersInterrupt (wiredDisplay text12bang8)).chrSequence
      (display4CharactersInterrupt (wiredDisplay text12bang8)).currentDigit))
        ∉ inputCharacterOptions ∧
    segmentLevels
        (display4CharactersInterrupt (display4CharactersInterrupt (wiredDisplay text12bang8))) =
      segmentLevels (display4CharactersInterrupt (wiredDisplay text12bang8)) :=
  ⟨by decide,
    (C20_unsupported_character_keeps_previous_glyph
      (display4CharactersInterrupt (wiredDisplay text12bang8)) (by decide) (by decide)).2.1⟩

/-! ## The glyph table -/

theorem table_digits :
    ∀ k : Fin 10, (48 + k.val) = inputCharacterOptions.getD k.val 0 ∧
      standardDigitMasks.getD k.val 0 = displayOptions.getD k.val 0 := by
  decide

/-- C21: the table pairs '0'..'9' with the standard masks 0x3F, 0x06, 0x5B,
0x4F, 0x66, 0x6D, 0x7D, 0x07, 0x7F, 0x6F, the blank with 0, '-' with bit 6
(segment G) and '_' with bit 3 (segment D); the lookup of these characters
displays exactly these masks; all 40 masks are in 0..127; and `displayValue`
drives segment pin `i` from bit `i` of the mask, as seen on the wiring of the
example program for every mask of the table. -/
theorem C21_glyph_table_masks (s : State) :
    inputCharacterOptions.take 10 = [48, 49, 50, 51, 52, 53, 54, 55, 56, 57] ∧
    displayOptions.take 10 = standardDigitMasks ∧
    (∀ k : Fin 10,
      glyphLoop s (48 + k.val) = displayValue s (standardDigitMasks.getD k.val 0)) ∧
    glyphLoop s 32 = displayValue s 0 ∧
    glyphLoop s 45 = displayValue s (2 ^ 6) ∧
    glyphLoop s 95 = displayValue s (2 ^ 3) ∧
    inputCharacterOptions.length = 40 ∧ displayOptions.length = 40 ∧
    (∀ m ∈ displayOptions, 0 ≤ m ∧ m < 128) ∧
    (∀ k : Fin 40,
      segmentLevels (displayValue (wiredDisplay text1234) (displayOptions.getD k.val 0)) =
        (List.range 7).map
          (fun (i : Nat) => decide ((displayOptions.getD k.val 0 / 2 ^ i) % 2 = 1))) := by
  refine ⟨by decide, by decide, ?_, glyphLoop_at s 39 (by decide), glyphLoop_at s 36 (by decide),
    glyphLoop_at s 38 (by decide), by decide, by decide, by decide, by decide⟩
  intro k
  have hk : k.val < 40 := by omega
  rw [(table_digits k).1, (table_digits k).2]
  exact glyphLoop_at s k.val hk

/-! ## The refresh interrupt -/

theorem displayDP_onlyGpio (s : State) :
    displayDP s = { s with gpioLevel := (displayDP s).gpioLevel } := by
  unfold displayDP
  simp only [gpioSet, gpioClr]
  split_ifs <;> rfl

theorem displayValue_onlyGpio (s : State) (m : Int) :
    displayValue s m = { s with gpioLevel := (displayValue s m).gpioLevel } := by
  unfold displayValue
  simp only []
  have h := foldl_onlyGpio
    (fun (st : State) (i : Nat) =>
      if ((m / 2 ^ i) % 2 = 1 ∧ st.sevenSegType = 1) ∨ ((m / 2 ^ i) % 2 = 0 ∧ st.sevenSegType = 0)
      then gpioSet st (st.segments i) else gpioClr st (st.segments i))
    (by
      intro st a
      simp only [gpioSet, gpioClr]
      split_ifs <;> rfl)
    (List.range 7) s
  have h2 := displayDP_onlyGpio
    ((List.range 7).foldl
      (fun (st : State) (i : Nat) =>
        if ((m / 2 ^ i) % 2 = 1 ∧ st.sevenSegType = 1) ∨
            ((m / 2 ^ i) % 2 = 0 ∧ st.sevenSegType = 0)
        then gpioSet st (st.segments i) else gpioClr st (st.segments i)) s)
  generalize displayDP ((List.range 7).foldl
      (fun (st : State) (i : Nat) =>
        if ((m / 2 ^ i) % 2 = 1 ∧ st.sevenSegType = 1) ∨
            ((m / 2 ^ i) % 2 = 0 ∧ st.sevenSegType = 0)
        then gpioSet st (st.segments i) else gpioClr st (st.segments i)) s) = r at h2 ⊢
  generalize (List.range 7).foldl
      (fun (st : State) (i : Nat) =>
        if ((m / 2 ^ i) % 2 = 1 ∧ st.sevenSegType = 1) ∨
            ((m / 2 ^ i) % 2 = 0 ∧ st.sevenSegType = 0)
        then gpioSet st (st.segments i) else gpioClr st (st.segments i)) s = t at h h2
  cases r
  cases t
  cases s
  simp_all

theorem glyphLoop_onlyGpio (s : State) (u : Nat) :
    glyphLoop s u = { s with gpioLevel := (glyphLoop s u).gpioLevel } := by
  rcases glyphLoop_cases s u with ⟨k, _, _, h⟩ | ⟨_, h⟩
  · rw [h]
    exact displayValue_onlyGpio s _
  · rw [h]

theorem enableDigit_onlyGpio (s : State) (d : Int) :
    enableDigit s d = { s with gpioLevel := (enableDigit s d).gpioLevel } := by
  unfold enableDigit
  simp only [gpioSet, gpioClr]
  split_ifs <;> rfl

theorem refresh_eq (s : State) :
    display4CharactersInterrupt s =
      { s with
        gpioLevel :=
          (enableDigit
            (glyphLoop (clearDigits s) (toChar (toupper (s.chrSequence s.currentDigit))))
            s.currentDigit).gpioLevel,
        currentDigit := if s.currentDigit + 1 = 4 then 0 else s.currentDigit + 1,
        wktCount := if s.currentClock = 1 then s.cycleRate else s.wktCount } := by
  simp only [display4CharactersInterrupt]
  rw [(clearDigits_chr s).1, (clearDigits_chr s).2]
  have h1 := clearDigits_onlyGpio s
  generalize clearDigits s = a at h1 ⊢
  have h2 := glyphLoop_onlyGpio a (toChar (toupper (s.chrSequence s.currentDigit)))
  generalize glyphLoop a (toChar (toupper (s.chrSequence s.currentDigit))) = b at h2 ⊢
  have hb : b.currentDigit = s.currentDigit := by rw [h2, h1]
  rw [hb]
  have h3 := enableDigit_onlyGpio b s.currentDigit
  generalize enableDigit b s.currentDigit = c at h3 ⊢
  have hc : c = { s with gpioLevel := c.gpioLevel } := by
    rw [h3, h2, h1]
  generalize c.gpioLevel = g at hc
  subst hc
  cases s
  simp only []
  split_ifs <;> rfl

theorem refreshTicks_succ (n : Nat) (s : State) :
    refreshTicks (n + 1) s = display4CharactersInterrupt (refreshTicks n s) := by
  unfold refreshTicks
  exact Function.iterate_succ_apply' _ _ _

theorem refreshTicks_eq (n : Nat) (c : State) (h0 : c.currentDigit = 0) :
    refreshTicks n c =
      { c with gpioLevel := (refreshTicks n c).gpioLevel,
               currentDigit := ((n % 4 : Nat) : Int),
               wktCount := (refreshTicks n c).wktCount } := by
  induction n with
  | zero =>
    cases c
    simp only [] at h0
    subst h0
    rfl
  | succ n ih =>
    rw [refreshTicks_succ]
    generalize refreshTicks n c = p at ih ⊢
    rw [refresh_eq p]
    have hd : p.currentDigit = ((n % 4 : Nat) : Int) := by rw [ih]
    have hnext : (if p.currentDigit + 1 = 4 then 0 else p.currentDigit + 1) =
        (((n + 1) % 4 : Nat) : Int) := by
      rw [hd]
      split_ifs <;> omega
    rw [hnext]
    generalize (enableDigit
      (glyphLoop (clearDigits p) (toChar (toupper (p.chrSequence p.currentDigit))))
      p.currentDigit).gpioLevel = g
    generalize (if p.currentClock = 1 then p.cycleRate else p.wktCount) = w
    rw [ih]

/-- C22: `display4Characters` leaves the index of the lit position at 0. From
there the index after `n` refresh interrupts is `n mod 4`, so it stays in 0..3;
interrupt `n + 1` runs `enableDigit` on position `n mod 4` with the glyph of
that slot of the display buffer; and the state after `n` interrupts differs
from the configured one only in the GPIO levels, the index and the reloaded
WKT count: the display buffer and every counter, carousel and slider variable
are as configured. -/
theorem C22_refresh_cycles_through_positions (s : State) (inputSequence clockType : List Nat)
    (refreshRate : Int) (n : Nat) :
    (display4Characters s inputSequence clockType refreshRate).currentDigit = 0 ∧
    (refreshTicks n (display4Characters s inputSequence clockType refreshRate)).currentDigit
      = ((n % 4 : Nat) : Int) ∧
    (0 ≤ (refreshTicks n
        (display4Characters s inputSequence clockType refreshRate)).currentDigit ∧
      (refreshTicks n
        (display4Characters s inputSequence clockType refreshRate)).currentDigit ≤ 3) ∧
    (refreshTicks (n + 1) (display4Characters s inputSequence clockType refreshRate)).gpioLevel
      = (enableDigit
          (glyphLoop
            (clearDigits
              (refreshTicks n (display4Characters s inputSequence clockType refreshRate)))
            (toChar (toupper
              ((display4Characters s inputSequence clockType refreshRate).chrSequence
                ((n % 4 : Nat) : Int)))))
          ((n % 4 : Nat) : Int)).gpioLevel ∧
    refreshTicks n (display4Characters s inputSequence clockType refreshRate) =
      { display4Characters s inputSequence clockType refreshRate with
        gpioLevel :=
          (refreshTicks n
            (display4Characters s inputSequence clockType refreshRate)).gpioLevel,
        currentDigit := ((n % 4 : Nat) : Int),
        wktCount :=
          (refreshTicks n
            (display4Characters s inputSequence clockType refreshRate)).wktCount } := by
  have h0 : (display4Characters s inputSequence clockType refreshRate).currentDigit = 0 := rfl
  generalize display4Characters s inputSequence clockType refreshRate = c at h0 ⊢
  have he := refreshTicks_eq n c h0
  have hd : (refreshTicks n c).currentDigit = ((n % 4 : Nat) : Int) := by rw [he]
  have hchr : (refreshTicks n c).chrSequence = c.chrSequence := by rw [he]
  refine ⟨h0, hd, ?_, ?_, he⟩
  · rw [hd]
    omega
  · rw [refreshTicks_succ, refresh_eq]
    simp only []
    rw [hd, hchr]

/-! ## Digit-select levels after a refresh interrupt -/

theorem clearFold_keeps (l : List Int) (s : State) (pin : Int)
    (h : s.gpioLevel pin = !enablingLevel s) :
    (l.foldl
      (fun (st : State) (i : Int) =>
        if st.digits i ≠ -1 then
          if st.sevenSegType = 1 then gpioSet st (st.digits i) else gpioClr st (st.digits i)
        else st) s).gpioLevel pin = !enablingLevel s ∧
    (l.foldl
      (fun (st : State) (i : Int) =>
        if st.digits i ≠ -1 then
          if st.sevenSegType = 1 then gpioSet st (st.digits i) else gpioClr st (st.digits i)
        else st) s).digits = s.digits := by
  induction l generalizing s with
  | nil => exact ⟨h, rfl⟩
  | cons a l ih =>
    simp only [List.foldl]
    split_ifs with hb ht
    · have := ih (gpioSet s (s.digits a)) (by
        simp only [gpioSet, setAt, enablingLevel, ht, if_true] at h ⊢
        split_ifs
        · rfl
        · exact h)
      exact this
    · have := ih (gpioClr s (s.digits a)) (by
        simp only [gpioClr, setAt, enablingLevel, ht, if_false] at h ⊢
        split_ifs
        · rfl
        · exact h)
      exact this
    · exact ih s h

theorem clearFold_sets (l : List Int) (s : State) (j : Int) (hj : j ∈ l)
    (hb : s.digits j ≠ -1) :
    (l.foldl
      (fun (st : State) (i : Int) =>
        if st.digits i ≠ -1 then
          if st.sevenSegType = 1 then gpioSet st (st.digits i) else gpioClr st (st.digits i)
        else st) s).gpioLevel (s.digits j) = !enablingLevel s := by
  induction l generalizing s with
  | nil => cases hj
  | cons a l ih =>
    simp only [List.foldl]
    rcases List.mem_cons.mp hj with hja | hjl
    · subst hja
      rw [if_pos hb]
      split_ifs with ht
      · exact (clearFold_keeps l (gpioSet s (s.digits j)) (s.digits j) (by
          simp [gpioSet, setAt, enablingLevel, ht])).1
      · exact (clearFold_keeps l (gpioClr s (s.digits j)) (s.digits j) (by
          simp [gpioClr, setAt, enablingLevel, ht])).1
    · split_ifs with ha ht
      · exact ih (gpioSet s (s.digits a)) hjl hb
      · exact ih (gpioClr s (s.digits a)) hjl hb
      · exact ih s hjl hb

theorem clearDigits_disables (s : State) (j : Int) (hj : j ∈ [0, 1, 2, 3])
    (hb : s.digits j ≠ -1) :
    (clearDigits s).gpioLevel (s.digits j) = !enablingLevel s :=
  clearFold_sets [0, 1, 2, 3] s j hj hb

theorem displayDP_level (s : State) (pin : Int) (h : s.dp ≠ pin) :
    (displayDP s).gpioLevel pin = s.gpioLevel pin := by
  unfold displayDP
  split_ifs <;> simp [gpioSet, gpioClr, setAt, Ne.symm h]

theorem segmentFold_level (m : Int) (l : List Nat) (s : State) (pin : Int)
    (h : ∀ i ∈ l, s.segments (i : Int) ≠ pin) :
    l.foldl
      (fun (st : State) (i : Nat) =>
        if ((m / 2 ^ i) % 2 = 1 ∧ st.sevenSegType = 1) ∨
            ((m / 2 ^ i) % 2 = 0 ∧ st.sevenSegType = 0)
        then gpioSet st (st.segments i) else gpioClr st (st.segments i)) s =
      { s with gpioLevel :=
        (l.foldl
          (fun (st : State) (i : Nat) =>
            if ((m / 2 ^ i) % 2 = 1 ∧ st.sevenSegType = 1) ∨
                ((m / 2 ^ i) % 2 = 0 ∧ st.sevenSegType = 0)
            then gpioSet st (st.segments i) else gpioClr st (st.segments i)) s).gpioLevel } ∧
    (l.foldl
      (fun (st : State) (i : Nat) =>
        if ((m / 2 ^ i) % 2 = 1 ∧ st.sevenSegType = 1) ∨
            ((m / 2 ^ i) % 2 = 0 ∧ st.sevenSegType = 0)
        then gpioSet st (st.segments i) else gpioClr st (st.segments i)) s).gpioLevel pin =
      s.gpioLevel pin := by
  refine ⟨foldl_onlyGpio _ (by
      intro st a
      simp only [gpioSet, gpioClr]
      split_ifs <;> rfl) l s, ?_⟩
  induction l generalizing s with
  | nil => rfl
  | cons a l ih =>
    simp only [List.foldl]
    have ha : s.segments (a : Int) ≠ pin := h a (List.mem_cons_self a l)
    have hl : ∀ i ∈ l, s.segments (i : Int) ≠ pin :=
      fun i hi => h i (List.mem_cons_of_mem a hi)
    split_ifs
    · rw [ih (gpioSet s (s.segments a)) hl]
      simp [gpioSet, setAt, Ne.symm ha]
    · rw [ih (gpioClr s (s.segments a)) hl]
      simp [gpioClr, setAt, Ne.symm ha]

theorem displayValue_level (s : State) (m : Int) (pin : Int)
    (hseg : ∀ i ∈ List.range 7, s.segments (i : Int) ≠ pin) (hdp : s.dp ≠ pin) :
    (displayValue s m).gpioLevel pin = s.gpioLevel pin := by
  unfold displayValue
  simp only []
  obtain ⟨h1, h2⟩ := segmentFold_level m (List.range 7) s pin hseg
  rw [displayDP_level, h2]
  rw [h1]
  exact hdp

theorem glyphLoop_level (s : State) (u : Nat) (pin : Int)
    (hseg : ∀ i ∈ List.range 7, s.segments (i : Int) ≠ pin) (hdp : s.dp ≠ pin) :
    (glyphLoop s u).gpioLevel pin = s.gpioLevel pin := by
  rcases glyphLoop_cases s u with ⟨k, _, _, h⟩ | ⟨_, h⟩
  · rw [h]
    exact displayValue_level s _ pin hseg hdp
  · rw [h]

/-- C23 (the claim as worded fails): the digit pins 11, 13, 1, 10 are bound
and pairwise distinct, but segment G is wired to pin 13 as well. The refresh
tick for position 0 shows '1', whose mask has bit 6 clear, so `displayValue`
drives pin 13 low after `clearDigits` had driven it high: the pin of
position 1 ends at the enabling level although position 0 is the lit one. -/
theorem C23_aliased_segment_enables_second_digit :
    [aliasedDisplay.digits 0, aliasedDisplay.digits 1, aliasedDisplay.digits 2,
      aliasedDisplay.digits 3] = [11, 13, 1, 10] ∧
    aliasedDisplay.segments 6 = 13 ∧
    aliasedDisplay.currentDigit = 0 ∧
    enablingLevel aliasedDisplay = false ∧
    (display4CharactersInterrupt aliasedDisplay).gpioLevel (aliasedDisplay.digits 0) = false ∧
    (display4CharactersInterrupt aliasedDisplay).gpioLevel (aliasedDisplay.digits 1) = false ∧
    (display4CharactersInterrupt aliasedDisplay).gpioLevel (aliasedDisplay.digits 1) ≠
      !enablingLevel aliasedDisplay := by
  decide

/-- C23 (amended): when the bound digit pins are pairwise distinct and no
segment pin and not the decimal-point pin is wired to a bound digit pin, a
refresh tick with lit position `d` in 0..3 leaves the pin of position `d`, if
bound, at the enabling level and every other bound digit pin at the disabling
level; if position `d` is unbound, every bound digit pin is at the disabling
level and `enableDigit` changes nothing. -/
theorem C23_refresh_enables_only_lit_digit (s : State)
    (hdist : ∀ i ∈ [0, 1, 2, 3], ∀ j ∈ [0, 1, 2, 3], i ≠ j → s.digits i ≠ -1 →
      s.digits i ≠ s.digits j)
    (hseg : ∀ j ∈ [0, 1, 2, 3], s.digits j ≠ -1 →
      (∀ i ∈ List.range 7, s.segments (i : Int) ≠ s.digits j) ∧ s.dp ≠ s.digits j)
    (hd : s.currentDigit ∈ [0, 1, 2, 3]) :
    (s.digits s.currentDigit ≠ -1 →
      (display4CharactersInterrupt s).gpioLevel (s.digits s.currentDigit) = enablingLevel s) ∧
    (∀ j ∈ [0, 1, 2, 3], j ≠ s.currentDigit → s.digits j ≠ -1 →
      (display4CharactersInterrupt s).gpioLevel (s.digits j) = !enablingLevel s) ∧
    (s.digits s.currentDigit = -1 →
      (∀ j ∈ [0, 1, 2, 3], s.digits j ≠ -1 →
        (display4CharactersInterrupt s).gpioLevel (s.digits j) = !enablingLevel s) ∧
      enableDigit
        (glyphLoop (clearDigits s) (toChar (toupper (s.chrSequence s.currentDigit))))
        s.currentDigit =
        glyphLoop (clearDigits s) (toChar (toupper (s.chrSequence s.currentDigit)))) := by
  have hg : (display4CharactersInterrupt s).gpioLevel =
      (enableDigit
        (glyphLoop (clearDigits s) (toChar (toupper (s.chrSequence s.currentDigit))))
        s.currentDigit).gpioLevel := by
    rw [refresh_eq]
  rw [hg]
  have h1 := clearDigits_onlyGpio s
  have hcl : ∀ j ∈ [0, 1, 2, 3], s.digits j ≠ -1 →
      (clearDigits s).gpioLevel (s.digits j) = !enablingLevel s :=
    fun j hj hb => clearDigits_disables s j hj hb
  generalize clearDigits s = a at h1 hcl ⊢
  have ha : a.segments = s.segments ∧ a.dp = s.dp := by rw [h1]; exact ⟨rfl, rfl⟩
  have h2 := glyphLoop_onlyGpio a (toChar (toupper (s.chrSequence s.currentDigit)))
  have hgl : ∀ j ∈ [0, 1, 2, 3], s.digits j ≠ -1 →
      (glyphLoop a (toChar (toupper (s.chrSequence s.currentDigit)))).gpioLevel (s.digits j) =
        !enablingLevel s := by
    intro j hj hb
    rw [glyphLoop_level a _ (s.digits j)
      (by rw [ha.1]; exact (hseg j hj hb).1) (by rw [ha.2]; exact (hseg j hj hb).2)]
    exact hcl j hj hb
  generalize glyphLoop a (toChar (toupper (s.chrSequence s.currentDigit))) = b at h2 hgl ⊢
  have hb : b.digits = s.digits ∧ b.sevenSegType = s.sevenSegType := by
    rw [h2, h1]; exact ⟨rfl, rfl⟩
  refine ⟨?_, ?_, ?_⟩
  · intro hbound
    unfold enableDigit
    rw [hb.1, hb.2, if_pos hbound]
    unfold enablingLevel
    split_ifs <;> simp [gpioSet, gpioClr, setAt]
  · intro j hj hne hbound
    unfold enableDigit
    rw [hb.1, hb.2]
    have hpin : s.digits j ≠ s.digits s.currentDigit := hdist j hj _ hd hne hbound
    split_ifs
    · simp only [gpioClr, setAt, if_neg hpin]
      exact hgl j hj hbound
    · simp only [gpioSet, setAt, if_neg hpin]
      exact hgl j hj hbound
    · exact hgl j hj hbound
  · intro hun
    have he : enableDigit b s.currentDigit = b := by
      unfold enableDigit
      rw [hb.1, if_neg (by simp [hun])]
    rw [he]
    exact ⟨hgl, rfl⟩

theorem C23_refresh_enables_only_lit_digit_witness :
    (wiredDisplay text1234).currentDigit = 0 ∧ (wiredDisplay text1234).digits 0 = 11 ∧
    (display4CharactersInterrupt (wiredDisplay text1234)).gpioLevel 11 = false ∧
    (∀ j ∈ [0, 1, 2, 3], j ≠ (wiredDisplay text1234).currentDigit →
      (wiredDisplay text1234).digits j ≠ -1 →
      (display4CharactersInterrupt (wiredDisplay text1234)).gpioLevel
        ((wiredDisplay text1234).digits j) = !enablingLevel (wiredDisplay text1234)) :=
  ⟨by decide, by decide,
    (C23_refresh_enables_only_lit_digit (wiredDisplay text1234) (by decide) (by decide)
      (by decide)).1 (by decide),
    (C23_refresh_enables_only_lit_digit (wiredDisplay text1234) (by decide) (by decide)
      (by decide)).2.1⟩

/-! ## Display type, decimal point and counter helper functions -/

/-- C24 (failing input): after `setSevenSegmentType(0)` the call
`setSevenSegmentType(1)` leaves the display type at 0: the `else` branch
assigns its parameter, so for every `t` the type is 0 when `t = 0` and otherwise
whatever it was before. -/
theorem C24_type_one_is_never_stored :
    (setSevenSegmentType State.init 0).sevenSegType = 0 ∧
    (setSevenSegmentType (setSevenSegmentType State.init 0) 1).sevenSegType = 0 ∧
    (setSevenSegmentType (setSevenSegmentType State.init 0) 1).sevenSegType ≠ 1 ∧
    ∀ (s : State) (t : Int),
      (setSevenSegmentType s t).sevenSegType = if t = 0 then 0 else s.sevenSegType := by
  refine ⟨rfl, rfl, by decide, ?_⟩
  intro s t
  unfold setSevenSegmentType
  split_ifs with h
  · exact h
  · rfl

/-- C25 (failing input): `enableDecimalSegment(-1)` stores -1 as the pin and
sets `enableDP` to true; the decimal point is enabled after every call, whatever
the argument. -/
theorem C25_decimal_point_enabled_for_minus_one :
    State.init.enableDP = false ∧
    (enableDecimalSegment State.init (-1)).dp = -1 ∧
    (enableDecimalSegment State.init (-1)).enableDP = true ∧
    ∀ (s : State) (p : Int), (enableDecimalSegment s p).enableDP = true :=
  ⟨rfl, rfl, rfl, fun _ _ => rfl⟩

theorem strcmpEq_trans_false (a b c : List Nat) (hab : strcmpEq a b = true)
    (hbc : strcmpEq b c = false) : strcmpEq a c = false := by
  unfold strcmpEq at *
  have h := eq_of_beq hab
  rw [h]
  exact hbc

/-- C26: `changeSevenSegmentCountDirection` with a string equal to "UP" stores
"UP" and nothing else changes, so the next counting step is `+ countIncrement`;
with a string equal to "DOWN" it stores "DOWN" and the step is
`- countIncrement`; with any other string the state is exactly as before. -/
theorem C26_change_direction (s : State) (newDirection : List Nat) :
    (strcmpEq newDirection strUP = true →
      changeSevenSegmentCountDirection s newDirection =
        { s with countDirection := [85, 80, 0, 0] } ∧
      counterDelta (changeSevenSegmentCountDirection s newDirection) = s.countIncrement) ∧
    (strcmpEq newDirection strDOWN = true →
      changeSevenSegmentCountDirection s newDirection =
        { s with countDirection := [68, 79, 87, 78] } ∧
      counterDelta (changeSevenSegmentCountDirection s newDirection) = - s.countIncrement) ∧
    (strcmpEq newDirection strUP = false → strcmpEq newDirection strDOWN = false →
      changeSevenSegmentCountDirection s newDirection = s) := by
  refine ⟨?_, ?_, ?_⟩
  · intro h
    have e : changeSevenSegmentCountDirection s newDirection =
        { s with countDirection := [85, 80, 0, 0] } := by
      unfold changeSevenSegmentCountDirection
      rw [if_pos h]
      rfl
    rw [e]
    exact ⟨rfl, rfl⟩
  · intro h
    have hup : strcmpEq newDirection strUP = false :=
      strcmpEq_trans_false newDirection strDOWN strUP h (by decide)
    have e : changeSevenSegmentCountDirection s newDirection =
        { s with countDirection := [68, 79, 87, 78] } := by
      unfold changeSevenSegmentCountDirection
      rw [if_neg (by simp [hup]), if_pos h]
      rfl
    rw [e]
    exact ⟨rfl, rfl⟩
  · intro h1 h2
    unfold changeSevenSegmentCountDirection
    rw [if_neg (by simp [h1]), if_neg (by simp [h2])]

theorem C26_change_direction_witness :
    (changeSevenSegmentCountDirection State.init strUP).countDirection = [85, 80, 0, 0] ∧
    (changeSevenSegmentCountDirection State.init strDOWN).countDirection =
      [68, 79, 87, 78] ∧
    changeSevenSegmentCountDirection State.init [117, 112] = State.init :=
  ⟨congrArg State.countDirection
      ((C26_change_direction State.init strUP).1 (by decide)).1,
    congrArg State.countDirection
      ((C26_change_direction State.init strDOWN).2.1 (by decide)).1,
    (C26_change_direction State.init [117, 112]).2.2 (by decide) (by decide)⟩

/-- C27: `setCountStopValue(v)` enables the stop condition, stores `v`, sets
the pause flag exactly when the raw count equals `v` (and clears it otherwise),
and changes nothing else: raw count, normalized count, start value, increment
and direction are as before. -/
theorem C27_set_stop_value (s : State) (v : Int) :
    (setCountStopValue s v).enableCountStopValue = true ∧
    (setCountStopValue s v).countStopValue = v ∧
    ((setCountStopValue s v).pauseCounter = true ↔ s.currentCount = v) ∧
    ((setCountStopValue s v).pauseCounter = false ↔ s.currentCount ≠ v) ∧
    (setCountStopValue s v).currentCount = s.currentCount ∧
    (setCountStopValue s v).normalizedCount = s.normalizedCount ∧
    (setCountStopValue s v).startCount = s.startCount ∧
    (setCountStopValue s v).countIncrement = s.countIncrement ∧
    (setCountStopValue s v).countDirection = s.countDirection ∧
    setCountStopValue s v =
      { s with enableCountStopValue := true, countStopValue := v,
               pauseCounter := decide (s.currentCount = v) } := by
  unfold setCountStopValue
  simp only []
  by_cases h : s.currentCount = v
  · rw [if_neg (by simp [h])]
    simp [h]
  · rw [if_pos h]
    simp [h]

theorem tick_startCount (s : State) :
    (updateSevenSegmentCounterInterrupt s).startCount = s.startCount := by
  cases hp : s.pauseCounter
  · rw [tick_of_running s hp]
  · rw [tick_of_paused s hp]

theorem counterTicks_startCount (n : Nat) (s : State) :
    (counterTicks n s).startCount = s.startCount := by
  induction n generalizing s with
  | zero => rfl
  | succ n ih =>
    have hs : counterTicks (n + 1) s = counterTicks n (updateSevenSegmentCounterInterrupt s) := by
      simp [counterTicks, Function.iterate_succ_apply]
    rw [hs, ih, tick_startCount]

/-- C28: after `setSevenSegmentCount(n)` the raw and the normalized count are
`n`, the pause flag is false and the start value is `n`; after any number `k`
of counting ticks `resetSevenSegmentCount` returns both counts to `n` and
clears the pause flag. -/
theorem C28_set_count_rearms (s : State) (n : Int) (k : Nat) :
    (setSevenSegmentCount s n).currentCount = n ∧
    (setSevenSegmentCount s n).normalizedCount = n ∧
    (setSevenSegmentCount s n).pauseCounter = false ∧
    (setSevenSegmentCount s n).startCount = n ∧
    (resetSevenSegmentCount (counterTicks k (setSevenSegmentCount s n))).currentCount = n ∧
    (resetSevenSegmentCount (counterTicks k (setSevenSegmentCount s n))).normalizedCount = n ∧
    (resetSevenSegmentCount (counterTicks k (setSevenSegmentCount s n))).pauseCounter = false := by
  refine ⟨rfl, rfl, rfl, rfl, ?_, ?_, rfl⟩
  · show (counterTicks k (setSevenSegmentCount s n)).startCount = n
    rw [counterTicks_startCount]
    rfl
  · show (counterTicks k (setSevenSegmentCount s n)).startCount = n
    rw [counterTicks_startCount]
    rfl

/-- C29 (failing input): `setSevenSegmentCount(12345)` makes
`getSevenSegmentDisplayCount` return 12345, and a counter set up with start
25000 returns 25000 and, one counting tick later, 15001: neither the setters
nor the single subtraction of the tick bring the value into 0..9999. -/
theorem C29_display_count_leaves_range :
    getSevenSegmentDisplayCount (setSevenSegmentCount counterOnWKT 12345) = 12345 ∧
    getSevenSegmentDisplayCount
      (setupSevenSegmentCounter State.init 25000 strWKT strUP 1 0 false 1000 strMRT0 1000)
      = 25000 ∧
    getSevenSegmentDisplayCount
      (updateSevenSegmentCounterInterrupt
        (setupSevenSegmentCounter State.init 25000 strWKT strUP 1 0 false 1000 strMRT0 1000))
      = 15001 ∧
    ¬ (0 ≤ getSevenSegmentDisplayCount (setSevenSegmentCount counterOnWKT 12345) ∧
        getSevenSegmentDisplayCount (setSevenSegmentCount counterOnWKT 12345) ≤ 9999) := by
  decide

/-! ## Clock ids bound by the configuration functions -/

theorem clockChain (name : List Nat) (x0 x1 x2 x3 x4 x5 : State) (proj : State → Int)
    (hproj : ∀ (t : State) (a b c d e : Int), proj (t.withTimers a b c d e) = proj t) :
    proj
      (if strcmpEq name strSysTick then SysTick_Configuration_Seven_Segment x0
      else if strcmpEq name strWKT then WKT_Configuration_Seven_Segment x1
      else if strcmpEq name strMRT0 then MRT_Configuration_Seven_Segment x2 0
      else if strcmpEq name strMRT1 then MRT_Configuration_Seven_Segment x3 1
      else if strcmpEq name strCTIMER0 then CTIMER_Configuration_Seven_Segment x4
      else x5) =
      if strcmpEq name strSysTick then proj x0
      else if strcmpEq name strWKT then proj x1
      else if strcmpEq name strMRT0 then proj x2
      else if strcmpEq name strMRT1 then proj x3
      else if strcmpEq name strCTIMER0 then proj x4
      else proj x5 := by
  split_ifs
  · obtain ⟨a, b, c, d, e, h⟩ := SysTick_Configuration_timers x0
    rw [h, hproj]
  · obtain ⟨a, b, c, d, e, h⟩ := WKT_Configuration_timers x1
    rw [h, hproj]
  · obtain ⟨a, b, c, d, e, h⟩ := MRT_Configuration_timers x2 0
    rw [h, hproj]
  · obtain ⟨a, b, c, d, e, h⟩ := MRT_Configuration_timers x3 1
    rw [h, hproj]
  · obtain ⟨a, b, c, d, e, h⟩ := CTIMER_Configuration_timers x4
    rw [h, hproj]
  · rfl

theorem display4Characters_clocks (s : State) (inputSequence clockType : List Nat)
    (refreshRate : Int) :
    (display4Characters s inputSequence clockType refreshRate).currentClock =
      clockId clockType s.currentClock ∧
    (display4Characters s inputSequence clockType refreshRate).countClock = s.countClock ∧
    (display4Characters s inputSequence clockType refreshRate).transitionClock =
      s.transitionClock := by
  unfold display4Characters
  simp only []
  refine ⟨?_, ?_, ?_⟩
  · rw [clockChain clockType _ _ _ _ _ _ (fun t => t.currentClock) (fun _ _ _ _ _ _ => rfl)]
    rfl
  · rw [clockChain clockType _ _ _ _ _ _ (fun t => t.countClock) (fun _ _ _ _ _ _ => rfl)]
    simp only [ite_self]
  · rw [clockChain clockType _ _ _ _ _ _ (fun t => t.transitionClock) (fun _ _ _ _ _ _ => rfl)]
    simp only [ite_self]

theorem setupSevenSegmentCounter_clocks (s : State) (clockStart : Int)
    (counterClock newCountDirection : List Nat) (newCountIncrement newStopValue : Int)
    (enableStopValue : Bool) (newCountRate : Int) (refreshClock : List Nat)
    (refreshRate : Int) (hclk : strcmpEq counterClock refreshClock = false) :
    (setupSevenSegmentCounter s clockStart counterClock newCountDirection newCountIncrement
      newStopValue enableStopValue newCountRate refreshClock refreshRate).currentClock =
      clockId refreshClock s.currentClock ∧
    (setupSevenSegmentCounter s clockStart counterClock newCountDirection newCountIncrement
      newStopValue enableStopValue newCountRate refreshClock refreshRate).countClock =
      clockId counterClock s.countClock := by
  unfold setupSevenSegmentCounter display4Numbers
  rw [if_neg (by simp [hclk])]
  simp only []
  rw [(display4Characters_clocks _ _ _ _).1, (display4Characters_clocks _ _ _ _).2.1]
  constructor
  · rw [clockChain counterClock _ _ _ _ _ _ (fun t => t.currentClock)
      (fun _ _ _ _ _ _ => rfl)]
    simp only []
    split_ifs <;> rfl
  · rw [clockChain counterClock _ _ _ _ _ _ (fun t => t.countClock)
      (fun _ _ _ _ _ _ => rfl)]
    simp only [clockId]
    split_ifs <;> rfl

theorem sevenSegmentDisplayTextCarousel_clocks (s : State) (characterSequence : List Nat)
    (sequenceLength : Int) (newTransitionClock : List Nat) (transitionSpeed : Int)
    (newEnableContinousCycle newEnablePadding : Bool) (refreshClock : List Nat)
    (refreshRate : Int) (hclk : strcmpEq newTransitionClock refreshClock = false) :
    (sevenSegmentDisplayTextCarousel s characterSequence sequenceLength newTransitionClock
      transitionSpeed newEnableContinousCycle newEnablePadding refreshClock
      refreshRate).currentClock = clockId refreshClock s.currentClock ∧
    (sevenSegmentDisplayTextCarousel s characterSequence sequenceLength newTransitionClock
      transitionSpeed newEnableContinousCycle newEnablePadding refreshClock
      refreshRate).transitionClock = clockId newTransitionClock s.transitionClock := by
  unfold sevenSegmentDisplayTextCarousel
  rw [if_neg (by simp [hclk])]
  lift_lets
  extract_lets s1 padding s2 copied s3 s4 s5 s6 s7 s8 firstScreen
  rw [(display4Characters_clocks s8 firstScreen refreshClock refreshRate).1,
    (display4Characters_clocks s8 firstScreen refreshClock refreshRate).2.2]
  have h2 : s2.currentClock = s.currentClock ∧ s2.transitionClock = s.transitionClock := by
    simp only [s2, s1]
    split_ifs <;> exact ⟨rfl, rfl⟩
  have h4 : s4.currentClock = s2.currentClock ∧ s4.transitionClock = s2.transitionClock := by
    simp only [s4, s3]
    split_ifs <;> exact ⟨rfl, rfl⟩
  have h5 : s5.currentClock = s4.currentClock ∧ s5.transitionClock = s4.transitionClock := by
    simp only [s5]
    split_ifs <;> exact ⟨rfl, rfl⟩
  have h6 : s6.currentClock = s.currentClock ∧ s6.transitionClock = s.transitionClock :=
    ⟨(h5.1.trans h4.1).trans h2.1, (h5.2.trans h4.2).trans h2.2⟩
  clear_value s6
  have h7 : s7.currentClock = s6.currentClock ∧
      s7.transitionClock = clockId newTransitionClock s6.transitionClock := by
    simp only [s7]
    constructor
    · rw [clockChain newTransitionClock _ _ _ _ _ _ (fun t => t.currentClock)
        (fun _ _ _ _ _ _ => rfl)]
      simp only [ite_self]
    · rw [clockChain newTransitionClock _ _ _ _ _ _ (fun t => t.transitionClock)
        (fun _ _ _ _ _ _ => rfl)]
      rfl
  have h8 : s8.currentClock = s7.currentClock ∧ s8.transitionClock = s7.transitionClock :=
    ⟨rfl, rfl⟩
  rw [h8.1, h8.2, h7.1, h7.2, h6.1, h6.2]
  exact ⟨rfl, rfl⟩

theorem sevenSegmentDisplayTextSlider_clocks (s : State) (characterSequence : List Nat)
    (sequenceLength : Int) (newTransitionClock : List Nat) (transitionSpeed : Int)
    (newEnableContinousCycle newEnablePadding ignoreSingleSpaces : Bool)
    (refreshClock : List Nat) (refreshRate : Int)
    (hclk : strcmpEq newTransitionClock refreshClock = false) :
    (sevenSegmentDisplayTextSlider s characterSequence sequenceLength newTransitionClock
      transitionSpeed newEnableContinousCycle newEnablePadding ignoreSingleSpaces refreshClock
      refreshRate).currentClock = clockId refreshClock s.currentClock ∧
    (sevenSegmentDisplayTextSlider s characterSequence sequenceLength newTransitionClock
      transitionSpeed newEnableContinousCycle newEnablePadding ignoreSingleSpaces refreshClock
      refreshRate).transitionClock = clockId newTransitionClock s.transitionClock := by
  unfold sevenSegmentDisplayTextSlider
  rw [if_neg (by simp [hclk])]
  lift_lets
  extract_lets s1 padding s2 copied spaceAdjuster rest filled s3 s4 s5 s6 s7 firstScreen
  rw [(display4Characters_clocks s7 firstScreen refreshClock refreshRate).1,
    (display4Characters_clocks s7 firstScreen refreshClock refreshRate).2.2]
  have h2 : s2.currentClock = s.currentClock ∧ s2.transitionClock = s.transitionClock := by
    simp only [s2, s1]
    split_ifs <;> exact ⟨rfl, rfl⟩
  have h4 : s4.currentClock = s2.currentClock ∧ s4.transitionClock = s2.transitionClock := by
    simp only [s4, s3]
    split_ifs <;> exact ⟨rfl, rfl⟩
  have h5 : s5.currentClock = s.currentClock ∧ s5.transitionClock = s.transitionClock :=
    ⟨h4.1.trans h2.1, h4.2.trans h2.2⟩
  clear_value s5
  have h6 : s6.currentClock = s5.currentClock ∧
      s6.transitionClock = clockId newTransitionClock s5.transitionClock := by
    simp only [s6]
    constructor
    · rw [clockChain newTransitionClock _ _ _ _ _ _ (fun t => t.currentClock)
        (fun _ _ _ _ _ _ => rfl)]
      simp only [ite_self]
    · rw [clockChain newTransitionClock _ _ _ _ _ _ (fun t => t.transitionClock)
        (fun _ _ _ _ _ _ => rfl)]
      rfl
  have h7 : s7.currentClock = s6.currentClock ∧ s7.transitionClock = s6.transitionClock :=
    ⟨rfl, rfl⟩
  rw [h7.1, h7.2, h6.1, h6.2, h5.1, h5.2]
  exact ⟨rfl, rfl⟩

theorem recognisedClock_cases (name : List Nat) (h : recognisedClock name = true) :
    name.takeWhile (fun c => c != 0) = strSysTick ∨
    name.takeWhile (fun c => c != 0) = strWKT ∨
    name.takeWhile (fun c => c != 0) = strMRT0 ∨
    name.takeWhile (fun c => c != 0) = strMRT1 ∨
    name.takeWhile (fun c => c != 0) = strCTIMER0 := by
  unfold recognisedClock strcmpEq at h
  simp only [Bool.or_eq_true, beq_iff_eq] at h
  have e0 : strSysTick.takeWhile (fun c => c != 0) = strSysTick := by decide
  have e1 : strWKT.takeWhile (fun c => c != 0) = strWKT := by decide
  have e2 : strMRT0.takeWhile (fun c => c != 0) = strMRT0 := by decide
  have e3 : strMRT1.takeWhile (fun c => c != 0) = strMRT1 := by decide
  have e4 : strCTIMER0.takeWhile (fun c => c != 0) = strCTIMER0 := by decide
  rw [e0, e1, e2, e3, e4] at h
  tauto

theorem clockId_of_takeWhile (name : List Nat) (old : Int) :
    clockId name old = clockId (name.takeWhile (fun c => c != 0)) old := by
  have e : ∀ lit : List Nat,
      strcmpEq name lit = strcmpEq (name.takeWhile (fun c => c != 0)) lit := by
    intro lit
    unfold strcmpEq
    rw [List.takeWhile_idem]
  unfold clockId
  rw [e, e, e, e, e]

theorem clockId_ne (a b : List Nat) (x y : Int) (ha : recognisedClock a = true)
    (hb : recognisedClock b = true) (hne : strcmpEq a b = false) :
    clockId a x ≠ clockId b y := by
  rw [clockId_of_takeWhile a, clockId_of_takeWhile b]
  have hne2 : (a.takeWhile (fun c => c != 0) == b.takeWhile (fun c => c != 0)) = false := hne
  rcases recognisedClock_cases a ha with h | h | h | h | h <;>
  rcases recognisedClock_cases b hb with g | g | g | g | g <;>
  rw [h, g] at hne2 ⊢ <;>
  first
    | exact absurd hne2 (by decide)
    | (intro hk
       revert hk
       simp [clockId, strcmpEq, strSysTick, strWKT, strMRT0, strMRT1, strCTIMER0])

/-- C30 (the claim as worded fails): a counter is set up counting on WKT and
refreshed from MRT0 (ids 1 and 2); a following `display4Characters` on "WKT"
binds refresh to id 1 while counting stays on id 1. In the same way a carousel
with transition on WKT followed by `display4Characters` on "WKT" leaves
refresh and transition on id 1, and a first counter setup with two unknown
names leaves both ids at their initial -1. -/
theorem C30_refresh_can_share_the_counting_source :
    counterOnWKT.countClock = 1 ∧ counterOnWKT.currentClock = 2 ∧
    (display4Characters counterOnWKT text1234 strWKT 1000).currentClock = 1 ∧
    (display4Characters counterOnWKT text1234 strWKT 1000).countClock = 1 ∧
    (display4Characters
      (sevenSegmentDisplayTextCarousel State.init text1234 4 strWKT 1000 true false strMRT0
        1000) text1234 strWKT 1000).currentClock = 1 ∧
    (display4Characters
      (sevenSegmentDisplayTextCarousel State.init text1234 4 strWKT 1000 true false strMRT0
        1000) text1234 strWKT 1000).transitionClock = 1 ∧
    (setupSevenSegmentCounter State.init 0 [65] strUP 1 0 false 1000 [66] 1000).currentClock
      = (setupSevenSegmentCounter State.init 0 [65] strUP 1 0 false 1000 [66] 1000).countClock
    := by
  decide

/-- C30 (amended): one call of `setupSevenSegmentCounter`,
`sevenSegmentDisplayTextCarousel` or `sevenSegmentDisplayTextSlider` whose two
clock names are different names from the list "SysTick", "WKT", "MRT0", "MRT1",
"CTIMER0" leaves the refresh id different from the counting id (for the
counter) or the transition id (for carousel and slider) that the call bound;
`display4Characters` binds only the refresh id and leaves the counting and
transition ids as they were, so the ids of earlier calls are not kept apart. -/
theorem C30_one_call_binds_distinct_sources (s : State) (clock refreshClock : List Nat)
    (clockStart : Int) (newCountDirection : List Nat)
    (newCountIncrement newStopValue : Int) (enableStopValue : Bool) (rate : Int)
    (characterSequence : List Nat) (sequenceLength : Int)
    (newEnableContinousCycle newEnablePadding ignoreSingleSpaces : Bool) (refreshRate : Int)
    (hc : recognisedClock clock = true) (hr : recognisedClock refreshClock = true)
    (hne : strcmpEq clock refreshClock = false) :
    (setupSevenSegmentCounter s clockStart clock newCountDirection newCountIncrement
        newStopValue enableStopValue rate refreshClock refreshRate).currentClock ≠
      (setupSevenSegmentCounter s clockStart clock newCountDirection newCountIncrement
        newStopValue enableStopValue rate refreshClock refreshRate).countClock ∧
    (sevenSegmentDisplayTextCarousel s characterSequence sequenceLength clock rate
        newEnableContinousCycle newEnablePadding refreshClock refreshRate).currentClock ≠
      (sevenSegmentDisplayTextCarousel s characterSequence sequenceLength clock rate
        newEnableContinousCycle newEnablePadding refreshClock refreshRate).transitionClock ∧
    (sevenSegmentDisplayTextSlider s characterSequence sequenceLength clock rate
        newEnableContinousCycle newEnablePadding ignoreSingleSpaces refreshClock
        refreshRate).currentClock ≠
      (sevenSegmentDisplayTextSlider s characterSequence sequenceLength clock rate
        newEnableContinousCycle newEnablePadding ignoreSingleSpaces refreshClock
        refreshRate).transitionClock ∧
    (display4Characters s characterSequence refreshClock refreshRate).countClock =
      s.countClock ∧
    (display4Characters s characterSequence refreshClock refreshRate).transitionClock =
      s.transitionClock := by
  have hne2 : strcmpEq refreshClock clock = false := by
    unfold strcmpEq at hne ⊢
    cases h : (List.takeWhile (fun c => c != 0) refreshClock ==
      List.takeWhile (fun c => c != 0) clock)
    · rfl
    · rw [eq_of_beq h] at hne
      simp at hne
  refine ⟨?_, ?_, ?_, (display4Characters_clocks s _ _ _).2.1,
    (display4Characters_clocks s _ _ _).2.2⟩
  · rw [(setupSevenSegmentCounter_clocks s clockStart clock newCountDirection
        newCountIncrement newStopValue enableStopValue rate refreshClock refreshRate hne).1,
      (setupSevenSegmentCounter_clocks s clockStart clock newCountDirection
        newCountIncrement newStopValue enableStopValue rate refreshClock refreshRate hne).2]
    exact clockId_ne refreshClock clock _ _ hr hc hne2
  · rw [(sevenSegmentDisplayTextCarousel_clocks s characterSequence sequenceLength clock rate
        newEnableContinousCycle newEnablePadding refreshClock refreshRate hne).1,
      (sevenSegmentDisplayTextCarousel_clocks s characterSequence sequenceLength clock rate
        newEnableContinousCycle newEnablePadding refreshClock refreshRate hne).2]
    exact clockId_ne refreshClock clock _ _ hr hc hne2
  · rw [(sevenSegmentDisplayTextSlider_clocks s characterSequence sequenceLength clock rate
        newEnableContinousCycle newEnablePadding ignoreSingleSpaces refreshClock refreshRate
        hne).1,
      (sevenSegmentDisplayTextSlider_clocks s characterSequence sequenceLength clock rate
        newEnableContinousCycle newEnablePadding ignoreSingleSpaces refreshClock refreshRate
        hne).2]
    exact clockId_ne refreshClock clock _ _ hr hc hne2

theorem C30_one_call_binds_distinct_sources_witness :
    recognisedClock strWKT = true ∧ recognisedClock strMRT0 = true ∧
    strcmpEq strWKT strMRT0 = false ∧
    (setupSevenSegmentCounter State.init 0 strWKT strUP 1 0 false 1000 strMRT0
        55000).currentClock ≠
      (setupSevenSegmentCounter State.init 0 strWKT strUP 1 0 false 1000 strMRT0
        55000).countClock :=
  ⟨by decide, by decide, by decide,
    (C30_one_call_binds_distinct_sources State.init strWKT strMRT0 0 strUP 1 0 false 1000
      text1234 4 true false false 55000 (by decide) (by decide) (by decide)).1⟩

/-! ## Unrecognised names, large increments, table injectivity and the stop test -/

/-- C31 (the claim as worded fails): the display shows "12!8" refreshed from
WKT at rate 55000 and one refresh tick has moved the lit position to 1; a call
of `display4Characters` with "1234", the unknown clock name "LEFT" and rate 7
keeps the clock binding but overwrites the display buffer with "1234", stores 7
as refresh rate and resets the lit position to 0. -/
theorem C31_unknown_clock_still_rewrites_display :
    recognisedClock textLEFT = false ∧
    window (display4CharactersInterrupt (wiredDisplay text12bang8)) = [49, 50, 33, 56] ∧
    (display4CharactersInterrupt (wiredDisplay text12bang8)).cycleRate = 55000 ∧
    (display4CharactersInterrupt (wiredDisplay text12bang8)).currentDigit = 1 ∧
    (display4CharactersInterrupt (wiredDisplay text12bang8)).currentClock = 1 ∧
    window (display4Characters (display4CharactersInterrupt (wiredDisplay text12bang8))
      text1234 textLEFT 7) = [49, 50, 51, 52] ∧
    (display4Characters (display4CharactersInterrupt (wiredDisplay text12bang8))
      text1234 textLEFT 7).cycleRate = 7 ∧
    (display4Characters (display4CharactersInterrupt (wiredDisplay text12bang8))
      text1234 textLEFT 7).currentDigit = 0 ∧
    (display4Characters (display4CharactersInterrupt (wiredDisplay text12bang8))
      text1234 textLEFT 7).currentClock = 1 := by
  decide

/-- C31 (amended): `display4Characters` with a clock name that is none of
"SysTick", "WKT", "MRT0", "MRT1", "CTIMER0" programs no timer and leaves the
refresh clock binding as it was, but it still copies the four characters into
the display buffer, stores the refresh rate and resets the lit position to 0;
nothing else changes. -/
theorem C31_unknown_clock_keeps_only_binding (s : State) (inputSequence clockType : List Nat)
    (refreshRate : Int) (h : recognisedClock clockType = false) :
    display4Characters s inputSequence clockType refreshRate =
      { s with chrSequence := primed s.chrSequence inputSequence, cycleRate := refreshRate,
               currentDigit := 0 } ∧
    (display4Characters s inputSequence clockType refreshRate).currentClock = s.currentClock ∧
    window (display4Characters s inputSequence clockType refreshRate) =
      [cget inputSequence 0, cget inputSequence 1, cget inputSequence 2,
       cget inputSequence 3] := by
  unfold recognisedClock at h
  simp only [Bool.or_eq_false_iff] at h
  obtain ⟨⟨⟨⟨h0, h1⟩, h2⟩, h3⟩, h4⟩ := h
  have e : display4Characters s inputSequence clockType refreshRate =
      { s with chrSequence := primed s.chrSequence inputSequence, cycleRate := refreshRate,
               currentDigit := 0 } := by
    unfold display4Characters
    simp only []
    rw [if_neg (by simp [h0]), if_neg (by simp [h1]), if_neg (by simp [h2]),
      if_neg (by simp [h3]), if_neg (by simp [h4])]
    rfl
  rw [e]
  refine ⟨rfl, rfl, ?_⟩
  simp only [window]
  exact window_setAt4 _ _ _ _ _

theorem C31_unknown_clock_keeps_only_binding_witness :
    recognisedClock textLEFT = false ∧
    (display4Characters State.init text1234 textLEFT 7).currentClock =
      State.init.currentClock ∧
    window (display4Characters State.init text1234 textLEFT 7) = [49, 50, 51, 52] :=
  ⟨by decide,
    (C31_unknown_clock_keeps_only_binding State.init text1234 textLEFT 7 (by decide)).2.1,
    (C31_unknown_clock_keeps_only_binding State.init text1234 textLEFT 7 (by decide)).2.2⟩

/-- C32 (the claim as worded fails): a counter counts up on WKT (the step of a
tick is `+1`); `setupSevenSegmentCounter` is called again with the direction
string "LEFT": the stored direction becomes "DOWN" and the step of a tick is
`-1`, the direction configured before is not kept. -/
theorem C32_unknown_direction_selects_down :
    strcmpEq textLEFT strUP = false ∧ strcmpEq textLEFT strDOWN = false ∧
    counterOnWKT.countDirection = [85, 80, 0, 0] ∧
    counterDelta counterOnWKT = 1 ∧
    (setupSevenSegmentCounter counterOnWKT 0 strWKT textLEFT 1 0 false 1000 strMRT0
      1000).countDirection = [68, 79, 87, 78] ∧
    counterDelta
      (setupSevenSegmentCounter counterOnWKT 0 strWKT textLEFT 1 0 false 1000 strMRT0 1000)
      = -1 ∧
    (updateSevenSegmentCounterInterrupt
      (setupSevenSegmentCounter counterOnWKT 0 strWKT textLEFT 1 0 false 1000 strMRT0
        1000)).currentCount = -1 := by
  decide

/-- C32 (amended): `setupSevenSegmentCounter` with distinct clock names and a
direction string that is not "UP" stores "DOWN", whatever direction was
configured before: the step of the next counting tick is the negated new
increment. -/
theorem C32_direction_other_than_up_is_down (s : State) (clockStart : Int)
    (counterClock newCountDirection : List Nat) (newCountIncrement newStopValue : Int)
    (enableStopValue : Bool) (newCountRate : Int) (refreshClock : List Nat)
    (refreshRate : Int) (hclk : strcmpEq counterClock refreshClock = false)
    (hdir : strcmpEq newCountDirection strUP = false) :
    (setupSevenSegmentCounter s clockStart counterClock newCountDirection newCountIncrement
      newStopValue enableStopValue newCountRate refreshClock refreshRate).countDirection
      = [68, 79, 87, 78] ∧
    counterDelta
      (setupSevenSegmentCounter s clockStart counterClock newCountDirection newCountIncrement
        newStopValue enableStopValue newCountRate refreshClock refreshRate)
      = - newCountIncrement := by
  obtain ⟨k1, k2, a, b, c, d, e, h⟩ := setupSevenSegmentCounter_eq s clockStart counterClock
    newCountDirection newCountIncrement newStopValue enableStopValue newCountRate refreshClock
    refreshRate hclk
  rw [h]
  simp only [hdir, Bool.false_eq_true, if_false]
  exact ⟨rfl, rfl⟩

theorem C32_direction_other_than_up_is_down_witness :
    strcmpEq strWKT strMRT0 = false ∧ strcmpEq textLEFT strUP = false ∧
    (setupSevenSegmentCounter counterOnWKT 0 strWKT textLEFT 1 0 false 1000 strMRT0
      1000).countDirection = [68, 79, 87, 78] :=
  ⟨by decide, by decide,
    (C32_direction_other_than_up_is_down counterOnWKT 0 strWKT textLEFT 1 0 false 1000
      strMRT0 1000 (by decide) (by decide)).1⟩

/-- C33: an un-paused counting tick on a counter whose normalized count is 0,
whose direction is up and whose increment is 20001 leaves the normalized count
at 10001: 20001 is above 9999, the single correction subtracts 10000 once, and
the result is still outside 0..9999. -/
theorem C33_large_increment_escapes_range (s : State) (hp : s.pauseCounter = false)
    (hn : s.normalizedCount = 0) (hd : strcmpEq s.countDirection strUP = true)
    (hi : s.countIncrement = 20001) :
    (updateSevenSegmentCounterInterrupt s).normalizedCount = 10001 ∧
    ¬ (0 ≤ getSevenSegmentDisplayCount (updateSevenSegmentCounterInterrupt s) ∧
        getSevenSegmentDisplayCount (updateSevenSegmentCounterInterrupt s) ≤ 9999) := by
  have h : (updateSevenSegmentCounterInterrupt s).normalizedCount = 10001 := by
    rw [tick_of_running s hp]
    simp only [counterDelta, hd, if_true, hn, hi, wrapCount]
    decide
  unfold getSevenSegmentDisplayCount
  rw [h]
  exact ⟨rfl, by decide⟩

theorem C33_large_increment_escapes_range_witness :
    (setupSevenSegmentCounter State.init 0 strWKT strUP 20001 0 false 1000 strMRT0
      1000).normalizedCount = 0 ∧
    (updateSevenSegmentCounterInterrupt
      (setupSevenSegmentCounter State.init 0 strWKT strUP 20001 0 false 1000 strMRT0
        1000)).normalizedCount = 10001 :=
  ⟨by decide,
    (C33_large_increment_escapes_range
      (setupSevenSegmentCounter State.init 0 strWKT strUP 20001 0 false 1000 strMRT0 1000)
      (by decide) (by decide) (by decide) (by decide)).1⟩

theorem displayOptions_injective :
    ∀ i : Fin 40, ∀ j : Fin 40,
      displayOptions.getD i.val 0 = displayOptions.getD j.val 0 → i = j := by
  decide

/-- C39: the 40 entries of `inputCharacterOptions` are pairwise distinct and so
are the 40 masks of `displayOptions`: two table positions with the same
character, or with the same mask, are the same position, so two different
supported characters are displayed with different masks. -/
theorem C39_glyph_table_injective :
    inputCharacterOptions.length = 40 ∧ displayOptions.length = 40 ∧
    inputCharacterOptions.Nodup ∧ displayOptions.Nodup ∧
    (∀ i : Fin 40, ∀ j : Fin 40,
      inputCharacterOptions.getD i.val 0 = inputCharacterOptions.getD j.val 0 → i = j) ∧
    (∀ i : Fin 40, ∀ j : Fin 40,
      inputCharacterOptions.getD i.val 0 ≠ inputCharacterOptions.getD j.val 0 →
      displayOptions.getD i.val 0 ≠ displayOptions.getD j.val 0) ∧
    (∀ (s : State) (i j : Fin 40),
      inputCharacterOptions.getD i.val 0 ≠ inputCharacterOptions.getD j.val 0 →
      glyphLoop s (inputCharacterOptions.getD i.val 0) =
          displayValue s (displayOptions.getD i.val 0) ∧
        glyphLoop s (inputCharacterOptions.getD j.val 0) =
          displayValue s (displayOptions.getD j.val 0) ∧
        displayOptions.getD i.val 0 ≠ displayOptions.getD j.val 0) := by
  refine ⟨by decide, by decide, by decide, by decide, inputCharacterOptions_injective, ?_, ?_⟩
  · intro i j hne hm
    exact hne (by rw [displayOptions_injective i j hm])
  · intro s i j hne
    refine ⟨glyphLoop_at s i.val i.isLt, glyphLoop_at s j.val j.isLt, ?_⟩
    intro hm
    exact hne (by rw [displayOptions_injective i j hm])

theorem counterStop10_ticks (n : Nat) :
    (counterTicks n counterStop10).currentCount = 3 * (n : Int) ∧
    (counterTicks n counterStop10).pauseCounter = false ∧
    (counterTicks n counterStop10).countStopValue = 10 ∧
    (counterTicks n counterStop10).enableCountStopValue = true ∧
    (counterTicks n counterStop10).countIncrement = 3 ∧
    strcmpEq (counterTicks n counterStop10).countDirection strUP = true := by
  induction n with
  | zero => decide
  | succ n ih =>
    have hs : counterTicks (n + 1) counterStop10 =
        updateSevenSegmentCounterInterrupt (counterTicks n counterStop10) := by
      unfold counterTicks
      exact Function.iterate_succ_apply' _ _ _
    obtain ⟨h1, h2, h3, h4, h5, h6⟩ := ih
    rw [hs, tick_of_running _ h2]
    simp only [counterDelta, h6, if_true, h1, h3, h4, h5]
    refine ⟨by push_cast; ring, ?_, trivial, trivial, trivial, trivial⟩
    apply decide_eq_false
    omega

/-- C40: the counter set up at 0, counting up by 3 with the stop value 10
enabled never pauses under counting ticks alone: after `n` ticks the raw count
is `3 n`, which is never 10, and the pause flag is false; after 4 ticks the raw
count is 12, past the stop value. -/
theorem C40_stop_value_is_stepped_over (n : Nat) :
    counterStop10.startCount = 0 ∧ counterStop10.countStopValue = 10 ∧
    counterStop10.enableCountStopValue = true ∧
    (counterTicks n counterStop10).currentCount = 3 * (n : Int) ∧
    (counterTicks n counterStop10).pauseCounter = false ∧
    (counterTicks 4 counterStop10).currentCount = 12 ∧
    (counterTicks 4 counterStop10).pauseCounter = false ∧
    (counterTicks 3 counterStop10).currentCount < 10 ∧
    10 < (counterTicks 4 counterStop10).currentCount := by
  have h4 := counterStop10_ticks 4
  have h3 := counterStop10_ticks 3
  refine ⟨by decide, by decide, by decide, (counterStop10_ticks n).1,
    (counterStop10_ticks n).2.1, ?_, h4.2.1, ?_, ?_⟩
  · rw [h4.1]; norm_num
  · rw [h3.1]; norm_num
  · rw [h4.1]; norm_num

/-! ## Stale clock bindings and the stale overflow flag -/

theorem C39_glyph_table_injective_witness :
    inputCharacterOptions.getD 5 0 ≠ inputCharacterOptions.getD 28 0 ∧
    displayOptions.getD 5 0 ≠ displayOptions.getD 28 0 :=
  ⟨by decide, C39_glyph_table_injective.2.2.2.2.2.1 5 28 (by decide)⟩

/-- C35 (failing input): the display is refreshed from WKT at rate 1000; then
the carousel of the example program is configured with transition source "WKT",
transition rate 550000 and refresh source "MRT1" at 55000. WKT is programmed
with 55000, the refresh rate, because the WKT configuration still finds the
refresh role bound to WKT. In the same way, after a counter counting on WKT at
rate 1000, the carousel and the slider program WKT with 1000, the counting
rate, and after a refresh from SysTick a carousel with transition source
"SysTick" programs SysTick with 55000. -/
theorem C35_transition_source_gets_stale_rate :
    refreshOnWKT.currentClock = 1 ∧
    (sevenSegmentDisplayTextCarousel refreshOnWKT text12345678 8 strWKT 550000 true true
      strMRT1 55000).transitionClock = 1 ∧
    (sevenSegmentDisplayTextCarousel refreshOnWKT text12345678 8 strWKT 550000 true true
      strMRT1 55000).transitionRate = 550000 ∧
    (sevenSegmentDisplayTextCarousel refreshOnWKT text12345678 8 strWKT 550000 true true
      strMRT1 55000).currentClock = 3 ∧
    (sevenSegmentDisplayTextCarousel refreshOnWKT text12345678 8 strWKT 550000 true true
      strMRT1 55000).wktCount = 55000 ∧
    counterOnWKT.countClock = 1 ∧ counterOnWKT.countRate = 1000 ∧
    (sevenSegmentDisplayTextCarousel counterOnWKT text12345678 8 strWKT 550000 true true
      strMRT1 55000).wktCount = 1000 ∧
    (sevenSegmentDisplayTextSlider counterOnWKT text12345678 8 strWKT 850000 true true false
      strMRT1 55000).transitionClock = 1 ∧
    (sevenSegmentDisplayTextSlider counterOnWKT text12345678 8 strWKT 850000 true true false
      strMRT1 55000).wktCount = 1000 ∧
    (sevenSegmentDisplayTextCarousel (display4Characters State.init text1234 strSysTick 1000)
      text12345678 8 strSysTick 550000 true true strMRT1 55000).transitionClock = 0 ∧
    (sevenSegmentDisplayTextCarousel (display4Characters State.init text1234 strSysTick 1000)
      text12345678 8 strSysTick 550000 true true strMRT1 55000).sysTickPeriod = 55000 := by
  decide

/-! ## Segment and digit polarity -/

theorem segmentFold_at (m : Int) (i : Nat) (l : List Nat) (s : State) (hi : i ∈ l)
    (hl : l.Nodup)
    (h : ∀ j ∈ l, j ≠ i → s.segments (j : Int) ≠ s.segments (i : Int)) :
    (l.foldl
      (fun (st : State) (k : Nat) =>
        if ((m / 2 ^ k) % 2 = 1 ∧ st.sevenSegType = 1) ∨
            ((m / 2 ^ k) % 2 = 0 ∧ st.sevenSegType = 0)
        then gpioSet st (st.segments k) else gpioClr st (st.segments k)) s).gpioLevel
        (s.segments (i : Int)) =
      decide (((m / 2 ^ i) % 2 = 1 ∧ s.sevenSegType = 1) ∨
        ((m / 2 ^ i) % 2 = 0 ∧ s.sevenSegType = 0)) := by
  induction l generalizing s with
  | nil => cases hi
  | cons a l ih =>
    simp only [List.foldl]
    rcases List.mem_cons.mp hi with hia | hil
    · subst hia
      have hrest : ∀ j ∈ l, s.segments (j : Int) ≠ s.segments (i : Int) := by
        intro j hj
        apply h j (List.mem_cons_of_mem i hj)
        intro hji
        subst hji
        exact (List.nodup_cons.mp hl).1 hj
      split_ifs with hc
      · rw [(segmentFold_level m l (gpioSet s (s.segments i)) (s.segments i) hrest).2]
        simp only [gpioSet, setAt]
        rw [if_pos trivial]
        exact (decide_eq_true hc).symm
      · rw [(segmentFold_level m l (gpioClr s (s.segments i)) (s.segments i) hrest).2]
        simp only [gpioClr, setAt]
        rw [if_pos trivial]
        exact (decide_eq_false hc).symm
    · have hrest : ∀ j ∈ l, j ≠ i → s.segments (j : Int) ≠ s.segments (i : Int) :=
        fun j hj => h j (List.mem_cons_of_mem a hj)
      split_ifs with hc
      · exact ih (gpioSet s (s.segments a)) hil (List.nodup_cons.mp hl).2 hrest
      · exact ih (gpioClr s (s.segments a)) hil (List.nodup_cons.mp hl).2 hrest

/-! ## Positions read by the carousel interrupt -/

theorem carouselReadLoop_window (q : State) :
    [(carouselWindowLoop q).1 3, (carouselWindowLoop q).1 2, (carouselWindowLoop q).1 1,
     (carouselWindowLoop q).1 0] = (carouselReadLoop q).1.map q.carouselSequence := by
  simp only [carouselWindowLoop, carouselReadLoop, List.foldl]
  split_ifs <;> simp [setAt]

theorem carouselTick_reads (s : State) :
    window (sevenSegmentCarouselInterrupt s) =
      (carouselReadIndices s).map s.carouselSequence := by
  rw [carouselTick_eq]
  exact carouselReadLoop_window { s with transitionIndex := carouselAdvanced s }

theorem carouselReadLoop_wrapped (q : State) (h0 : 0 ≤ q.transitionIndex)
    (h1 : q.transitionIndex ≤ q.carouselSequenceLength) (hM : 3 ≤ q.carouselSequenceLength) :
    ∀ j ∈ (carouselReadLoop q).1, 0 ≤ j ∧ j ≤ q.carouselSequenceLength := by
  intro j hj
  simp only [carouselReadLoop, List.foldl] at hj
  split_ifs at hj <;>
    simp only [List.nil_append, List.cons_append, List.mem_cons, List.mem_singleton,
      List.not_mem_nil, or_false] at hj <;>
    omega

theorem carouselReadLoop_straight (q : State) (h0 : 0 ≤ q.transitionIndex)
    (h1 : q.transitionIndex + 3 ≤ q.carouselSequenceLength) :
    ∀ j ∈ (carouselReadLoop q).1, 0 ≤ j ∧ j ≤ q.transitionIndex + 3 := by
  intro j hj
  simp only [carouselReadLoop, List.foldl] at hj
  split_ifs at hj <;>
    simp only [List.nil_append, List.cons_append, List.mem_cons, List.mem_singleton,
      List.not_mem_nil, or_false] at hj <;>
    omega

theorem carouselWritten (buf : Int → Nat) (text : List Nat) (continuous padded : Bool)
    (j : Nat) (hj : (j : Int) ≤ carouselLastWritten text.length continuous padded) :
    carouselBufferAfter buf text text.length continuous padded (j : Int) =
      (if continuous then carouselWorking text padded else oneShotWorking text padded).getD
        j 0 := by
  cases continuous
  · simp only [Bool.false_eq_true, if_false]
    apply carouselBufferAfter_oneShot
    unfold carouselLastWritten at hj
    unfold oneShotWorking
    cases padded <;> simp at hj ⊢ <;> omega
  · simp only [if_true]
    apply carouselBufferAfter_continuous
    unfold carouselLastWritten at hj
    unfold carouselWorking
    cases padded <;> simp at hj ⊢ <;> omega

/-! ## The page index of the slider -/

theorem sliderCall_inRange (c : SliderCall) (s : State) (h : SliderInRange s) :
    SliderInRange (c.apply s) ∧ (c.apply s).sliderSequenceLength = s.sliderSequenceLength := by
  obtain ⟨h1, h2, h3, h4⟩ := h
  cases c with
  | tick =>
    obtain ⟨f1, _, _, f4, _⟩ := sliderTick_fields s
    refine ⟨?_, f1⟩
    unfold SliderInRange
    simp only [SliderCall.apply]
    rw [f1, f4]
    unfold sliderAdvanced
    split_ifs <;> refine ⟨?_, ?_, ?_, h4⟩ <;> omega
  | pause => exact ⟨⟨h1, h2, h3, h4⟩, rfl⟩
  | togglePause => exact ⟨⟨h1, h2, h3, h4⟩, rfl⟩
  | run => exact ⟨⟨h1, h2, h3, h4⟩, rfl⟩
  | restart =>
    refine ⟨⟨?_, ?_, ?_, h4⟩, rfl⟩
    · exact dvd_zero _
    · exact le_refl _
    · show (0 : Int) ≤ s.sliderSequenceLength - 4
      omega

theorem runSliderCalls_inRange (calls : List SliderCall) (s : State) (h : SliderInRange s) :
    SliderInRange (runSliderCalls s calls) ∧
    (runSliderCalls s calls).sliderSequenceLength = s.sliderSequenceLength := by
  induction calls generalizing s with
  | nil => exact ⟨h, rfl⟩
  | cons c cs ih =>
    obtain ⟨h1, h2⟩ := sliderCall_inRange c s h
    obtain ⟨h3, h4⟩ := ih (c.apply s) h1
    exact ⟨h3, h4.trans h2⟩

/-- C38: after `sevenSegmentDisplayTextSlider` (distinct clock names) on a text
of which at least one character is kept, and after any sequence of transition
ticks and pause, toggle, run and restart calls, in continuous and in one-shot
mode, the page index is a multiple of 4 between 0 and the working length minus
4, the working length is the configured one, the positions the next tick reads
are within 0..length-1, and the window that tick writes is the working
sequence at exactly these positions. -/
theorem C38_slider_page_index_in_range (s : State) (text newTransitionClock : List Nat)
    (transitionSpeed : Int)
    (newEnableContinousCycle newEnablePadding ignoreSingleSpaces : Bool)
    (refreshClock : List Nat) (refreshRate : Int) (calls : List SliderCall)
    (hclk : strcmpEq newTransitionClock refreshClock = false)
    (hkeep : 0 < (sliderKept text ignoreSingleSpaces).length) :
    (4 : Int) ∣ (runSliderCalls
      (sevenSegmentDisplayTextSlider s text text.length newTransitionClock transitionSpeed
        newEnableContinousCycle newEnablePadding ignoreSingleSpaces refreshClock refreshRate)
      calls).sliderTransitionIndex ∧
    0 ≤ (runSliderCalls
      (sevenSegmentDisplayTextSlider s text text.length newTransitionClock transitionSpeed
        newEnableContinousCycle newEnablePadding ignoreSingleSpaces refreshClock refreshRate)
      calls).sliderTransitionIndex ∧
    (runSliderCalls
      (sevenSegmentDisplayTextSlider s text text.length newTransitionClock transitionSpeed
        newEnableContinousCycle newEnablePadding ignoreSingleSpaces refreshClock refreshRate)
      calls).sliderTransitionIndex ≤
      (runSliderCalls
        (sevenSegmentDisplayTextSlider s text text.length newTransitionClock transitionSpeed
          newEnableContinousCycle newEnablePadding ignoreSingleSpaces refreshClock refreshRate)
        calls).sliderSequenceLength - 4 ∧
    (runSliderCalls
      (sevenSegmentDisplayTextSlider s text text.length newTransitionClock transitionSpeed
        newEnableContinousCycle newEnablePadding ignoreSingleSpaces refreshClock refreshRate)
      calls).sliderSequenceLength =
      (sevenSegmentDisplayTextSlider s text text.length newTransitionClock transitionSpeed
        newEnableContinousCycle newEnablePadding ignoreSingleSpaces refreshClock
        refreshRate).sliderSequenceLength ∧
    (∀ j ∈ sliderReadIndices (runSliderCalls
        (sevenSegmentDisplayTextSlider s text text.length newTransitionClock transitionSpeed
          newEnableContinousCycle newEnablePadding ignoreSingleSpaces refreshClock refreshRate)
        calls),
      0 ≤ j ∧ j ≤ (runSliderCalls
        (sevenSegmentDisplayTextSlider s text text.length newTransitionClock transitionSpeed
          newEnableContinousCycle newEnablePadding ignoreSingleSpaces refreshClock refreshRate)
        calls).sliderSequenceLength - 1) ∧
    window (sevenSegmentSliderInterrupt (runSliderCalls
        (sevenSegmentDisplayTextSlider s text text.length newTransitionClock transitionSpeed
          newEnableContinousCycle newEnablePadding ignoreSingleSpaces refreshClock refreshRate)
        calls)) =
      (sliderReadIndices (runSliderCalls
        (sevenSegmentDisplayTextSlider s text text.length newTransitionClock transitionSpeed
          newEnableContinousCycle newEnablePadding ignoreSingleSpaces refreshClock refreshRate)
        calls)).map
        (runSliderCalls
          (sevenSegmentDisplayTextSlider s text text.length newTransitionClock transitionSpeed
            newEnableContinousCycle newEnablePadding ignoreSingleSpaces refreshClock
            refreshRate)
          calls).sliderSequence := by
  obtain ⟨f1, _, f3, _, _⟩ := sevenSegmentDisplayTextSlider_fields s text text.length
    newTransitionClock transitionSpeed newEnableContinousCycle newEnablePadding
    ignoreSingleSpaces refreshClock refreshRate hclk
  have hlen := (sliderAfter_facts s.sliderSequence text newEnablePadding
    ignoreSingleSpaces).1
  rw [← f1] at hlen
  generalize sevenSegmentDisplayTextSlider s text text.length newTransitionClock
    transitionSpeed newEnableContinousCycle newEnablePadding ignoreSingleSpaces refreshClock
    refreshRate = c at f1 f3 hlen ⊢
  have hc : SliderInRange c := by
    unfold SliderInRange
    rw [f3, hlen]
    have hq : 1 ≤ ((sliderKept text ignoreSingleSpaces).length + 3) / 4 := by omega
    cases newEnablePadding <;> simp <;> omega
  obtain ⟨⟨h1, h2, h3, h4⟩, h5⟩ := runSliderCalls_inRange calls c hc
  generalize runSliderCalls c calls = r at h1 h2 h3 h4 h5 ⊢
  refine ⟨h1, h2, h3, h5, ?_, ?_⟩
  · intro j hj
    simp only [sliderReadIndices, List.map, List.mem_cons, List.mem_singleton,
      List.not_mem_nil, or_false] at hj
    omega
  · rw [sliderTick_window]
    simp only [sliderReadIndices, sliderPage, List.map]
    simp only [Int.add_comm]

theorem C38_slider_page_index_in_range_witness :
    strcmpEq strWKT strMRT0 = false ∧ 0 < (sliderKept textEECS false).length ∧
    (4 : Int) ∣ (runSliderCalls
      (sevenSegmentDisplayTextSlider State.init textEECS textEECS.length strWKT 850000 true
        true false strMRT0 55000)
      [SliderCall.tick, SliderCall.pause, SliderCall.tick, SliderCall.restart,
        SliderCall.tick]).sliderTransitionIndex :=
  ⟨by decide, by decide,
    (C38_slider_page_index_in_range State.init textEECS strWKT 850000 true true false
      strMRT0 55000
      [SliderCall.tick, SliderCall.pause, SliderCall.tick, SliderCall.restart,
        SliderCall.tick] (by decide) (by decide)).1⟩

/-! ## The one-element working buffers -/

theorem mem_shiftedRange (n : Nat) (p j : Int) :
    j ∈ (List.range n).map (fun (i : Nat) => (i : Int) + p) ↔ p ≤ j ∧ j < p + n := by
  simp only [List.mem_map, List.mem_range]
  constructor
  · rintro ⟨i, hi, rfl⟩
    omega
  · intro h
    exact ⟨(j - p).toNat, by omega, by omega⟩

theorem mem_carouselWriteIndices (L : Int) (continuous padded : Bool) (j : Int) :
    j ∈ carouselWriteIndices L continuous padded ↔
      ((padded = true ∧ 0 ≤ j ∧ j < 4) ∨
       ((if padded then 4 else 0) ≤ j ∧ j < (if padded then 4 else 0) + (L.toNat : Int)) ∨
       (padded = true ∧ continuous = false ∧ 4 + L ≤ j ∧ j < 4 + L + 4) ∨
       (continuous = true ∧ padded = false ∧ j = L)) := by
  unfold carouselWriteIndices
  simp only [List.mem_append, mem_shiftedRange]
  cases continuous <;> cases padded <;>
    simp only [Bool.false_eq_true, Bool.true_eq_false, if_false, if_true, and_self, and_true, and_false, false_and,
      true_and, List.mem_cons, List.mem_singleton, List.not_mem_nil, or_false, false_or,
      List.map, or_assoc] <;>
    omega

theorem carouselWriteIndices_frame (buf : Int → Nat) (text : List Nat) (L : Int)
    (continuous padded : Bool) (j : Int)
    (hj : j ∉ carouselWriteIndices L continuous padded) :
    carouselBufferAfter buf text L continuous padded j = buf j := by
  rw [mem_carouselWriteIndices] at hj
  unfold carouselBufferAfter
  cases continuous <;> cases padded <;>
    simp only [Bool.false_eq_true, Bool.true_eq_false, if_false, if_true, and_self, and_true, and_false, false_and,
      true_and, copyLoop_apply, writeBlanks_apply, setAt] at hj ⊢ <;>
    split_ifs <;> first | rfl | omega

theorem carouselWriteIndices_assigned (buf1 buf2 : Int → Nat) (text : List Nat) (L : Int)
    (continuous padded : Bool) (j : Int)
    (hj : j ∈ carouselWriteIndices L continuous padded) :
    carouselBufferAfter buf1 text L continuous padded j =
      carouselBufferAfter buf2 text L continuous padded j := by
  rw [mem_carouselWriteIndices] at hj
  unfold carouselBufferAfter
  cases continuous <;> cases padded <;>
    simp only [Bool.false_eq_true, Bool.true_eq_false, if_false, if_true, and_self, and_true, and_false, false_and,
      true_and, copyLoop_apply, writeBlanks_apply, setAt] at hj ⊢ <;>
    split_ifs <;> first | rfl | (exfalso; simp only [false_or, or_false] at hj; omega)

theorem withinArray_one (j : Int) : withinArray 1 j = true ↔ j = 0 := by
  unfold withinArray
  rw [decide_eq_true_iff]
  omega

theorem carouselReadIndices_outside (s : State) :
    ∃ j ∈ carouselReadIndices s, withinArray carouselSequenceSize j = false := by
  by_contra hall
  have h0 : ∀ j ∈ carouselReadIndices s, j = 0 := by
    intro j hj
    by_contra hne
    apply hall
    refine ⟨j, hj, ?_⟩
    cases hw : withinArray carouselSequenceSize j
    · rfl
    · exact absurd ((withinArray_one j).mp hw) hne
  simp only [carouselReadIndices, carouselReadLoop, List.foldl] at h0
  generalize carouselAdvanced s = a at h0
  split_ifs at h0 <;>
    simp only [List.nil_append, List.cons_append, List.mem_cons, List.mem_singleton,
      List.not_mem_nil, or_false, forall_eq_or_imp, forall_eq] at h0 <;>
    omega

theorem sliderReadIndices_outside (s : State) :
    ∃ j ∈ sliderReadIndices s, withinArray sliderSequenceSize j = false := by
  by_cases h : s.sliderTransitionIndex = 0
  · refine ⟨1 + s.sliderTransitionIndex, by simp [sliderReadIndices], ?_⟩
    rw [h]
    decide
  · refine ⟨0 + s.sliderTransitionIndex, by simp [sliderReadIndices], ?_⟩
    cases hw : withinArray sliderSequenceSize (0 + s.sliderTransitionIndex)
    · rfl
    · have := (withinArray_one _).mp hw
      omega

/-- C9 (failing input): `carouselSequence` has one element, but the
continuous, unpadded configuration over a text of length `L` assigns every
position from 0 to `L` (the text and the trailing blank); only position 0 is
inside the array. These are exactly the positions the call assigns: every
other position keeps its content, and the content of each of them after the
call does not depend on the state before. For "1234" the positions are 0..4,
so the window primed from positions 0..3 is read from three bytes that lie
behind the array. -/
theorem C9_unpadded_configure_writes_behind_array (L : Nat) :
    carouselSequenceSize = 1 ∧
    (∀ j : Int, withinArray carouselSequenceSize j = true ↔ j = 0) ∧
    (∀ j : Int, j ∈ carouselWriteIndices L true false ↔ 0 ≤ j ∧ j ≤ L) ∧
    (∀ (s : State) (text : List Nat) (j : Int), j ∉ carouselWriteIndices L true false →
      (sevenSegmentDisplayTextCarousel s text L strWKT 550000 true false strMRT1
        55000).carouselSequence j = s.carouselSequence j) ∧
    (∀ (s1 s2 : State) (text : List Nat) (j : Int), j ∈ carouselWriteIndices L true false →
      (sevenSegmentDisplayTextCarousel s1 text L strWKT 550000 true false strMRT1
        55000).carouselSequence j =
      (sevenSegmentDisplayTextCarousel s2 text L strWKT 550000 true false strMRT1
        55000).carouselSequence j) ∧
    carouselWriteIndices 4 true false = [0, 1, 2, 3, 4] ∧
    (carouselWriteIndices 4 true false).filter (withinArray carouselSequenceSize) = [0] := by
  have hclk : strcmpEq strWKT strMRT1 = false := by decide
  refine ⟨rfl, withinArray_one, ?_, ?_, ?_, by decide, by decide⟩
  · intro j
    rw [mem_carouselWriteIndices]
    simp only [Bool.false_eq_true, if_false, false_and, and_false, true_and, or_false,
      false_or, Int.toNat_ofNat]
    omega
  · intro s text j hj
    rw [(sevenSegmentDisplayTextCarousel_fields s text L strWKT 550000 true false strMRT1
      55000 hclk).2.2.2.2.1]
    exact carouselWriteIndices_frame _ _ _ _ _ _ hj
  · intro s1 s2 text j hj
    rw [(sevenSegmentDisplayTextCarousel_fields s1 text L strWKT 550000 true false strMRT1
      55000 hclk).2.2.2.2.1,
      (sevenSegmentDisplayTextCarousel_fields s2 text L strWKT 550000 true false strMRT1
      55000 hclk).2.2.2.2.1]
    exact carouselWriteIndices_assigned _ _ _ _ _ _ _ hj

/-- C10 (failing input): the continuous, padded configuration over a text of
length `L` assigns every position from 0 to `L + 3` of the one-element array
`carouselSequence`: the four lead-in blanks and the text. These are exactly
the positions the call assigns. For the "12345678" of the example program they
are the positions 0..11, of which only position 0 is inside the array, so the
lead-in window is not kept in the array. -/
theorem C10_padded_configure_writes_behind_array (L : Nat) :
    carouselSequenceSize = 1 ∧
    (∀ j : Int, j ∈ carouselWriteIndices L true true ↔ 0 ≤ j ∧ j ≤ (L : Int) + 3) ∧
    (∀ (s : State) (text : List Nat) (j : Int), j ∉ carouselWriteIndices L true true →
      (sevenSegmentDisplayTextCarousel s text L strWKT 550000 true true strMRT1
        55000).carouselSequence j = s.carouselSequence j) ∧
    (∀ (s1 s2 : State) (text : List Nat) (j : Int), j ∈ carouselWriteIndices L true true →
      (sevenSegmentDisplayTextCarousel s1 text L strWKT 550000 true true strMRT1
        55000).carouselSequence j =
      (sevenSegmentDisplayTextCarousel s2 text L strWKT 550000 true true strMRT1
        55000).carouselSequence j) ∧
    carouselWriteIndices 8 true true = [0, 1, 2, 3, 4, 5, 6, 7, 8, 9, 10, 11] ∧
    (carouselWriteIndices 8 true true).filter (withinArray carouselSequenceSize) = [0] ∧
    ((carouselWriteIndices 8 true true).filter
      (fun j => !withinArray carouselSequenceSize j)).length = 11 := by
  have hclk : strcmpEq strWKT strMRT1 = false := by decide
  refine ⟨rfl, ?_, ?_, ?_, by decide, by decide, by decide⟩
  · intro j
    rw [mem_carouselWriteIndices]
    simp only [Bool.true_eq_false, if_true, false_and, and_false, true_and, or_false,
      Int.toNat_ofNat]
    omega
  · intro s text j hj
    rw [(sevenSegmentDisplayTextCarousel_fields s text L strWKT 550000 true true strMRT1
      55000 hclk).2.2.2.2.1]
    exact carouselWriteIndices_frame _ _ _ _ _ _ hj
  · intro s1 s2 text j hj
    rw [(sevenSegmentDisplayTextCarousel_fields s1 text L strWKT 550000 true true strMRT1
      55000 hclk).2.2.2.2.1,
      (sevenSegmentDisplayTextCarousel_fields s2 text L strWKT 550000 true true strMRT1
      55000 hclk).2.2.2.2.1]
    exact carouselWriteIndices_assigned _ _ _ _ _ _ _ hj

/-- C11 (failing input): the one-shot configuration over a text of length `L`
assigns the positions 0..`L - 1` of the one-element array `carouselSequence`
when unpadded and the positions 0..`L + 7` when padded, and these are exactly
the positions the call assigns. For "1234" unpadded they are the positions
0..3: the whole window of the first tick except its first character lies
behind the array. -/
theorem C11_one_shot_configure_writes_behind_array (L : Nat) :
    carouselSequenceSize = 1 ∧
    (∀ j : Int, j ∈ carouselWriteIndices L false false ↔ 0 ≤ j ∧ j < (L : Int)) ∧
    (∀ j : Int, j ∈ carouselWriteIndices L false true ↔ 0 ≤ j ∧ j ≤ (L : Int) + 7) ∧
    (∀ (s : State) (text : List Nat) (padded : Bool) (j : Int),
      j ∉ carouselWriteIndices L false padded →
      (sevenSegmentDisplayTextCarousel s text L strWKT 550000 false padded strMRT1
        55000).carouselSequence j = s.carouselSequence j) ∧
    (∀ (s1 s2 : State) (text : List Nat) (padded : Bool) (j : Int),
      j ∈ carouselWriteIndices L false padded →
      (sevenSegmentDisplayTextCarousel s1 text L strWKT 550000 false padded strMRT1
        55000).carouselSequence j =
      (sevenSegmentDisplayTextCarousel s2 text L strWKT 550000 false padded strMRT1
        55000).carouselSequence j) ∧
    carouselWriteIndices 4 false false = [0, 1, 2, 3] ∧
    (carouselWriteIndices 4 false false).filter (withinArray carouselSequenceSize) = [0] := by
  have hclk : strcmpEq strWKT strMRT1 = false := by decide
  refine ⟨rfl, ?_, ?_, ?_, ?_, by decide, by decide⟩
  rotate_left 2
  · intro s text padded j hj
    rw [(sevenSegmentDisplayTextCarousel_fields s text L strWKT 550000 false padded strMRT1
      55000 hclk).2.2.2.2.1]
    exact carouselWriteIndices_frame _ _ _ _ _ _ hj
  · intro s1 s2 text padded j hj
    rw [(sevenSegmentDisplayTextCarousel_fields s1 text L strWKT 550000 false padded strMRT1
      55000 hclk).2.2.2.2.1,
      (sevenSegmentDisplayTextCarousel_fields s2 text L strWKT 550000 false padded strMRT1
      55000 hclk).2.2.2.2.1]
    exact carouselWriteIndices_assigned _ _ _ _ _ _ _ hj
  · intro j
    rw [mem_carouselWriteIndices]
    simp only [Bool.false_eq_true, if_false, false_and, and_false, or_false, false_or,
      Int.toNat_ofNat]
    omega
  · intro j
    rw [mem_carouselWriteIndices]
    simp only [Bool.true_eq_false, if_true, false_and, and_false, true_and, or_false,
      Int.toNat_ofNat]
    omega

/-- C12 (failing input): `restartSevenSegmentDisplayCarousel` sets the scroll
index to -1 and clears both flags, so the next tick uses index 0 and its
window is the buffer at the positions it reads; but that tick reads outside
the one-element array `carouselSequence` whatever the state: for
the paused carousel over "1234" it reads the positions 0..3, of which 1..3 lie
behind the array, where the restart has just stored its two flags. -/
theorem C12_tick_after_restart_reads_behind_array (s : State) :
    (restartSevenSegmentDisplayCarousel s).transitionIndex = -1 ∧
    (restartSevenSegmentDisplayCarousel s).carouselOverflow = false ∧
    (restartSevenSegmentDisplayCarousel s).pauseCarouselTransition = false ∧
    carouselAdvanced (restartSevenSegmentDisplayCarousel s) = 0 ∧
    window (sevenSegmentCarouselInterrupt (restartSevenSegmentDisplayCarousel s)) =
      (carouselReadIndices (restartSevenSegmentDisplayCarousel s)).map s.carouselSequence ∧
    (∃ j ∈ carouselReadIndices (restartSevenSegmentDisplayCarousel s),
      withinArray carouselSequenceSize j = false) ∧
    carouselReadIndices (restartSevenSegmentDisplayCarousel carousel1234Paused) =
      [0, 1, 2, 3] ∧
    (carouselReadIndices (restartSevenSegmentDisplayCarousel carousel1234Paused)).filter
      (withinArray carouselSequenceSize) = [0] := by
  refine ⟨rfl, rfl, rfl, ?_, carouselTick_reads _, carouselReadIndices_outside _, by decide,
    by decide⟩
  simp [carouselAdvanced, restartSevenSegmentDisplayCarousel]

/-- C36 (failing input): a one-shot carousel over "1234" is configured and
ticked, then the carousel of the example program is configured. Both
configurations assign position 2 (and 1 and 3) of the one-element array
`carouselSequence`; the second one assigns the positions 0..11 (the positions
whose content after the call does not depend on the content before). Whatever
the overflow and pause flags hold afterwards, the first tick reads either the
positions 0..3 or the positions -1..2, in both cases three positions outside
the array, and its window is the buffer at these positions. -/
theorem C36_reconfigure_writes_behind_array :
    carouselSequenceSize = 1 ∧
    carouselWriteIndices 4 false false = [0, 1, 2, 3] ∧
    carouselWriteIndices 8 true true = [0, 1, 2, 3, 4, 5, 6, 7, 8, 9, 10, 11] ∧
    withinArray carouselSequenceSize 1 = false ∧
    withinArray carouselSequenceSize 2 = false ∧
    withinArray carouselSequenceSize 3 = false ∧
    reconfiguredCarousel.transitionIndex = -1 ∧
    reconfiguredCarousel.carouselSequenceLength = 11 ∧
    (∀ ov pz : Bool,
      carouselReadIndices
          { reconfiguredCarousel with carouselOverflow := ov, pauseCarouselTransition := pz }
        = (if ov = false ∧ pz = false then [0, 1, 2, 3] else [-1, 0, 1, 2])) ∧
    (∀ ov pz : Bool,
      window (sevenSegmentCarouselInterrupt
          { reconfiguredCarousel with carouselOverflow := ov, pauseCarouselTransition := pz })
        = (carouselReadIndices
          { reconfiguredCarousel with carouselOverflow := ov, pauseCarouselTransition := pz }).map
            reconfiguredCarousel.carouselSequence) ∧
    (List.range 16).filter
      (fun (j : Nat) =>
        (sevenSegmentDisplayTextCarousel
          { finishedOneShot with carouselSequence := fun _ => 0 } text12345678 8 strWKT
          550000 true true strMRT1 55000).carouselSequence (j : Int) ==
        (sevenSegmentDisplayTextCarousel
          { finishedOneShot with carouselSequence := fun _ => 1 } text12345678 8 strWKT
          550000 true true strMRT1 55000).carouselSequence (j : Int))
      = [0, 1, 2, 3, 4, 5, 6, 7, 8, 9, 10, 11] := by
  decide

/-- C14 (failing input): `sliderSequence` has one element. For the text
"A B C D  E F  G" with `ignoreSingleSpaces`, without padding, the copy loop and
the fill loop assign the positions 0..11 (these are exactly the positions whose
content after the call does not depend on the content before); only position 0
is inside the array, so the working sequence "ABCD  EF  G" is not kept in the
array. -/
theorem C14_slider_configure_writes_behind_array :
    sliderSequenceSize = 1 ∧
    sliderWriteIndices textABCDEFG 15 false true = [0, 1, 2, 3, 4, 5, 6, 7, 8, 9, 10, 11] ∧
    (sliderCopyWrites textABCDEFG 15 0 true).2 = 4 ∧
    (List.range 20).filter
      (fun (j : Nat) =>
        (sevenSegmentDisplayTextSlider { State.init with sliderSequence := fun _ => 0 }
          textABCDEFG 15 strWKT 850000 true false true strMRT0 55000).sliderSequence (j : Int)
        == (sevenSegmentDisplayTextSlider { State.init with sliderSequence := fun _ => 1 }
          textABCDEFG 15 strWKT 850000 true false true strMRT0 55000).sliderSequence (j : Int))
      = [0, 1, 2, 3, 4, 5, 6, 7, 8, 9, 10, 11] ∧
    (sliderWriteIndices textABCDEFG 15 false true).filter (withinArray sliderSequenceSize)
      = [0] := by
  decide

/-- C15 (failing input): for the one-character text "A", without padding, the
effective length is 4 = 0 + 4 * ceil(1 / 4), and the fill loop assigns the
blanks to the positions 1, 2, 3 of the one-element array `sliderSequence`: all
three lie behind the array. -/
theorem C15_fill_loop_writes_behind_array :
    sliderSequenceSize = 1 ∧
    (sevenSegmentDisplayTextSlider State.init textA 1 strWKT 850000 true false false strMRT0
      55000).sliderSequenceLength = 4 ∧
    sliderWriteIndices textA 1 false false = [0, 1, 2, 3] ∧
    (List.range 8).filter
      (fun (j : Nat) =>
        (sevenSegmentDisplayTextSlider { State.init with sliderSequence := fun _ => 0 }
          textA 1 strWKT 850000 true false false strMRT0 55000).sliderSequence (j : Int)
        == (sevenSegmentDisplayTextSlider { State.init with sliderSequence := fun _ => 1 }
          textA 1 strWKT 850000 true false false strMRT0 55000).sliderSequence (j : Int))
      = [0, 1, 2, 3] ∧
    (sliderWriteIndices textA 1 false false).filter
      (fun j => !withinArray sliderSequenceSize j) = [1, 2, 3] := by
  decide

/-- C17 (failing input): the window a slider transition tick writes is the
buffer at the four positions it reads, and in every state one of them is
outside the one-element array `sliderSequence`. For the one-shot, unpadded
slider over "1234" (one page) the configuration assigns the positions 0..3;
the first tick reads the positions 0..3, sets the pause flag and keeps the
page index at 0, and the second tick reads the positions 0..3 again: three of
the four characters of the page are read from behind the array, after the
pause flag was stored. -/
theorem C17_one_page_slider_reads_behind_array (s : State) :
    sliderSequenceSize = 1 ∧
    window (sevenSegmentSliderInterrupt s) = (sliderReadIndices s).map s.sliderSequence ∧
    (∃ j ∈ sliderReadIndices s, withinArray sliderSequenceSize j = false) ∧
    sliderWriteIndices text1234 4 false false = [0, 1, 2, 3] ∧
    (List.range 8).filter
      (fun (j : Nat) =>
        (sevenSegmentDisplayTextSlider { State.init with sliderSequence := fun _ => 0 }
          text1234 4 strWKT 850000 false false false strMRT0 55000).sliderSequence (j : Int)
        == (sevenSegmentDisplayTextSlider { State.init with sliderSequence := fun _ => 1 }
          text1234 4 strWKT 850000 false false false strMRT0 55000).sliderSequence (j : Int))
      = [0, 1, 2, 3] ∧
    sliderOnePage.pauseSliderTransition = false ∧
    sliderReadIndices sliderOnePage = [0, 1, 2, 3] ∧
    (sevenSegmentSliderInterrupt sliderOnePage).pauseSliderTransition = true ∧
    (sevenSegmentSliderInterrupt sliderOnePage).sliderTransitionIndex = 0 ∧
    sliderReadIndices (sevenSegmentSliderInterrupt sliderOnePage) = [0, 1, 2, 3] ∧
    (sliderReadIndices (sevenSegmentSliderInterrupt sliderOnePage)).filter
      (withinArray sliderSequenceSize) = [0] := by
  refine ⟨rfl, ?_, sliderReadIndices_outside s, by decide, by decide, by decide, by decide,
    by decide, by decide, by decide, by decide⟩
  rw [sliderTick_window]
  simp only [sliderReadIndices, sliderPage, List.map]
  simp only [Int.add_comm]

/-! ## Segment and digit levels -/

theorem enableFold_keeps (l : List Int) (s : State) (pin : Int)
    (h : s.gpioLevel pin = enablingLevel s) :
    (l.foldl
      (fun (st : State) (i : Int) =>
        if st.digits i ≠ -1 then
          if st.sevenSegType = 1 then gpioClr st (st.digits i) else gpioSet st (st.digits i)
        else st) s).gpioLevel pin = enablingLevel s := by
  induction l generalizing s with
  | nil => exact h
  | cons a l ih =>
    simp only [List.foldl]
    split_ifs with hb ht
    · exact ih (gpioClr s (s.digits a)) (by
        simp only [gpioClr, setAt, enablingLevel, ht, if_true] at h ⊢
        split_ifs
        · rfl
        · exact h)
    · exact ih (gpioSet s (s.digits a)) (by
        simp only [gpioSet, setAt, enablingLevel, ht, if_false] at h ⊢
        split_ifs
        · rfl
        · exact h)
    · exact ih s h

theorem enableFold_sets (l : List Int) (s : State) (j : Int) (hj : j ∈ l)
    (hb : s.digits j ≠ -1) :
    (l.foldl
      (fun (st : State) (i : Int) =>
        if st.digits i ≠ -1 then
          if st.sevenSegType = 1 then gpioClr st (st.digits i) else gpioSet st (st.digits i)
        else st) s).gpioLevel (s.digits j) = enablingLevel s := by
  induction l generalizing s with
  | nil => cases hj
  | cons a l ih =>
    simp only [List.foldl]
    rcases List.mem_cons.mp hj with hja | hjl
    · subst hja
      rw [if_pos hb]
      split_ifs with ht
      · exact enableFold_keeps l (gpioClr s (s.digits j)) (s.digits j) (by
          simp [gpioClr, setAt, enablingLevel, ht])
      · exact enableFold_keeps l (gpioSet s (s.digits j)) (s.digits j) (by
          simp [gpioSet, setAt, enablingLevel, ht])
    · split_ifs with ha ht
      · exact ih (gpioClr s (s.digits a)) hjl hb
      · exact ih (gpioSet s (s.digits a)) hjl hb
      · exact ih s hjl hb

theorem enableDigits_enables (s : State) (j : Int) (hj : j ∈ [0, 1, 2, 3])
    (hb : s.digits j ≠ -1) :
    (enableDigits s).gpioLevel (s.digits j) = enablingLevel s :=
  enableFold_sets [0, 1, 2, 3] s j hj hb

/-- C34 (the claim as worded fails): on the example wiring the seven segment
pins are pairwise distinct and the display is of type 1, but the decimal point
was enabled on pin 12, the pin of segment G, and then cleared. `displayValue`
of the mask of '-', whose bit 6 is 1, sets pin 12 in its loop and then clears
it in the closing `displayDP`: the pin of segment G is low although its bit
is 1. -/
theorem C34_decimal_point_overrides_segment :
    segmentLevels dpOnSegmentG = [false, false, false, false, false, false, false] ∧
    [dpOnSegmentG.segments 0, dpOnSegmentG.segments 1, dpOnSegmentG.segments 2,
      dpOnSegmentG.segments 3, dpOnSegmentG.segments 4, dpOnSegmentG.segments 5,
      dpOnSegmentG.segments 6] = [0, 4, 9, 7, 17, 8, 12] ∧
    dpOnSegmentG.sevenSegType = 1 ∧ dpOnSegmentG.dp = 12 ∧ dpOnSegmentG.enableDP = false ∧
    ((64 : Int) / 2 ^ 6) % 2 = 1 ∧
    (displayValue dpOnSegmentG 64).gpioLevel (dpOnSegmentG.segments 6) = false ∧
    segmentLevels (displayValue dpOnSegmentG 64) =
      [false, false, false, false, false, false, false] := by
  decide

/-- C34 (amended): with the segment pins pairwise distinct and the
decimal-point pin not among them, `displayValue(m)` leaves segment pin `i`
(`i` in 0..6) high exactly when bit `i` of `m` is 1 on a type 1 display and
exactly when bit `i` is 0 on a type 0 display. `enableDigit` and `enableDigits`
drive every bound digit pin low on type 1 and high on type 0, and `clearDigits`
drives it high on type 1 and low on type 0. -/
theorem C34_segment_and_digit_levels (s : State) (m : Int) (i : Nat) (hi : i < 7)
    (hdist : ∀ j ∈ List.range 7, j ≠ i → s.segments (j : Int) ≠ s.segments (i : Int))
    (hdp : s.dp ≠ s.segments (i : Int)) :
    (s.sevenSegType = 1 →
      ((displayValue s m).gpioLevel (s.segments (i : Int)) = true ↔ (m / 2 ^ i) % 2 = 1)) ∧
    (s.sevenSegType = 0 →
      ((displayValue s m).gpioLevel (s.segments (i : Int)) = true ↔ (m / 2 ^ i) % 2 = 0)) ∧
    (∀ d : Int, s.digits d ≠ -1 →
      (s.sevenSegType = 1 → (enableDigit s d).gpioLevel (s.digits d) = false) ∧
      (s.sevenSegType = 0 → (enableDigit s d).gpioLevel (s.digits d) = true)) ∧
    (∀ d ∈ [0, 1, 2, 3], s.digits d ≠ -1 →
      (s.sevenSegType = 1 → (enableDigits s).gpioLevel (s.digits d) = false) ∧
      (s.sevenSegType = 0 → (enableDigits s).gpioLevel (s.digits d) = true)) ∧
    (∀ d ∈ [0, 1, 2, 3], s.digits d ≠ -1 →
      (s.sevenSegType = 1 → (clearDigits s).gpioLevel (s.digits d) = true) ∧
      (s.sevenSegType = 0 → (clearDigits s).gpioLevel (s.digits d) = false)) := by
  have hlev : (displayValue s m).gpioLevel (s.segments (i : Int)) =
      decide (((m / 2 ^ i) % 2 = 1 ∧ s.sevenSegType = 1) ∨
        ((m / 2 ^ i) % 2 = 0 ∧ s.sevenSegType = 0)) := by
    unfold displayValue
    simp only []
    have h1 := foldl_onlyGpio
      (fun (st : State) (k : Nat) =>
        if ((m / 2 ^ k) % 2 = 1 ∧ st.sevenSegType = 1) ∨
            ((m / 2 ^ k) % 2 = 0 ∧ st.sevenSegType = 0)
        then gpioSet st (st.segments k) else gpioClr st (st.segments k))
      (by
        intro st a
        simp only [gpioSet, gpioClr]
        split_ifs <;> rfl)
      (List.range 7) s
    have h2 := segmentFold_at m i (List.range 7) s (List.mem_range.mpr hi)
      (List.nodup_range 7) hdist
    rw [displayDP_level _ _ (by rw [h1]; exact hdp)]
    exact h2
  have hbit : (m / 2 ^ i) % 2 = 0 ∨ (m / 2 ^ i) % 2 = 1 := by omega
  refine ⟨?_, ?_, ?_, ?_, ?_⟩
  · intro ht
    rw [hlev, decide_eq_true_iff]
    constructor
    · rintro (⟨h, _⟩ | ⟨_, h⟩)
      · exact h
      · omega
    · intro h
      exact Or.inl ⟨h, ht⟩
  · intro ht
    rw [hlev, decide_eq_true_iff]
    constructor
    · rintro (⟨_, h⟩ | ⟨h, _⟩)
      · omega
      · exact h
    · intro h
      exact Or.inr ⟨h, ht⟩
  · intro d hb
    unfold enableDigit
    rw [if_pos hb]
    constructor
    · intro ht
      rw [if_pos ht]
      simp [gpioClr, setAt]
    · intro ht
      rw [if_neg (by omega)]
      simp [gpioSet, setAt]
  · intro d hd hb
    rw [enableDigits_enables s d hd hb]
    unfold enablingLevel
    constructor
    · intro ht
      rw [if_pos ht]
    · intro ht
      rw [if_neg (by omega)]
  · intro d hd hb
    rw [clearDigits_disables s d hd hb]
    unfold enablingLevel
    constructor
    · intro ht
      rw [if_pos ht]
      rfl
    · intro ht
      rw [if_neg (by omega)]
      rfl

theorem C34_segment_and_digit_levels_witness :
    (wiredDisplay text1234).sevenSegType = 1 ∧
    ((displayValue (wiredDisplay text1234) 6).gpioLevel
        ((wiredDisplay text1234).segments ((1 : Nat) : Int)) = true ↔
      ((6 : Int) / 2 ^ 1) % 2 = 1) ∧
    (enableDigits (wiredDisplay text1234)).gpioLevel ((wiredDisplay text1234).digits 2) =
      false :=
  ⟨by decide,
    (C34_segment_and_digit_levels (wiredDisplay text1234) 6 1 (by decide) (by decide)
      (by decide)).1 (by decide),
    ((C34_segment_and_digit_levels (wiredDisplay text1234) 6 1 (by decide) (by decide)
      (by decide)).2.2.2.1 2 (by decide) (by decide)).1 (by decide)⟩

end SevenSegment
